import Mathlib

/-!
Verification development for the `idea-explorer` research-pipeline core.

This file gives a shallow embedding, in Lean 4, of the parts of the
repository that the specification's claims are about:

* `src/core/retry.py` — the exponential-backoff retry helper
  (`retry_with_backoff`, `call_with_retry`);
* `src/core/security.py` — the sensitive-environment filter
  (`SENSITIVE_ENV_VARS`, `get_safe_env`) and the streaming redaction
  function (`API_KEY_PATTERNS`, `sanitize_text`);
* `src/core/pipeline_orchestrator.py` — `PipelineState` and
  `ResearchPipelineOrchestrator.run_pipeline` / `resume_pipeline`, together
  with the per-stage runners (`run_resource_finder` from
  `src/agents/resource_finder.py` and `_run_experiment_runner`);
* `src/core/runner.py` / `src/core/idea_manager.py` — the idea-store
  side effects of `ResearchRunner.run_research`.

Conventions of the embedding:

* Python dicts keyed by strings become association lists
  (`List (String × _)`) with the insertion-order update discipline of a
  Python dict (assignment to an existing key replaces in place, a new key
  is appended).
* Wall-clock timestamps (`datetime.now()`) are threaded as abstract `Nat`
  values; nothing proved here depends on their contents.
* Python floats in the retry helper are modelled as exact rationals (`ℚ`);
  the claims under scrutiny are about the algorithm's arithmetic, not
  floating-point rounding.
* Exceptions become `Except`; an exception that the modelled code
  re-raises after recording its effects is an `Except.error`.
* External process behaviour (exit code, timeout, completion-marker file)
  is a parameter of the model; the code paths that react to it are
  translated from the source.
-/

/-! # Retry helper (`src/core/retry.py`) -/

/-- Outcome of one invocation of the wrapped operation: it either returns a
value or raises an exception (Python exceptions are abstracted by a type
`ε` plus a `retriable` predicate modelling membership in the
`retryable_exceptions` tuple). -/
inductive Attempt (α ε : Type) where
  | ok (a : α)
  | exc (e : ε)
deriving DecidableEq, Repr

/-- Result of running an operation under the retry wrapper: the value
returned or the exception finally propagated, how many times the wrapped
operation was invoked, and the exact durations passed to `time.sleep`, in
order. -/
structure RetryOutcome (α ε : Type) where
  result : Except ε α
  calls : Nat
  sleeps : List ℚ

/-- The `for attempt in range(1, max_retries + 2)` loop of
`retry_with_backoff.decorator.wrapper` (retry.py lines 46–76).
`idx` is the 1-based attempt counter, `retriesLeft` the number of retries
still allowed after this attempt (so the loop entry has
`retriesLeft = max_retries`), `delay` the current backoff delay.
A retryable failure with `retriesLeft = 0` corresponds to
`attempt == max_retries + 1`, which re-raises; otherwise the wrapper
sleeps `delay` and continues with `delay = min(delay * backoff_factor,
max_delay)`. A non-retryable exception is not caught by the
`except retryable_exceptions` clause and propagates at once. -/
def retryGo {α ε : Type} (f : Nat → Attempt α ε) (retriable : ε → Bool)
    (maxDelay factor : ℚ) : Nat → Nat → ℚ → RetryOutcome α ε
  | idx, retriesLeft, delay =>
    match f idx with
    | .ok a => ⟨.ok a, 1, []⟩
    | .exc e =>
      if retriable e then
        match retriesLeft with
        | 0 => ⟨.error e, 1, []⟩
        | r + 1 =>
          let rest := retryGo f retriable maxDelay factor (idx + 1) r
            (min (delay * factor) maxDelay)
          ⟨rest.result, rest.calls + 1, delay :: rest.sleeps⟩
      else ⟨.error e, 1, []⟩

/-- `retry_with_backoff(max_retries, base_delay, max_delay,
backoff_factor, retryable_exceptions)` applied to an operation `f`
(retry.py lines 23–80). The decorator itself only closes over the
parameters; the behaviour is the wrapper loop. -/
def retry_with_backoff {α ε : Type} (maxRetries : Nat)
    (baseDelay maxDelay factor : ℚ) (retriable : ε → Bool)
    (f : Nat → Attempt α ε) : RetryOutcome α ε :=
  retryGo f retriable maxDelay factor 1 maxRetries baseDelay

/-- `call_with_retry(func, *args, ...)` (retry.py lines 83–123): it wraps
`_inner = func(*args, **kwargs)` with `retry_with_backoff` using the same
parameters and invokes it once. -/
def call_with_retry {α ε : Type} (maxRetries : Nat)
    (baseDelay maxDelay factor : ℚ) (retriable : ε → Bool)
    (f : Nat → Attempt α ε) : RetryOutcome α ε :=
  retry_with_backoff maxRetries baseDelay maxDelay factor retriable f

/-- The list of delays slept when every attempt fails, starting from
delay `d`: `d, min(d·factor, maxDelay), …`, with `r` sleeps in total. -/
def sleepSeq (maxDelay factor : ℚ) : ℚ → Nat → List ℚ
  | _, 0 => []
  | d, r + 1 => d :: sleepSeq maxDelay factor (min (d * factor) maxDelay) r

theorem retryGo_all_fail {α ε : Type} (f : Nat → Attempt α ε)
    (retriable : ε → Bool) (maxDelay factor : ℚ) (e : Nat → ε)
    (hf : ∀ i, f i = .exc (e i)) (hr : ∀ i, retriable (e i) = true) :
    ∀ (r idx : Nat) (d : ℚ),
      retryGo f retriable maxDelay factor idx r d =
        ⟨.error (e (idx + r)), r + 1, sleepSeq maxDelay factor d r⟩ := by
  intro r
  induction r with
  | zero =>
    intro idx d
    simp [retryGo, hf idx, hr idx, sleepSeq]
  | succ r ih =>
    intro idx d
    rw [retryGo]
    simp only [hf idx, hr idx, if_pos]
    rw [ih (idx + 1)]
    have h : idx + 1 + r = idx + (r + 1) := by omega
    simp [sleepSeq, h]

theorem retryGo_first_success {α ε : Type} (f : Nat → Attempt α ε)
    (retriable : ε → Bool) (maxDelay factor : ℚ) :
    ∀ (j r idx : Nat) (d : ℚ) (v : α), j < r + 1 →
      f (idx + j) = .ok v →
      (∀ i, i < j → ∃ e, f (idx + i) = .exc e ∧ retriable e = true) →
      (retryGo f retriable maxDelay factor idx r d).result = .ok v ∧
      (retryGo f retriable maxDelay factor idx r d).calls = j + 1 ∧
      (retryGo f retriable maxDelay factor idx r d).sleeps.length = j := by
  intro j
  induction j with
  | zero =>
    intro r idx d v _ hok _
    simp only [Nat.add_zero] at hok
    rw [retryGo]
    simp [hok]
  | succ j ih =>
    intro r idx d v hlt hok hfail
    obtain ⟨e, he, hre⟩ := hfail 0 (Nat.succ_pos j)
    simp only [Nat.add_zero] at he
    match r, hlt with
    | r + 1, _ =>
      rw [retryGo]
      simp only [he, hre, if_pos]
      have hj : j < r + 1 := by omega
      have hok' : f (idx + 1 + j) = .ok v := by
        have : idx + 1 + j = idx + (j + 1) := by omega
        rw [this]; exact hok
      have hfail' : ∀ i, i < j → ∃ e, f (idx + 1 + i) = .exc e ∧ retriable e = true := by
        intro i hi
        have : idx + 1 + i = idx + (i + 1) := by omega
        rw [this]; exact hfail (i + 1) (by omega)
      obtain ⟨h1, h2, h3⟩ := ih (r) (idx + 1) (min (d * factor) maxDelay) v hj hok' hfail'
      refine ⟨h1, ?_, ?_⟩ <;> simp [h2, h3]

theorem min_cap_step (d m fac : ℚ) (hd : 0 ≤ d) (hdm : d ≤ m) (hfac : 0 ≤ fac)
    (k : Nat) : min (min (d * fac ^ k) m * fac) m = min (d * fac ^ (k + 1)) m := by
  rcases le_or_lt (d * fac ^ k) m with h | h
  · rw [min_eq_left h, pow_succ, ← mul_assoc]
  · have hm : 0 ≤ m := le_trans hd hdm
    have hd0 : 0 < d := by
      rcases lt_or_eq_of_le hd with h0 | h0
      · exact h0
      · exfalso; rw [← h0] at h; simp at h; linarith
    have h1 : (1 : ℚ) < fac ^ k := by nlinarith
    have hfac1 : 1 < fac := by
      by_contra hle
      push_neg at hle
      have : fac ^ k ≤ 1 := pow_le_one₀ hfac hle
      linarith
    rw [min_eq_right h.le]
    have h2 : m ≤ m * fac := le_mul_of_one_le_right hm hfac1.le
    have h3 : m ≤ d * fac ^ (k + 1) := by
      rw [pow_succ, ← mul_assoc]
      nlinarith
    rw [min_eq_right h2, min_eq_right h3]

theorem sleepSeq_get (d m fac : ℚ) (hd : 0 ≤ d) (hdm : d ≤ m) (hfac : 0 ≤ fac) :
    ∀ (r k j : Nat), k < r →
      (sleepSeq m fac (min (d * fac ^ j) m) r).get? k =
        some (min (d * fac ^ (j + k)) m) := by
  intro r
  induction r with
  | zero => intro k j hk; omega
  | succ r ih =>
    intro k j hk
    cases k with
    | zero => simp [sleepSeq]
    | succ k =>
      have step := min_cap_step d m fac hd hdm hfac j
      have tail := ih k (j + 1) (by omega)
      simp only [sleepSeq, List.get?, step]
      have harith : j + 1 + k = j + (k + 1) := by omega
      rw [harith] at tail
      exact tail

/-- C7: for every `max_retries = N ≥ 0`, if the wrapped operation raises a
retryable exception on every invocation, both `retry_with_backoff` and
`call_with_retry` invoke the operation exactly `N + 1` times and finally
propagate the exception of the last attempt unchanged (so `N = 0` gives
exactly one attempt); and an operation that first succeeds at attempt `j`
is invoked exactly `j` times, returns that value, and incurs exactly
`j - 1` backoff sleeps (none after the success). -/
theorem retry_invocation_bounds {α ε : Type} (N : Nat) (d m fac : ℚ)
    (retriable : ε → Bool) (f : Nat → Attempt α ε) (e : Nat → ε)
    (hf : ∀ i, f i = .exc (e i)) (hr : ∀ i, retriable (e i) = true) :
    (retry_with_backoff N d m fac retriable f).calls = N + 1 ∧
    (retry_with_backoff N d m fac retriable f).result = .error (e (N + 1)) ∧
    call_with_retry N d m fac retriable f =
      retry_with_backoff N d m fac retriable f ∧
    (∀ (g : Nat → Attempt α ε) (j : Nat) (v : α), 1 ≤ j → j ≤ N + 1 →
      g j = .ok v →
      (∀ i, 1 ≤ i → i < j → ∃ e', g i = .exc e' ∧ retriable e' = true) →
      (retry_with_backoff N d m fac retriable g).result = .ok v ∧
      (retry_with_backoff N d m fac retriable g).calls = j ∧
      (retry_with_backoff N d m fac retriable g).sleeps.length = j - 1) := by
  have hall := retryGo_all_fail f retriable m fac e hf hr N 1 d
  refine ⟨?_, ?_, rfl, ?_⟩
  · simp [retry_with_backoff, hall]
  · rw [retry_with_backoff, hall]
    have h : 1 + N = N + 1 := by omega
    rw [h]
  · intro g j v h1 h2 hok hfail
    obtain ⟨j', rfl⟩ : ∃ j', j = j' + 1 := ⟨j - 1, by omega⟩
    have hok' : g (1 + j') = .ok v := by rw [Nat.add_comm]; exact hok
    have hfail' : ∀ i, i < j' → ∃ e', g (1 + i) = .exc e' ∧ retriable e' = true := by
      intro i hi
      exact hfail (1 + i) (by omega) (by omega)
    have h := retryGo_first_success g retriable m fac j' N 1 d v (by omega) hok' hfail'
    refine ⟨h.1, ?_, ?_⟩
    · rw [retry_with_backoff, h.2.1]
    · rw [retry_with_backoff, h.2.2]; omega

/-- Witness for C7 at a concrete input: `max_retries = 2`, an operation
failing with a retryable error on every call. -/
theorem retry_invocation_bounds_witness :
    (retry_with_backoff 2 1 60 2 (fun _ : Unit => true)
        (fun _ => Attempt.exc (α := Unit) ())).calls = 3 ∧
    (retry_with_backoff 2 1 60 2 (fun _ : Unit => true)
        (fun _ => Attempt.exc (α := Unit) ())).result = .error () ∧
    call_with_retry 2 1 60 2 (fun _ : Unit => true)
        (fun _ => Attempt.exc (α := Unit) ()) =
      retry_with_backoff 2 1 60 2 (fun _ : Unit => true)
        (fun _ => Attempt.exc (α := Unit) ()) ∧
    (∀ (g : Nat → Attempt Unit Unit) (j : Nat) (v : Unit), 1 ≤ j → j ≤ 3 →
      g j = .ok v →
      (∀ i, 1 ≤ i → i < j → ∃ e', g i = .exc e' ∧ (fun _ : Unit => true) e' = true) →
      (retry_with_backoff 2 1 60 2 (fun _ : Unit => true) g).result = .ok v ∧
      (retry_with_backoff 2 1 60 2 (fun _ : Unit => true) g).calls = j ∧
      (retry_with_backoff 2 1 60 2 (fun _ : Unit => true) g).sleeps.length = j - 1) :=
  retry_invocation_bounds 2 1 60 2 (fun _ : Unit => true)
    (fun _ => Attempt.exc ()) (fun _ => ()) (fun _ => rfl) (fun _ => rfl)

/-- C8 fails as stated: the delay cap is applied only after the
multiplication, so with `base_delay = 100 > max_delay = 60` the first
sleep is `100`, not `min(100·f⁰, 60) = 60`. -/
theorem backoff_growth_cex :
    (retry_with_backoff 1 100 60 2 (fun _ : Unit => true)
        (fun _ => Attempt.exc (α := Unit) ())).sleeps.get? 0 = some 100 ∧
    (100 : ℚ) ≠ min (100 * 2 ^ 0) 60 := by
  constructor
  · rfl
  · rw [pow_zero, mul_one]
    intro h
    have h60 : min (100 : ℚ) 60 = 60 := min_eq_right (by norm_num)
    rw [h60] at h
    norm_num at h

/-- C8 amended: for nonnegative parameters with `base_delay ≤ max_delay`
(the cap is applied only after each multiplication, so a base delay above
the cap is slept in full on the first retry), the `k`-th backoff sleep of
a permanently failing retryable operation equals
`min(base_delay · backoff_factor^(k-1), max_delay)` (here `k` is
0-indexed: `sleeps.get? k` is the `(k+1)`-st sleep). -/
theorem backoff_growth (N : Nat) (d m fac : ℚ) {ε : Type}
    (retriable : ε → Bool) (f : Nat → Attempt Unit ε) (e : Nat → ε)
    (hf : ∀ i, f i = .exc (e i)) (hr : ∀ i, retriable (e i) = true)
    (hd : 0 ≤ d) (hdm : d ≤ m) (hfac : 0 ≤ fac) :
    ∀ k, k < N →
      (retry_with_backoff N d m fac retriable f).sleeps.get? k =
        some (min (d * fac ^ k) m) := by
  intro k hk
  have hall := retryGo_all_fail f retriable m fac e hf hr N 1 d
  rw [retry_with_backoff, hall]
  have h0 : d = min (d * fac ^ 0) m := by
    rw [pow_zero, mul_one, min_eq_left hdm]
  calc (sleepSeq m fac d N).get? k
      = (sleepSeq m fac (min (d * fac ^ 0) m) N).get? k := by rw [← h0]
    _ = some (min (d * fac ^ (0 + k)) m) :=
        sleepSeq_get d m fac hd hdm hfac N k 0 hk
    _ = some (min (d * fac ^ k) m) := by rw [Nat.zero_add]

/-- Witness for the amended C8 at a concrete input: `max_retries = 3`,
`base_delay = 10 ≤ max_delay = 25`, factor `3`; the first sleep is the
uncapped `10` and the third is capped at `25`. -/
theorem backoff_growth_witness :
    (retry_with_backoff 3 10 25 3 (fun _ : Unit => true)
        (fun _ => Attempt.exc (α := Unit) ())).sleeps.get? 0 =
      some (min (10 * 3 ^ 0) 25) ∧
    (retry_with_backoff 3 10 25 3 (fun _ : Unit => true)
        (fun _ => Attempt.exc (α := Unit) ())).sleeps.get? 2 =
      some (min (10 * 3 ^ 2) 25) :=
  ⟨backoff_growth 3 10 25 3 (fun _ : Unit => true)
      (fun _ => Attempt.exc ()) (fun _ => ()) (fun _ => rfl) (fun _ => rfl)
      (by norm_num) (by norm_num) (by norm_num) 0 (by norm_num),
    backoff_growth 3 10 25 3 (fun _ : Unit => true)
      (fun _ => Attempt.exc ()) (fun _ => ()) (fun _ => rfl) (fun _ => rfl)
      (by norm_num) (by norm_num) (by norm_num) 2 (by norm_num)⟩

/-! # Pipeline state (`pipeline_orchestrator.py`, class `PipelineState`) -/

/-- Status values stored in a stage record (`'in_progress'`, `'completed'`,
`'failed'`). -/
inductive StageStatus where
  | inProgress
  | completed
  | failed
deriving DecidableEq, Repr

/-- Free-form `outputs` mapping stored with a stage record; its contents are
opaque to the orchestrator, modelled as a string-keyed association list. -/
abbrev Outputs := List (String × String)

/-- One stage record of the persisted pipeline state. `start_stage` writes
all five fields; `complete_stage` on a never-started stage creates a record
without a `started_at` key, modelled by `startedAt = none`. -/
structure StageRecord where
  status : StageStatus
  startedAt : Option Nat
  completedAt : Option Nat
  success : Option Bool
  outputs : Outputs
deriving DecidableEq, Repr

/-- Python-dict assignment on an association list: replace the value at an
existing key in place, append a new key at the end. -/
def dictSet {α : Type} : List (String × α) → String → α → List (String × α)
  | [], k, v => [(k, v)]
  | (k', v') :: rest, k, v =>
    if k' = k then (k', v) :: rest else (k', v') :: dictSet rest k v

/-- Python-dict lookup on an association list. -/
def dictGet {α : Type} : List (String × α) → String → Option α
  | [], _ => none
  | (k', v') :: rest, k => if k' = k then some v' else dictGet rest k

/-- The in-memory pipeline state dict (`pipeline_orchestrator.py` lines
23–88). Every mutating method immediately rewrites the state file; since
the file's contents always equal the in-memory dict, persistence is not
modelled separately. -/
structure PipelineState where
  createdAt : Nat
  stages : List (String × StageRecord)
  currentStage : Option String
  completed : Bool
  completedAt : Option Nat
deriving DecidableEq, Repr

/-- Freshly created state (`PipelineState.__init__` when no state file
exists): empty stage map, no current stage, not completed. -/
def PipelineState.fresh (now : Nat) : PipelineState :=
  ⟨now, [], none, false, none⟩

/-- `PipelineState.start_stage` (lines 49–59): sets `current_stage` and
overwrites the stage's record with a fresh in-progress record. -/
def PipelineState.start_stage (st : PipelineState) (name : String)
    (now : Nat) : PipelineState :=
  { st with
    currentStage := some name
    stages := dictSet st.stages name ⟨.inProgress, some now, none, none, []⟩ }

/-- `PipelineState.complete_stage` (lines 61–73): dict-`update`s the
stage's record (creating it if absent, so `started_at` is kept when present
and absent otherwise), and clears `current_stage`. -/
def PipelineState.complete_stage (st : PipelineState) (name : String)
    (success : Bool) (outputs : Option Outputs) (now : Nat) : PipelineState :=
  let startedAt :=
    match dictGet st.stages name with
    | some r => r.startedAt
    | none => none
  { st with
    currentStage := none
    stages := dictSet st.stages name
      ⟨if success then .completed else .failed, startedAt, some now,
       some success, outputs.getD []⟩ }

/-- `PipelineState.mark_completed` (lines 75–79). -/
def PipelineState.mark_completed (st : PipelineState) (now : Nat) :
    PipelineState :=
  { st with completed := true, completedAt := some now }

/-- `PipelineState.get_stage_status` (lines 81–83). -/
def PipelineState.get_stage_status (st : PipelineState) (name : String) :
    Option StageStatus :=
  (dictGet st.stages name).map (·.status)

/-- `PipelineState.is_stage_completed` (lines 85–88): status is
`'completed'` and the stored `success` field is truthy (a `None` success
reads as false via `stage.get('success', False)`). -/
def PipelineState.is_stage_completed (st : PipelineState) (name : String) :
    Bool :=
  match dictGet st.stages name with
  | some r => r.status == .completed && r.success.getD false
  | none => false

/-! # Stage runners and the orchestrator
(`pipeline_orchestrator.py` lines 99–538, `resource_finder.py` lines
144–345) -/

/-- Behaviour of the external resource-finder agent process during one
invocation of `run_resource_finder`: an exception raised before the
process is spawned (e.g. while reading the prompt template), an exception
raised while streaming or waiting, a `TimeoutExpired` kill, or a normal
exit with a given return code. The `.resource_finder_complete` marker
file's existence after the run is part of the outcome. -/
inductive RFProcOutcome where
  | raisedBeforeSpawn
  | raisedDuringStream
  | timedOut (markerExists : Bool)
  | exited (returnCode : Int) (markerExists : Bool)
deriving DecidableEq, Repr

/-- Whether the outcome involved an actual agent process. -/
def RFProcOutcome.spawned : RFProcOutcome → Bool
  | .raisedBeforeSpawn => false
  | _ => true

/-- The dictionary returned by `run_resource_finder` (resource_finder.py
lines 338–345); the `log_file`, `transcript_file` and `elapsed_time`
entries are opaque to every claim and omitted. -/
structure RFResult where
  success : Bool
  completionMarker : Option String
  outputs : Outputs
deriving DecidableEq, Repr

/-- `run_resource_finder` (resource_finder.py lines 144–345), as a function
of the process outcome and of which expected output files were found.
Success is decided by the completion marker's existence (lines 289–296),
not by the exit code; on timeout success is false; exceptions re-raise
after the `success = False` assignment (line 306). -/
def run_resource_finder : RFProcOutcome → Outputs → Except Unit RFResult
  | .raisedBeforeSpawn, _ => .error ()
  | .raisedDuringStream, _ => .error ()
  | .timedOut marker, found =>
    .ok ⟨false, if marker then some ".resource_finder_complete" else none, found⟩
  | .exited _ marker, found =>
    .ok ⟨marker, if marker then some ".resource_finder_complete" else none, found⟩

/-- Behaviour of the experiment-runner agent process during one invocation
of `_run_experiment_runner`. -/
inductive ERProcOutcome where
  | raisedBeforeSpawn
  | raisedDuringStream
  | timedOut
  | exited (returnCode : Int)
deriving DecidableEq, Repr

/-- Whether the outcome involved an actual agent process. -/
def ERProcOutcome.spawned : ERProcOutcome → Bool
  | .raisedBeforeSpawn => false
  | _ => true

/-- The result dictionary built by `_run_experiment_runner`
(pipeline_orchestrator.py lines 451–473); `elapsed_time`, `log_file` and
`transcript_file` are opaque to every claim and omitted. -/
structure ERResult where
  success : Bool
  returnCode : Option Int
  error : Option String
deriving DecidableEq, Repr

/-- A state-file mutation performed through `PipelineState`. -/
inductive StateOp where
  | start (name : String) (now : Nat)
  | complete (name : String) (success : Bool) (outputs : Option Outputs) (now : Nat)
  | markDone (now : Nat)
deriving DecidableEq, Repr

/-- Apply one recorded mutation to a state. -/
def applyOp (st : PipelineState) : StateOp → PipelineState
  | .start n t => st.start_stage n t
  | .complete n s o t => st.complete_stage n s o t
  | .markDone t => st.mark_completed t

/-- Result of one orchestrator stage helper: the value returned (or the
exception propagated), the `PipelineState` mutations it performed in
order, and whether it spawned an agent process. -/
structure StageRun (α : Type) where
  result : Except Unit α
  ops : List StateOp
  spawned : Bool

/-- `ResearchPipelineOrchestrator._run_resource_finder` (lines 237–270):
`start_stage`, invoke `run_resource_finder`, then `complete_stage` with
the result's success and outputs; on an exception, `complete_stage` with
failure and re-raise. -/
def run_resource_finder_stage (proc : RFProcOutcome) (found : Outputs)
    (t : Nat) : StageRun RFResult :=
  match run_resource_finder proc found with
  | .ok res =>
    ⟨.ok res,
     [.start "resource_finder" t,
      .complete "resource_finder" res.success (some res.outputs) (t + 1)],
     proc.spawned⟩
  | .error _ =>
    ⟨.error (),
     [.start "resource_finder" t,
      .complete "resource_finder" false none (t + 1)],
     proc.spawned⟩

/-- `ResearchPipelineOrchestrator._wait_for_human_approval` (lines
272–309): `start_stage`, read a yes/no answer, `complete_stage` with the
answer as success. -/
def wait_for_human_approval (approved : Bool) (t : Nat) : StageRun Bool :=
  ⟨.ok approved,
   [.start "human_review" t,
    .complete "human_review" approved
      (some [("approved", toString approved)]) (t + 1)],
   false⟩

/-- `ResearchPipelineOrchestrator._run_experiment_runner` (lines 311–474):
`start_stage`; on a normal exit record success iff the return code is `0`
(lines 444–449); on `TimeoutExpired` record failure and return (no raise);
on any other exception record failure and re-raise. -/
def run_experiment_runner_stage (proc : ERProcOutcome) (t : Nat) :
    StageRun ERResult :=
  match proc with
  | .raisedBeforeSpawn =>
    ⟨.error (),
     [.start "experiment_runner" t,
      .complete "experiment_runner" false
        (some [("success", "False"), ("error", "exception")]) (t + 1)],
     false⟩
  | .raisedDuringStream =>
    ⟨.error (),
     [.start "experiment_runner" t,
      .complete "experiment_runner" false
        (some [("success", "False"), ("error", "exception")]) (t + 1)],
     true⟩
  | .timedOut =>
    ⟨.ok ⟨false, none, some "timeout"⟩,
     [.start "experiment_runner" t,
      .complete "experiment_runner" false
        (some [("success", "False"), ("error", "timeout")]) (t + 1)],
     true⟩
  | .exited rc =>
    ⟨.ok ⟨rc == 0, some rc, none⟩,
     [.start "experiment_runner" t,
      .complete "experiment_runner" (rc == 0)
        (some [("success", toString (rc == 0)),
               ("return_code", toString rc)]) (t + 1)],
     true⟩

/-- The `results['stages']['resource_finder']` entry of the pipeline
result: either the stage runner's result dict, or the literal
`{'success': True, 'skipped': True}` written on the skip path. -/
inductive RFStageEntry where
  | ran (r : RFResult)
  | skippedEntry
deriving DecidableEq, Repr

/-- The `results` dictionary built by `run_pipeline` (lines 164–235):
overall success flag and the per-stage entries present so far. -/
structure PipeResults where
  success : Bool
  rfEntry : Option RFStageEntry
  hrEntry : Option Bool
  erEntry : Option ERResult
deriving DecidableEq, Repr

/-- One full `run_pipeline` call: the returned (or raised) result, the
ordered pipeline-state mutations, and the stages that spawned an agent
process, in order. -/
structure PipeRun where
  result : Except Unit PipeResults
  ops : List StateOp
  spawns : List String

/-- Stages 2 and 3 of `run_pipeline` (lines 193–235), entered after the
resource-finder stage succeeded or was skipped. -/
def pipelineAfterRF (rfEntry : RFStageEntry) (opsSoFar : List StateOp)
    (spawnsSoFar : List String) (pause approved : Bool)
    (erProc : ERProcOutcome) : PipeRun :=
  let hrOps : List StateOp :=
    if pause then (wait_for_human_approval approved 2).ops else []
  if pause ∧ approved = false then
    ⟨.ok ⟨false, some rfEntry, some approved, none⟩, opsSoFar ++ hrOps,
     spawnsSoFar⟩
  else
    let er := run_experiment_runner_stage erProc 4
    let erSpawns := if er.spawned then ["experiment_runner"] else []
    match er.result with
    | .error _ =>
      ⟨.error (), opsSoFar ++ hrOps ++ er.ops, spawnsSoFar ++ erSpawns⟩
    | .ok res =>
      let doneOps : List StateOp := if res.success then [.markDone 6] else []
      ⟨.ok ⟨res.success, some rfEntry,
            (if pause then some approved else none), some res⟩,
       opsSoFar ++ hrOps ++ er.ops ++ doneOps, spawnsSoFar ++ erSpawns⟩

/-- `ResearchPipelineOrchestrator.run_pipeline` (lines 125–235): stage 1
(resource finder, unless skipped, aborting the pipeline on its failure),
optional human review, experiment runner, and `mark_completed` on
success. -/
def run_pipeline (skip pause : Bool) (rfProc : RFProcOutcome)
    (rfFound : Outputs) (approved : Bool) (erProc : ERProcOutcome) :
    PipeRun :=
  if skip then
    pipelineAfterRF .skippedEntry
      [.complete "resource_finder" true (some [("skipped", "true")]) 0]
      [] pause approved erProc
  else
    let rf := run_resource_finder_stage rfProc rfFound 0
    let rfSpawns := if rf.spawned then ["resource_finder"] else []
    match rf.result with
    | .error _ => ⟨.error (), rf.ops, rfSpawns⟩
    | .ok res =>
      if res.success then
        pipelineAfterRF (.ran res) rf.ops rfSpawns pause approved erProc
      else
        ⟨.ok ⟨false, some (.ran res), none, none⟩, rf.ops, rfSpawns⟩

/-- The short-circuit dictionary returned by `resume_pipeline` when both
tracked stages are already completed (lines 522–528). -/
structure ResumeShort where
  success : Bool
  resumed : Bool
  message : String
deriving DecidableEq, Repr

/-- One full `resume_pipeline` call. -/
structure ResumeRun where
  result : Except Unit (Sum ResumeShort PipeResults)
  ops : List StateOp
  spawns : List String

/-- `ResearchPipelineOrchestrator.resume_pipeline` (lines 485–538):
short-circuit when both tracked stages are completed, otherwise re-enter
`run_pipeline` with `skip_resource_finder` set iff the resource finder is
already completed. -/
def resume_pipeline (st : PipelineState) (pause : Bool)
    (rfProc : RFProcOutcome) (rfFound : Outputs) (approved : Bool)
    (erProc : ERProcOutcome) : ResumeRun :=
  let rfDone := st.is_stage_completed "resource_finder"
  let erDone := st.is_stage_completed "experiment_runner"
  if rfDone && erDone then
    ⟨.ok (.inl ⟨true, false, "Pipeline already complete"⟩), [], []⟩
  else
    let r := run_pipeline rfDone pause rfProc rfFound approved erProc
    ⟨r.result.map Sum.inr, r.ops, r.spawns⟩

/-! # State invariant of the orchestrator's mutation traces (C2) -/

/-- Number of stage records currently `in_progress`. -/
def inProgressCount (st : PipelineState) : Nat :=
  (st.stages.filter (fun p => p.2.status == .inProgress)).length

/-- The invariant claimed of every reachable state: at most one stage is
`in_progress`; an `in_progress` record's name equals `current_stage`; when
nothing is in progress, `current_stage` is null. -/
def StateInv (st : PipelineState) : Prop :=
  inProgressCount st ≤ 1 ∧
  (∀ p ∈ st.stages, p.2.status = .inProgress → st.currentStage = some p.1) ∧
  ((∀ p ∈ st.stages, p.2.status ≠ .inProgress) → st.currentStage = none)

/-- A quiescent state: no current stage and nothing in progress. The
orchestrator's traces return to this shape after every completed stage. -/
def CleanState (st : PipelineState) : Prop :=
  st.currentStage = none ∧ ∀ p ∈ st.stages, p.2.status ≠ .inProgress

theorem mem_dictSet {α : Type} (l : List (String × α)) (k : String) (v : α) :
    ∀ p ∈ dictSet l k v, p = (k, v) ∨ p ∈ l := by
  induction l with
  | nil => intro p hp; simp [dictSet] at hp; left; exact hp
  | cons hd tl ih =>
    intro p hp
    rw [dictSet] at hp
    by_cases hk : hd.1 = k
    · rw [if_pos hk] at hp
      rcases List.mem_cons.mp hp with h | h
      · left; rw [h, hk]
      · right; exact List.mem_cons_of_mem hd h
    · rw [if_neg hk] at hp
      rcases List.mem_cons.mp hp with h | h
      · right; rw [h]; exact List.mem_cons_self hd tl
      · rcases ih p h with h' | h'
        · left; exact h'
        · right; exact List.mem_cons_of_mem hd h'

theorem filter_dictSet_length {α : Type} (q : String × α → Bool)
    (l : List (String × α)) (k : String) (v : α)
    (hl : (l.filter q).length = 0) :
    ((dictSet l k v).filter q).length ≤ 1 := by
  induction l with
  | nil =>
    by_cases hq : q (k, v) <;> simp [dictSet, hq]
  | cons hd tl ih =>
    simp only [List.filter_cons] at hl
    by_cases hq : q hd
    · rw [if_pos hq] at hl; simp at hl
    · rw [if_neg (by simp [hq])] at hl
      rw [dictSet]
      by_cases hk : hd.1 = k
      · rw [if_pos hk]
        simp only [List.filter_cons]
        by_cases hqv : q (hd.1, v)
        · rw [if_pos (by simp [hqv])]
          simp [hl]
        · rw [if_neg (by simp [hqv])]
          simp [hl]
      · rw [if_neg hk]
        simp only [List.filter_cons, if_neg (by simp [hq] : ¬ (q hd = true))]
        exact ih hl

theorem dictSet_dictSet {α : Type} (l : List (String × α)) (k : String)
    (v v' : α) : dictSet (dictSet l k v) k v' = dictSet l k v' := by
  induction l with
  | nil => simp [dictSet]
  | cons hd tl ih =>
    by_cases hk : hd.1 = k
    · simp [dictSet, hk]
    · simp [dictSet, hk, ih]

theorem dictGet_dictSet_ne {α : Type} (l : List (String × α))
    (k k' : String) (v : α) (h : k ≠ k') :
    dictGet (dictSet l k v) k' = dictGet l k' := by
  induction l with
  | nil => simp [dictSet, dictGet, h]
  | cons hd tl ih =>
    by_cases hk : hd.1 = k
    · simp [dictSet, hk, dictGet, h]
    · simp only [dictSet, if_neg hk, dictGet]
      by_cases hk' : hd.1 = k'
      · simp [hk']
      · simp [hk', ih]

theorem dictSet_mem_self {α : Type} (l : List (String × α)) (k : String)
    (v : α) : (k, v) ∈ dictSet l k v := by
  induction l with
  | nil => simp [dictSet]
  | cons hd tl ih =>
    rw [dictSet]
    by_cases hk : hd.1 = k
    · rw [if_pos hk, hk]
      exact List.mem_cons_self _ _
    · rw [if_neg hk]
      exact List.mem_cons_of_mem hd ih

theorem cleanState_inv {st : PipelineState} (h : CleanState st) :
    StateInv st := by
  obtain ⟨hcur, hnone⟩ := h
  refine ⟨?_, ?_, fun _ => hcur⟩
  · have : st.stages.filter (fun p => p.2.status == .inProgress) = [] := by
      apply List.filter_eq_nil.mpr
      intro p hp
      simp [hnone p hp]
    simp [inProgressCount, this]
  · intro p hp hprog
    exact absurd hprog (hnone p hp)

theorem start_stage_inv {st : PipelineState} (h : CleanState st)
    (name : String) (t : Nat) : StateInv (st.start_stage name t) := by
  obtain ⟨hcur, hnone⟩ := h
  refine ⟨?_, ?_, ?_⟩
  · apply filter_dictSet_length
    apply List.length_eq_zero.mpr
    apply List.filter_eq_nil.mpr
    intro p hp
    simp [hnone p hp]
  · intro p hp hprog
    rcases mem_dictSet _ _ _ p hp with h | h
    · rw [h]; simp [PipelineState.start_stage]
    · exact absurd hprog (hnone p h)
  · intro hc
    exact absurd rfl (hc (name, ⟨.inProgress, some t, none, none, []⟩)
      (dictSet_mem_self st.stages name _))
theorem complete_stage_clean {st : PipelineState} (h : CleanState st)
    (name : String) (s : Bool) (o : Option Outputs) (t : Nat) :
    CleanState (st.complete_stage name s o t) := by
  obtain ⟨hcur, hnone⟩ := h
  refine ⟨rfl, ?_⟩
  intro p hp hprog
  rcases mem_dictSet _ _ _ p hp with h | h
  · rw [h] at hprog
    cases s <;> simp at hprog
  · exact absurd hprog (hnone p h)

theorem start_complete_clean {st : PipelineState} (h : CleanState st)
    (name : String) (t : Nat) (s : Bool) (o : Option Outputs) (t' : Nat) :
    CleanState ((st.start_stage name t).complete_stage name s o t') := by
  obtain ⟨hcur, hnone⟩ := h
  refine ⟨rfl, ?_⟩
  intro p hp hprog
  simp only [PipelineState.complete_stage, PipelineState.start_stage,
    dictSet_dictSet] at hp
  rcases mem_dictSet _ _ _ p hp with h | h
  · rw [h] at hprog
    cases s <;> simp at hprog
  · exact absurd hprog (hnone p h)

theorem mark_completed_clean {st : PipelineState} (h : CleanState st)
    (t : Nat) : CleanState (st.mark_completed t) := by
  obtain ⟨hcur, hnone⟩ := h
  exact ⟨hcur, hnone⟩

theorem fresh_clean (t : Nat) : CleanState (PipelineState.fresh t) := by
  refine ⟨rfl, ?_⟩
  intro p hp
  simp [PipelineState.fresh] at hp

/-- Shape of the mutation traces the orchestrator produces: a sequence of
blocks, each either a `start`/`complete` pair for the same stage, a bare
`complete` (the skip path), or a `mark_completed`. -/
def wfOps : List StateOp → Bool
  | [] => true
  | .start n _ :: .complete m _ _ _ :: rest => n == m && wfOps rest
  | .start _ _ :: _ => false
  | .complete _ _ _ _ :: rest => wfOps rest
  | .markDone _ :: rest => wfOps rest
termination_by l => l.length

theorem inv_fold :
    ∀ (n : Nat) (ops : List StateOp), ops.length ≤ n →
      ∀ (st : PipelineState), CleanState st → wfOps ops = true →
        ∀ k, StateInv ((ops.take k).foldl applyOp st) := by
  intro n
  induction n with
  | zero =>
    intro ops hlen st hclean _ k
    have : ops = [] := List.length_eq_zero.mp (Nat.le_zero.mp hlen)
    subst this
    simp only [List.take_nil, List.foldl_nil]
    exact cleanState_inv hclean
  | succ n ih =>
    intro ops hlen st hclean hwf k
    match ops with
    | [] =>
      simp only [List.take_nil, List.foldl_nil]
      exact cleanState_inv hclean
    | .start nm t :: rest =>
      match rest with
      | [] => simp [wfOps] at hwf
      | .start _ _ :: _ => simp [wfOps] at hwf
      | .markDone _ :: _ => simp [wfOps] at hwf
      | .complete nm' s o t' :: rest' =>
        rw [wfOps] at hwf
        obtain ⟨hnm, hwf'⟩ := by simpa using hwf
        subst hnm
        match k with
        | 0 =>
          simp only [List.take_zero, List.foldl_nil]
          exact cleanState_inv hclean
        | 1 =>
          simp only [List.take_succ_cons, List.take_zero, List.foldl_cons,
            List.foldl_nil, applyOp]
          exact start_stage_inv hclean nm t
        | (k' + 2) =>
          simp only [List.take_succ_cons, List.foldl_cons, applyOp]
          exact ih rest' (by simp at hlen ⊢; omega)
            ((st.start_stage nm t).complete_stage nm s o t')
            (start_complete_clean hclean nm t s o t') hwf' k'
    | .complete nm s o t :: rest' =>
      rw [wfOps] at hwf
      match k with
      | 0 =>
        simp only [List.take_zero, List.foldl_nil]
        exact cleanState_inv hclean
      | (k' + 1) =>
        simp only [List.take_succ_cons, List.foldl_cons, applyOp]
        exact ih rest' (by simp at hlen ⊢; omega)
          (st.complete_stage nm s o t) (complete_stage_clean hclean nm s o t)
          hwf k'
    | .markDone t :: rest' =>
      rw [wfOps] at hwf
      match k with
      | 0 =>
        simp only [List.take_zero, List.foldl_nil]
        exact cleanState_inv hclean
      | (k' + 1) =>
        simp only [List.take_succ_cons, List.foldl_cons, applyOp]
        exact ih rest' (by simp at hlen ⊢; omega)
          (st.mark_completed t) (mark_completed_clean hclean t) hwf k'

theorem run_pipeline_wfOps (skip pause : Bool) (rfProc : RFProcOutcome)
    (rfFound : Outputs) (approved : Bool) (erProc : ERProcOutcome) :
    wfOps (run_pipeline skip pause rfProc rfFound approved erProc).ops = true := by
  cases skip <;> cases pause <;> cases approved <;>
    rcases rfProc with _ | _ | m | ⟨rc, m⟩ <;> (try cases m) <;>
    rcases erProc with _ | _ | _ | rc' <;>
    simp [run_pipeline, pipelineAfterRF, run_resource_finder_stage,
      run_resource_finder, run_experiment_runner_stage,
      wait_for_human_approval, wfOps] <;>
    (try (split <;> simp [wfOps]))

/-- C2: in every pipeline state reachable by the orchestrator's sequence of
`start_stage` / `complete_stage` (and `mark_completed`) calls during
`run_pipeline`, starting from a freshly created empty state, at most one
stage record is `in_progress`; an `in_progress` record's stage name equals
`current_stage`; and when no stage is in progress, `current_stage` is
null. -/
theorem pipeline_state_invariant (skip pause : Bool) (rfProc : RFProcOutcome)
    (rfFound : Outputs) (approved : Bool) (erProc : ERProcOutcome)
    (t0 : Nat) (k : Nat) :
    StateInv (((run_pipeline skip pause rfProc rfFound approved erProc).ops.take k).foldl
      applyOp (PipelineState.fresh t0)) :=
  inv_fold (run_pipeline skip pause rfProc rfFound approved erProc).ops.length
    _ le_rfl _ (fresh_clean t0)
    (run_pipeline_wfOps skip pause rfProc rfFound approved erProc) k

/-- C1: with `skip_resource_finder = False`, if the resource-finder stage
returns (without raising) a result whose success flag is false, then
`run_pipeline` returns `success=False` with the resource-finder detail in
`results['stages']`, the experiment-runner stage spawns no process, and no
`'experiment_runner'` record ever appears in the pipeline state. -/
theorem rf_failure_aborts (pause : Bool) (rfProc : RFProcOutcome)
    (rfFound : Outputs) (approved : Bool) (erProc : ERProcOutcome)
    (res : RFResult) (hok : run_resource_finder rfProc rfFound = .ok res)
    (hfail : res.success = false) :
    (run_pipeline false pause rfProc rfFound approved erProc).result =
      .ok ⟨false, some (.ran res), none, none⟩ ∧
    "experiment_runner" ∉
      (run_pipeline false pause rfProc rfFound approved erProc).spawns ∧
    ∀ k, dictGet
      (((run_pipeline false pause rfProc rfFound approved erProc).ops.take k).foldl
        applyOp (PipelineState.fresh 0)).stages "experiment_runner" = none := by
  have hops : run_pipeline false pause rfProc rfFound approved erProc =
      ⟨.ok ⟨false, some (.ran res), none, none⟩,
       [.start "resource_finder" 0,
        .complete "resource_finder" res.success (some res.outputs) 1],
       if rfProc.spawned then ["resource_finder"] else []⟩ := by
    simp [run_pipeline, run_resource_finder_stage, hok, hfail]
  rw [hops]
  refine ⟨rfl, ?_, ?_⟩
  · split <;> simp
  · intro k
    match k with
    | 0 => simp [PipelineState.fresh, dictGet]
    | 1 =>
      simp [PipelineState.fresh, PipelineState.start_stage, applyOp,
        dictSet, dictGet]
    | (k' + 2) =>
      simp [PipelineState.fresh, PipelineState.start_stage,
        PipelineState.complete_stage, applyOp, dictSet, dictGet]

/-- C3: if the loaded pipeline state has both `resource_finder` and
`experiment_runner` completed successfully, `resume_pipeline` returns the
short-circuit result `success=True, resumed=False` immediately, performing
no state mutation and spawning no process. -/
theorem resume_short_circuit (st : PipelineState) (pause : Bool)
    (rfProc : RFProcOutcome) (rfFound : Outputs) (approved : Bool)
    (erProc : ERProcOutcome)
    (h1 : st.is_stage_completed "resource_finder" = true)
    (h2 : st.is_stage_completed "experiment_runner" = true) :
    (resume_pipeline st pause rfProc rfFound approved erProc).result =
      .ok (.inl ⟨true, false, "Pipeline already complete"⟩) ∧
    (resume_pipeline st pause rfProc rfFound approved erProc).ops = [] ∧
    (resume_pipeline st pause rfProc rfFound approved erProc).spawns = [] := by
  simp [resume_pipeline, h1, h2]

/-- Witness for C3 at a concrete state with both stages completed. -/
theorem resume_short_circuit_witness :
    (resume_pipeline
        ⟨0, [("resource_finder", ⟨.completed, some 0, some 1, some true, []⟩),
             ("experiment_runner", ⟨.completed, some 2, some 3, some true, []⟩)],
         none, true, some 4⟩
        false (.exited 0 true) [] true (.exited 0)).result =
      .ok (.inl ⟨true, false, "Pipeline already complete"⟩) ∧
    (resume_pipeline
        ⟨0, [("resource_finder", ⟨.completed, some 0, some 1, some true, []⟩),
             ("experiment_runner", ⟨.completed, some 2, some 3, some true, []⟩)],
         none, true, some 4⟩
        false (.exited 0 true) [] true (.exited 0)).ops = [] ∧
    (resume_pipeline
        ⟨0, [("resource_finder", ⟨.completed, some 0, some 1, some true, []⟩),
             ("experiment_runner", ⟨.completed, some 2, some 3, some true, []⟩)],
         none, true, some 4⟩
        false (.exited 0 true) [] true (.exited 0)).spawns = [] :=
  resume_short_circuit _ false (.exited 0 true) [] true (.exited 0)
    (by decide) (by decide)

/-- Witness for C1 at a concrete input: the agent exits 0 but the
completion marker is absent, so the stage result has `success = False`. -/
theorem rf_failure_aborts_witness :
    (run_pipeline false false (.exited 0 false) [] true (.exited 0)).result =
      .ok ⟨false, some (.ran ⟨false, none, []⟩), none, none⟩ ∧
    "experiment_runner" ∉
      (run_pipeline false false (.exited 0 false) [] true (.exited 0)).spawns ∧
    ∀ k, dictGet
      (((run_pipeline false false (.exited 0 false) [] true (.exited 0)).ops.take k).foldl
        applyOp (PipelineState.fresh 0)).stages "experiment_runner" = none :=
  rf_failure_aborts false (.exited 0 false) [] true (.exited 0)
    ⟨false, none, []⟩ rfl rfl

/-- C4 fails as stated: the resource-finder stage runner decides success by
the completion marker, not the exit code — an agent that exits 0 without
creating the marker yields `success = False`. -/
theorem stage_success_exit_code_cex :
    ¬ (∀ (rc : Int) (marker : Bool) (found : Outputs) (res : RFResult),
        run_resource_finder (.exited rc marker) found = .ok res →
        (res.success = true ↔ rc = 0)) := by
  intro h
  have := h 0 false [] ⟨false, none, []⟩ rfl
  simp at this

/-- C4 amended: when the spawned agent process exits before the timeout
and no exception occurs, the experiment-runner stage's success flag is
true iff the exit code is 0, while the resource-finder stage's success
flag is true iff the completion marker file exists, independent of the
exit code. -/
theorem stage_success_criteria :
    (∀ (rc : Int) (marker : Bool) (found : Outputs) (res : RFResult),
      run_resource_finder (.exited rc marker) found = .ok res →
      (res.success = true ↔ marker = true)) ∧
    (∀ (rc : Int) (t : Nat) (res : ERResult),
      (run_experiment_runner_stage (.exited rc) t).result = .ok res →
      (res.success = true ↔ rc = 0)) := by
  constructor
  · intro rc marker found res h
    rw [run_resource_finder] at h
    injection h with h
    rw [← h]
  · intro rc t res h
    rw [run_experiment_runner_stage] at h
    injection h with h
    rw [← h]
    simp

/-- Witness for the amended C4: exit code 5 with the marker present gives
resource-finder success; experiment-runner exit code 5 gives failure. -/
theorem stage_success_criteria_witness :
    ((⟨true, some ".resource_finder_complete", []⟩ : RFResult).success = true ↔
      true = true) ∧
    ((⟨(5 : Int) == 0, some 5, none⟩ : ERResult).success = true ↔ (5 : Int) = 0) :=
  ⟨stage_success_criteria.1 5 true [] _ rfl,
   stage_success_criteria.2 5 0 _ rfl⟩

/-! # Security utilities (`src/core/security.py`) -/

/-- `SENSITIVE_ENV_VARS` (security.py lines 18–49). -/
def SENSITIVE_ENV_VARS : List String :=
  ["OPENAI_API_KEY", "OPENAI_ORG_ID",
   "ANTHROPIC_API_KEY", "CLAUDE_API_KEY",
   "GOOGLE_API_KEY", "GEMINI_API_KEY", "GOOGLE_APPLICATION_CREDENTIALS",
   "GITHUB_TOKEN", "GH_TOKEN", "GITHUB_PAT",
   "OPENROUTER_KEY", "OPENROUTER_API_KEY",
   "AWS_ACCESS_KEY_ID", "AWS_SECRET_ACCESS_KEY", "AWS_SESSION_TOKEN",
   "AZURE_API_KEY", "AZURE_OPENAI_API_KEY",
   "HUGGINGFACE_TOKEN", "HF_TOKEN", "WANDB_API_KEY", "COMET_API_KEY",
   "REPLICATE_API_TOKEN"]

/-- ASCII upper-casing of a character, modelling Python's `str.upper()`
on the ASCII names environment variables use. -/
def asciiUpperChar (c : Char) : Char :=
  if 'a' ≤ c ∧ c ≤ 'z' then Char.ofNat (c.toNat - 32) else c

/-- Upper-casing of an environment-variable name (`key.upper()`). -/
def envUpper (s : String) : String :=
  ⟨s.data.map asciiUpperChar⟩

/-- `get_safe_env` (security.py lines 88–106): keep exactly the variables
whose upper-cased name is not in the sensitive set, in order. -/
def get_safe_env (base : List (String × String)) : List (String × String) :=
  base.filter (fun kv => !(SENSITIVE_ENV_VARS.contains (envUpper kv.1)))

/-- The environment actually handed to the resource-finder agent process
(resource_finder.py lines 233–240): a full copy of the parent environment
(`os.environ.copy()`) plus `PYTHONUNBUFFERED=1`, plus
`GEMINI_CLI_IDE_DISABLE=1` for the gemini provider. `get_safe_env` is not
applied. -/
def rf_child_env (parent : List (String × String)) (provider : String) :
    List (String × String) :=
  let env := dictSet parent "PYTHONUNBUFFERED" "1"
  if provider == "gemini" then dictSet env "GEMINI_CLI_IDE_DISABLE" "1" else env

/-- The environment handed to the experiment-runner agent process
(pipeline_orchestrator.py lines 400–404): a full copy of the parent
environment plus `PYTHONUNBUFFERED=1`, plus `SCRIBE_RUN_DIR` when scribe is
used. `get_safe_env` is not applied. -/
def er_child_env (parent : List (String × String)) (useScribe : Bool)
    (workDir : String) : List (String × String) :=
  let env := dictSet parent "PYTHONUNBUFFERED" "1"
  if useScribe then dictSet env "SCRIBE_RUN_DIR" workDir else env

/-- C5 is contradicted by the code: both stage runners copy the parent
environment wholesale, so a secret-bearing variable present in the parent
(here `OPENAI_API_KEY`, a member of `SENSITIVE_ENV_VARS`) reaches the
child process environment of both stages, even though `get_safe_env`
would have removed it. -/
theorem child_env_keeps_secrets :
    dictGet (rf_child_env
        [("OPENAI_API_KEY", "sk-secret-value"), ("PATH", "/usr/bin")] "claude")
      "OPENAI_API_KEY" = some "sk-secret-value" ∧
    dictGet (er_child_env
        [("OPENAI_API_KEY", "sk-secret-value"), ("PATH", "/usr/bin")] false "/w")
      "OPENAI_API_KEY" = some "sk-secret-value" ∧
    get_safe_env [("OPENAI_API_KEY", "sk-secret-value"), ("PATH", "/usr/bin")] =
      [("PATH", "/usr/bin")] ∧
    "OPENAI_API_KEY" ∈ SENSITIVE_ENV_VARS := by
  refine ⟨?_, ?_, ?_, ?_⟩ <;> decide

/-! # Streaming redaction (`security.py` lines 51–122)

The fourteen compiled regexes of `API_KEY_PATTERNS` fall into three shapes:

* a literal key prefix followed by a greedy character-class repetition
  (`sk-proj-[A-Za-z0-9_-]{20,}`, …, `AKIA[A-Z0-9]{16}`);
* an alternation of environment-variable names followed by `=` and a
  greedy non-empty run of `[^\s\n"']`, replaced by `\1=[REDACTED]`;
* the same preceded by `export` and `\s+`, replaced by
  `\1\2=[REDACTED]`.

Each is modelled as a head matcher returning, when the pattern matches at
the start of the given suffix, the number of characters consumed and the
replacement text. `re.sub` is the leftmost, non-overlapping scan `subst`
below: matched spans are replaced, scanning resumes after the span, and
replacement text is not rescanned within the same pass. Since every
pattern ends with its repetition, the greedy repetitions are maximal runs
and matching is deterministic; the name alternation is deterministic
because no variable name is a prefix of another. -/

/-- ASCII letter/digit range checks used by the character classes. -/
def isAsciiUpper (c : Char) : Bool := 'A' ≤ c && c ≤ 'Z'

def isAsciiLower (c : Char) : Bool := 'a' ≤ c && c ≤ 'z'

def isAsciiDigit (c : Char) : Bool := '0' ≤ c && c ≤ '9'

/-- The class `[A-Za-z0-9]`. -/
def clsAlnum (c : Char) : Bool := isAsciiUpper c || isAsciiLower c || isAsciiDigit c

/-- The class `[A-Za-z0-9_-]`. -/
def clsWordDash (c : Char) : Bool := clsAlnum c || c == '_' || c == '-'

/-- The class `[A-Za-z0-9_]`. -/
def clsWordU (c : Char) : Bool := clsAlnum c || c == '_'

/-- The class `[A-Z0-9]`. -/
def clsUpperNum (c : Char) : Bool := isAsciiUpper c || isAsciiDigit c

/-- Python's `\s` on `str`: ASCII whitespace, the C1 separators, and the
Unicode space characters. -/
def isPySpace (c : Char) : Bool :=
  c == ' ' || c == '\t' || c == '\n' || c == '\x0b' || c == '\x0c' ||
  c == '\r' || c == '\x1c' || c == '\x1d' || c == '\x1e' || c == '\x1f' ||
  c == '\u0085' || c == ' ' || c == ' ' ||
  (' ' ≤ c && c ≤ ' ') || c == ' ' || c == ' ' ||
  c == ' ' || c == ' ' || c == '　'

/-- A character matched by `[\s\n"']`, i.e. excluded from the greedy value
run of the environment-assignment patterns. -/
def isStopChar (c : Char) : Bool := isPySpace c || c == '\n' || c == '"' || c == '\''

/-- Length of the maximal prefix satisfying `p`. -/
def countWhile (p : Char → Bool) : List Char → Nat
  | [] => 0
  | c :: cs => if p c then countWhile p cs + 1 else 0

/-- Head matcher for the key-shaped patterns: literal prefix `pre`, then a
greedy run of `cls` of length at least `lo`. With `exactLen = true` the
repetition is `{lo}` (exactly `lo` characters consumed), otherwise
`{lo,}` (the whole maximal run consumed). -/
def matchKeyPattern (pre : List Char) (cls : Char → Bool) (lo : Nat)
    (exactLen : Bool) (repl : List Char) (s : List Char) :
    Option (Nat × List Char) :=
  if pre.isPrefixOf s then
    if lo ≤ countWhile cls (s.drop pre.length) then
      some (pre.length +
        (if exactLen then lo else countWhile cls (s.drop pre.length)), repl)
    else none
  else none

/-- The alternation `(OPENAI_API_KEY|ANTHROPIC_API_KEY|GITHUB_TOKEN|
GEMINI_API_KEY|GOOGLE_API_KEY|OPENROUTER_KEY)` of security.py lines
77–80. -/
def ENV_VAR_NAMES : List (List Char) :=
  ["OPENAI_API_KEY".data, "ANTHROPIC_API_KEY".data, "GITHUB_TOKEN".data,
   "GEMINI_API_KEY".data, "GOOGLE_API_KEY".data, "OPENROUTER_KEY".data]

/-- Head matcher for `(NAMES)=[^\s\n"']+` with replacement
`\1=[REDACTED]`. -/
def matchEnvAssign (s : List Char) : Option (Nat × List Char) :=
  match ENV_VAR_NAMES.find? (fun n => n.isPrefixOf s) with
  | some n =>
    match s.drop n.length with
    | '=' :: rest2 =>
      if 1 ≤ countWhile (fun c => !isStopChar c) rest2 then
        some (n.length + 1 + countWhile (fun c => !isStopChar c) rest2,
          n ++ '=' :: "[REDACTED]".data)
      else none
    | _ => none
  | none => none

/-- Head matcher for `(export\s+)(NAMES)=[^\s\n"']+` with replacement
`\1\2=[REDACTED]`: after `export` comes a maximal non-empty whitespace
run (shorter runs cannot be followed by a name, which starts with a
letter), then the name-assignment pattern. -/
def matchExportEnvAssign (s : List Char) : Option (Nat × List Char) :=
  if "export".data.isPrefixOf s then
    if 1 ≤ countWhile isPySpace (s.drop 6) then
      match matchEnvAssign ((s.drop 6).drop (countWhile isPySpace (s.drop 6))) with
      | some (n2, r2) =>
        some (6 + countWhile isPySpace (s.drop 6) + n2,
          "export".data ++ (s.drop 6).take (countWhile isPySpace (s.drop 6)) ++ r2)
      | none => none
    else none
  else none

/-- Fuel-indexed scanning loop of one `pattern.sub(replacement, text)`
pass; the fuel only ensures structural recursion and is irrelevant once it
is at least the input length (`substFuel_congr`). -/
def substFuel (m : List Char → Option (Nat × List Char)) :
    Nat → List Char → List Char
  | 0, s => s
  | _ + 1, [] => []
  | fuel + 1, c :: cs =>
    match m (c :: cs) with
    | some (n + 1, r) => r ++ substFuel m fuel (cs.drop n)
    | some (0, _) => c :: substFuel m fuel cs
    | none => c :: substFuel m fuel cs

/-- One `pattern.sub(replacement, text)` pass: scan left to right; at a
match, emit the replacement and resume after the matched span (which is
always non-empty for these patterns); otherwise emit the character and
advance by one. -/
def subst (m : List Char → Option (Nat × List Char)) (s : List Char) :
    List Char :=
  substFuel m s.length s

theorem substFuel_congr (m : List Char → Option (Nat × List Char)) :
    ∀ (fuel fuel' : Nat) (s : List Char), s.length ≤ fuel →
      s.length ≤ fuel' → substFuel m fuel s = substFuel m fuel' s := by
  intro fuel
  induction fuel with
  | zero =>
    intro fuel' s hs _
    have : s = [] := List.length_eq_zero.mp (Nat.le_zero.mp hs)
    subst this
    cases fuel' <;> rfl
  | succ fuel ih =>
    intro fuel' s hs hs'
    match s, fuel' with
    | [], 0 => rfl
    | [], f' + 1 => rfl
    | c :: cs, 0 => simp at hs'
    | c :: cs, f' + 1 =>
      rw [substFuel, substFuel]
      simp only [List.length_cons] at hs hs'
      match m (c :: cs) with
      | some (n + 1, r) =>
        simp only
        rw [ih f' (cs.drop n) (by simp only [List.length_drop]; omega)
          (by simp only [List.length_drop]; omega)]
      | some (0, _) => simp only; rw [ih f' cs (by omega) (by omega)]
      | none => simp only; rw [ih f' cs (by omega) (by omega)]

theorem subst_nil (m : List Char → Option (Nat × List Char)) :
    subst m [] = [] := rfl

theorem subst_match (m : List Char → Option (Nat × List Char)) (c : Char)
    (cs : List Char) (n : Nat) (r : List Char)
    (h : m (c :: cs) = some (n + 1, r)) :
    subst m (c :: cs) = r ++ subst m (cs.drop n) := by
  rw [subst, List.length_cons, substFuel, h]
  simp only [subst]
  rw [substFuel_congr m cs.length (cs.drop n).length (cs.drop n)
    (by simp only [List.length_drop]; omega) le_rfl]

theorem subst_nomatch (m : List Char → Option (Nat × List Char)) (c : Char)
    (cs : List Char) (h : m (c :: cs) = none) :
    subst m (c :: cs) = c :: subst m cs := by
  rw [subst, List.length_cons, substFuel, h]
  rfl

/-- `API_KEY_PATTERNS` / `_COMPILED_PATTERNS` (security.py lines 53–85),
in source order. -/
def API_KEY_PATTERNS : List (List Char → Option (Nat × List Char)) :=
  [matchKeyPattern "sk-proj-".data clsWordDash 20 false "[REDACTED_OPENAI_PROJECT_KEY]".data,
   matchKeyPattern "sk-or-v1-".data clsWordDash 20 false "[REDACTED_OPENROUTER_KEY]".data,
   matchKeyPattern "sk-or-".data clsWordDash 20 false "[REDACTED_OPENAI_ORG_KEY]".data,
   matchKeyPattern "sk-".data clsAlnum 48 false "[REDACTED_OPENAI_KEY]".data,
   matchKeyPattern "sk-ant-".data clsWordDash 20 false "[REDACTED_ANTHROPIC_KEY]".data,
   matchKeyPattern "ghp_".data clsAlnum 36 false "[REDACTED_GITHUB_PAT]".data,
   matchKeyPattern "gho_".data clsAlnum 36 false "[REDACTED_GITHUB_OAUTH]".data,
   matchKeyPattern "ghs_".data clsAlnum 36 false "[REDACTED_GITHUB_APP]".data,
   matchKeyPattern "ghr_".data clsAlnum 36 false "[REDACTED_GITHUB_REFRESH]".data,
   matchKeyPattern "github_pat_".data clsWordU 20 false "[REDACTED_GITHUB_FINE_GRAINED]".data,
   matchKeyPattern "AIza".data clsWordDash 35 false "[REDACTED_GOOGLE_KEY]".data,
   matchKeyPattern "AKIA".data clsUpperNum 16 true "[REDACTED_AWS_ACCESS_KEY]".data,
   matchEnvAssign,
   matchExportEnvAssign]

/-- `sanitize_text` on character lists: apply the fourteen substitution
passes in order (security.py lines 109–122). -/
def sanitizeChars (s : List Char) : List Char :=
  API_KEY_PATTERNS.foldl (fun t m => subst m t) s

/-- `sanitize_text` (security.py lines 109–122). -/
def sanitize_text (s : String) : String :=
  ⟨sanitizeChars s.data⟩

/-! # Per-line streaming (C6) -/

/-- The streaming loop of `run_resource_finder` (resource_finder.py lines
268–273): for every non-empty line read from the process, the sanitized
line — one single value `sanitized_line = sanitize_text(line)` — is
echoed, appended to the log file and appended to the transcript file, so
all three sinks receive this one sequence. -/
def rf_stream : List String → List String
  | [] => []
  | l :: ls => if l != "" then sanitize_text l :: rf_stream ls else rf_stream ls

/-- The streaming loop of `_run_experiment_runner`
(pipeline_orchestrator.py lines 429–433): for every non-empty line, the
raw `line` itself is echoed, appended to the log file and appended to the
transcript file; `sanitize_text` is not applied. -/
def er_stream : List String → List String
  | [] => []
  | l :: ls => if l != "" then l :: er_stream ls else er_stream ls

/-- C6 fails as stated: the experiment-runner stage writes the raw line to
its sinks, and for a line carrying a credential assignment the raw line
differs from its redacted form. -/
theorem er_stream_unredacted_cex :
    er_stream ["GITHUB_TOKEN=ghp123 launched\n"] =
      ["GITHUB_TOKEN=ghp123 launched\n"] ∧
    sanitize_text "GITHUB_TOKEN=ghp123 launched\n" =
      "GITHUB_TOKEN=[REDACTED] launched\n" ∧
    er_stream ["GITHUB_TOKEN=ghp123 launched\n"] ≠
      [sanitize_text "GITHUB_TOKEN=ghp123 launched\n"] := by
  refine ⟨rfl, by decide, by decide⟩

/-- C6 amended: the resource-finder stage runner echoes and logs the
redacted form of every streamed line, but the experiment-runner stage
runner echoes and logs the raw line (its log file is redacted only by the
whole-file sanitization pass that runs before publishing). -/
theorem stream_redaction :
    (∀ lines : List String,
      rf_stream lines = (lines.filter (fun l => l != "")).map sanitize_text) ∧
    (∀ lines : List String,
      er_stream lines = lines.filter (fun l => l != "")) := by
  constructor <;>
    · intro lines
      induction lines with
      | nil => rfl
      | cons l ls ih =>
        by_cases h : l = "" <;> simp [rf_stream, er_stream, h, ih]

/-! # Idea-store side effects of a run (C9)
(`src/core/runner.py` lines 100–338, `src/core/idea_manager.py` lines
182–264) -/

/-- The `metadata` block of an idea specification. -/
structure IdeaMeta where
  ideaId : Option String
  createdAt : Option String
  status : Option String
  updatedAt : Option String
  githubRepoName : Option String
  githubRepoUrl : Option String
deriving DecidableEq, Repr

/-- The `idea` mapping of an idea YAML file; the research-content fields
are opaque text values. -/
structure Idea where
  title : String
  domain : String
  hypothesis : String
  background : Option String
  constraints : Option String
  comments : Option String
  metadata : IdeaMeta
deriving DecidableEq, Repr

/-- The three status directories of the idea store
(`ideas/submitted`, `ideas/in_progress`, `ideas/completed`). -/
inductive IdeaDir where
  | submittedDir
  | inProgressDir
  | completedDir
deriving DecidableEq, Repr

/-- The idea store: YAML files keyed by (directory, idea id). -/
abbrev IdeaStore := List (IdeaDir × String × Idea)

/-- Read the file at `(d, ideaId)`. -/
def storeGet : IdeaStore → IdeaDir → String → Option Idea
  | [], _, _ => none
  | (d', i', y) :: rest, d, i =>
    if d' = d ∧ i' = i then some y else storeGet rest d i

/-- Write (create or overwrite) the file at `(d, ideaId)`. -/
def storeSet : IdeaStore → IdeaDir → String → Idea → IdeaStore
  | [], d, i, x => [(d, i, x)]
  | (d', i', y) :: rest, d, i, x =>
    if d' = d ∧ i' = i then (d, i, x) :: rest
    else (d', i', y) :: storeSet rest d i x

/-- Delete the file at `(d, ideaId)`. -/
def storeRemove (st : IdeaStore) (d : IdeaDir) (i : String) : IdeaStore :=
  st.filter (fun e => !(e.1 = d ∧ e.2.1 = i : Bool))

/-- `IdeaManager.get_idea` (idea_manager.py lines 182–202): search the
submitted, in-progress and completed directories in order. -/
def get_idea (st : IdeaStore) (ideaId : String) : Option Idea :=
  (storeGet st .submittedDir ideaId).orElse fun _ =>
    (storeGet st .inProgressDir ideaId).orElse fun _ =>
      storeGet st .completedDir ideaId

/-- The status strings `update_status` accepts. -/
inductive IdeaStatus where
  | submitted
  | in_progress
  | completed
deriving DecidableEq, Repr

/-- Directory a status maps to. -/
def IdeaStatus.dir : IdeaStatus → IdeaDir
  | .submitted => .submittedDir
  | .in_progress => .inProgressDir
  | .completed => .completedDir

/-- Rendering of a status used in `metadata['status']`. -/
def IdeaStatus.text : IdeaStatus → String
  | .submitted => "submitted"
  | .in_progress => "in_progress"
  | .completed => "completed"

/-- The directory search of `update_status` (idea_manager.py lines
223–230): the idea's current file, searching the directories in order. -/
def locateIdea (st : IdeaStore) (ideaId : String) : Option (IdeaDir × Idea) :=
  match storeGet st .submittedDir ideaId with
  | some y => some (.submittedDir, y)
  | none =>
    match storeGet st .inProgressDir ideaId with
    | some y => some (.inProgressDir, y)
    | none =>
      match storeGet st .completedDir ideaId with
      | some y => some (.completedDir, y)
      | none => none

/-- `IdeaManager.update_status` (idea_manager.py lines 204–264): locate the
idea's current file, load it, set `metadata.status` and
`metadata.updated_at`, write it to the status's directory, and delete the
old file when it moved. Returns whether the idea was found. -/
def update_status (st : IdeaStore) (ideaId : String) (newStatus : IdeaStatus)
    (now : String) : IdeaStore × Bool :=
  match locateIdea st ideaId with
  | none => (st, false)
  | some (dir, idea) =>
    let idea' := { idea with
      metadata := { idea.metadata with
        status := some newStatus.text, updatedAt := some now } }
    let newDir := newStatus.dir
    let st1 := storeSet st newDir ideaId idea'
    let st2 := if newDir ≠ dir then storeRemove st1 dir ideaId else st1
    (st2, true)

/-- Configuration of one `run_research` call as far as the idea store is
concerned: whether GitHub integration is active, whether the manager was
constructed, whether a workspace from submission already exists, and
whether new-repository creation succeeded. -/
structure RunResearchCfg where
  useGithub : Bool
  hasManager : Bool
  workspaceExists : Bool
  createOk : Bool
  repoName : String
  repoUrl : String
deriving DecidableEq, Repr

/-- The idea-store and in-memory-idea effects of
`ResearchRunner.run_research` (runner.py lines 100–338): load the idea
(raise if not found, line 150); `update_status(idea_id, 'in_progress')`
(line 156); in the GitHub path with no existing workspace and successful
repo creation, set `metadata.github_repo_name` / `github_repo_url` on the
in-memory idea and rewrite the idea's YAML file in the submitted directory
(lines 214–222); run the pipeline (which only reads the idea); finally
`update_status(idea_id, 'completed')` (line 736). Returns the final store,
the idea as loaded, and the in-memory idea at return. -/
def run_research_idea_effects (st0 : IdeaStore) (ideaId : String)
    (cfg : RunResearchCfg) (t1 t2 : String) :
    Except String (IdeaStore × Idea × Idea) :=
  match get_idea st0 ideaId with
  | none => .error "Idea not found"
  | some idea0 =>
    let st1 := (update_status st0 ideaId .in_progress t1).1
    let newRepoPath :=
      cfg.useGithub && cfg.hasManager && !cfg.workspaceExists && cfg.createOk
    let idea1 :=
      if newRepoPath then
        { idea0 with
          metadata := { idea0.metadata with
            githubRepoName := some cfg.repoName,
            githubRepoUrl := some cfg.repoUrl } }
      else idea0
    let st2 :=
      if newRepoPath then storeSet st1 .submittedDir ideaId idea1 else st1
    let st3 := (update_status st2 ideaId .completed t2).1
    .ok (st3, idea0, idea1)

/-- Equality of the research-content fields of an idea (everything except
`metadata`). -/
def contentEq (a b : Idea) : Prop :=
  a.title = b.title ∧ a.domain = b.domain ∧ a.hypothesis = b.hypothesis ∧
  a.background = b.background ∧ a.constraints = b.constraints ∧
  a.comments = b.comments

theorem contentEq_refl (a : Idea) : contentEq a a :=
  ⟨rfl, rfl, rfl, rfl, rfl, rfl⟩

theorem contentEq_trans {a b c : Idea} (h1 : contentEq a b)
    (h2 : contentEq b c) : contentEq a c := by
  obtain ⟨x1, x2, x3, x4, x5, x6⟩ := h1
  obtain ⟨y1, y2, y3, y4, y5, y6⟩ := h2
  exact ⟨x1.trans y1, x2.trans y2, x3.trans y3, x4.trans y4, x5.trans y5,
    x6.trans y6⟩

theorem mem_storeSet (st : IdeaStore) (d : IdeaDir) (i : String) (x : Idea) :
    ∀ e ∈ storeSet st d i x, e = (d, i, x) ∨ e ∈ st := by
  induction st with
  | nil => intro e he; simp [storeSet] at he; left; exact he
  | cons hd tl ih =>
    intro e he
    rw [storeSet] at he
    split at he
    · rcases List.mem_cons.mp he with h | h
      · left; exact h
      · right; exact List.mem_cons_of_mem hd h
    · rcases List.mem_cons.mp he with h | h
      · right; rw [h]; exact List.mem_cons_self hd tl
      · rcases ih e h with h' | h'
        · left; exact h'
        · right; exact List.mem_cons_of_mem hd h'

theorem mem_storeRemove (st : IdeaStore) (d : IdeaDir) (i : String) :
    ∀ e ∈ storeRemove st d i, e ∈ st := by
  intro e he
  exact List.mem_of_mem_filter he

theorem storeGet_mem (st : IdeaStore) (d : IdeaDir) (i : String) (x : Idea) :
    storeGet st d i = some x → (d, i, x) ∈ st := by
  induction st with
  | nil => intro h; simp [storeGet] at h
  | cons hd tl ih =>
    intro h
    rw [storeGet] at h
    split at h
    · rename_i hcond
      injection h with h
      subst h
      obtain ⟨h1, h2⟩ := hcond
      subst h1
      subst h2
      exact List.mem_cons_self _ _
    · exact List.mem_cons_of_mem hd (ih h)


theorem locateIdea_mem (st : IdeaStore) (i : String) (d : IdeaDir)
    (y : Idea) (h : locateIdea st i = some (d, y)) : (d, i, y) ∈ st := by
  rw [locateIdea] at h
  rcases h1 : storeGet st .submittedDir i with _ | y1 <;> rw [h1] at h
  · rcases h2 : storeGet st .inProgressDir i with _ | y2 <;> rw [h2] at h
    · rcases h3 : storeGet st .completedDir i with _ | y3 <;> rw [h3] at h
      · simp at h
      · simp only [Option.some.injEq, Prod.mk.injEq] at h
        obtain ⟨hd, hy⟩ := h
        subst hd; subst hy
        exact storeGet_mem st _ i _ h3
    · simp only [Option.some.injEq, Prod.mk.injEq] at h
      obtain ⟨hd, hy⟩ := h
      subst hd; subst hy
      exact storeGet_mem st _ i _ h2
  · simp only [Option.some.injEq, Prod.mk.injEq] at h
    obtain ⟨hd, hy⟩ := h
    subst hd; subst hy
    exact storeGet_mem st _ i _ h1

/-- Every entry of a store after `update_status` has the content fields of
an entry of the original store with the same idea id. -/
theorem update_status_contentFrom (st : IdeaStore) (i : String)
    (s : IdeaStatus) (t : String) :
    ∀ e ∈ (update_status st i s t).1,
      ∃ e₀ ∈ st, e₀.2.1 = e.2.1 ∧ contentEq e.2.2 e₀.2.2 := by
  intro e he
  rw [update_status] at he
  rcases hloc : locateIdea st i with _ | ⟨dir, idea⟩ <;> rw [hloc] at he
  · exact ⟨e, he, rfl, contentEq_refl _⟩
  · have hmem : (dir, i, idea) ∈ st := locateIdea_mem st i dir idea hloc
    simp only at he
    have hset : ∀ e' ∈ storeSet st s.dir i
        { idea with metadata := { idea.metadata with
            status := some s.text, updatedAt := some t } },
        ∃ e₀ ∈ st, e₀.2.1 = e'.2.1 ∧ contentEq e'.2.2 e₀.2.2 := by
      intro e' he'
      rcases mem_storeSet st s.dir i _ e' he' with h | h
      · refine ⟨(dir, i, idea), hmem, ?_, ?_⟩
        · rw [h]
        · rw [h]
          exact ⟨rfl, rfl, rfl, rfl, rfl, rfl⟩
      · exact ⟨e', h, rfl, contentEq_refl _⟩
    split at he
    · exact hset e (mem_storeRemove _ _ _ e he)
    · exact hset e he

/-- C9 fails as stated: even in the plainest run (GitHub disabled), the
idea's stored file is rewritten twice by `update_status` — its
`metadata.status` moves `submitted → in_progress → completed` and the file
moves across status directories; and in the new-GitHub-repository path the
in-memory idea's metadata gains `github_repo_name`/`github_repo_url`. -/
theorem idea_mutation_cex :
    run_research_idea_effects
        [(.submittedDir, "i1",
          ⟨"T", "nlp", "H", none, none, none,
           ⟨some "i1", some "2024", some "submitted", none, none, none⟩⟩)]
        "i1" ⟨false, false, false, false, "r", "u"⟩ "t1" "t2" =
      .ok ([(.completedDir, "i1",
             ⟨"T", "nlp", "H", none, none, none,
              ⟨some "i1", some "2024", some "completed", some "t2", none, none⟩⟩)],
           ⟨"T", "nlp", "H", none, none, none,
            ⟨some "i1", some "2024", some "submitted", none, none, none⟩⟩,
           ⟨"T", "nlp", "H", none, none, none,
            ⟨some "i1", some "2024", some "submitted", none, none, none⟩⟩) ∧
    ([(.completedDir, "i1",
       ⟨"T", "nlp", "H", none, none, none,
        ⟨some "i1", some "2024", some "completed", some "t2", none, none⟩⟩)] :
      IdeaStore) ≠
      [(.submittedDir, "i1",
        ⟨"T", "nlp", "H", none, none, none,
         ⟨some "i1", some "2024", some "submitted", none, none, none⟩⟩)] ∧
    run_research_idea_effects
        [(.submittedDir, "i1",
          ⟨"T", "nlp", "H", none, none, none,
           ⟨some "i1", some "2024", some "submitted", none, none, none⟩⟩)]
        "i1" ⟨true, true, false, true, "repo-x", "https://u"⟩ "t1" "t2" =
      .ok ([(.inProgressDir, "i1",
             ⟨"T", "nlp", "H", none, none, none,
              ⟨some "i1", some "2024", some "in_progress", some "t1",
               none, none⟩⟩),
            (.completedDir, "i1",
             ⟨"T", "nlp", "H", none, none, none,
              ⟨some "i1", some "2024", some "completed", some "t2",
               some "repo-x", some "https://u"⟩⟩)],
           ⟨"T", "nlp", "H", none, none, none,
            ⟨some "i1", some "2024", some "submitted", none, none, none⟩⟩,
           ⟨"T", "nlp", "H", none, none, none,
            ⟨some "i1", some "2024", some "submitted", none,
             some "repo-x", some "https://u"⟩⟩) ∧
    (⟨"T", "nlp", "H", none, none, none,
      ⟨some "i1", some "2024", some "submitted", none,
       some "repo-x", some "https://u"⟩⟩ : Idea) ≠
      ⟨"T", "nlp", "H", none, none, none,
       ⟨some "i1", some "2024", some "submitted", none, none, none⟩⟩ := by
  refine ⟨rfl, by decide, rfl, by decide⟩

theorem get_idea_mem (st : IdeaStore) (i : String) (y : Idea)
    (h : get_idea st i = some y) : ∃ d, (d, i, y) ∈ st := by
  rw [get_idea] at h
  rcases h1 : storeGet st .submittedDir i with _ | y1 <;>
    rw [h1] at h <;> simp only [Option.orElse] at h
  · rcases h2 : storeGet st .inProgressDir i with _ | y2 <;>
      rw [h2] at h <;> simp only [Option.orElse] at h
    · exact ⟨_, storeGet_mem st _ i _ h⟩
    · injection h with h
      subst h
      exact ⟨_, storeGet_mem st _ i _ h2⟩
  · injection h with h
    subst h
    exact ⟨_, storeGet_mem st _ i _ h1⟩

/-- C9 amended: a run never alters the research-content fields of the idea
(title, domain, hypothesis, background, constraints, comments) — neither
of the in-memory mapping nor of any stored file — and outside the
new-GitHub-repository path the in-memory idea is returned exactly as
loaded; but the run does rewrite the idea's stored file (status metadata),
and the new-repository path additionally sets the github metadata fields
of the in-memory idea. -/
theorem run_research_content_preserved (st0 : IdeaStore) (ideaId : String)
    (cfg : RunResearchCfg) (t1 t2 : String) (st' : IdeaStore)
    (ideaOrig ideaMem : Idea)
    (h : run_research_idea_effects st0 ideaId cfg t1 t2 =
      .ok (st', ideaOrig, ideaMem)) :
    contentEq ideaMem ideaOrig ∧
    ideaMem.metadata.ideaId = ideaOrig.metadata.ideaId ∧
    ideaMem.metadata.createdAt = ideaOrig.metadata.createdAt ∧
    ideaMem.metadata.status = ideaOrig.metadata.status ∧
    ideaMem.metadata.updatedAt = ideaOrig.metadata.updatedAt ∧
    ((cfg.useGithub && cfg.hasManager && !cfg.workspaceExists &&
        cfg.createOk) = false → ideaMem = ideaOrig) ∧
    ∀ e ∈ st', ∃ e₀ ∈ st0, e₀.2.1 = e.2.1 ∧ contentEq e.2.2 e₀.2.2 := by
  rcases hg : get_idea st0 ideaId with _ | idea0 <;>
    rw [run_research_idea_effects, hg] at h
  · exact absurd h (by simp)
  · simp only [Except.ok.injEq, Prod.mk.injEq] at h
    obtain ⟨hst, hOrig, hMem⟩ := h
    subst hOrig
    have hcontent : contentEq ideaMem idea0 ∧
        ideaMem.metadata.ideaId = idea0.metadata.ideaId ∧
        ideaMem.metadata.createdAt = idea0.metadata.createdAt ∧
        ideaMem.metadata.status = idea0.metadata.status ∧
        ideaMem.metadata.updatedAt = idea0.metadata.updatedAt := by
      rw [← hMem]
      cases hb : (cfg.useGithub && cfg.hasManager && !cfg.workspaceExists &&
        cfg.createOk) <;> simp [hb, contentEq, contentEq_refl]
    obtain ⟨d0, hmem0⟩ := get_idea_mem st0 ideaId idea0 hg
    refine ⟨hcontent.1, hcontent.2.1, hcontent.2.2.1, hcontent.2.2.2.1,
      hcontent.2.2.2.2, ?_, ?_⟩
    · intro hfalse
      rw [← hMem, hfalse]
      simp
    · intro e he
      rw [← hst] at he
      obtain ⟨e2, he2, hid2, hc2⟩ := update_status_contentFrom _ ideaId
        .completed t2 e he
      have hstep : ∃ e₀ ∈ st0, e₀.2.1 = e2.2.1 ∧ contentEq e2.2.2 e₀.2.2 := by
        rcases hb : (cfg.useGithub && cfg.hasManager && !cfg.workspaceExists &&
          cfg.createOk) with _ | _ <;> rw [hb] at he2
        · simp only [if_neg Bool.false_ne_true] at he2
          exact update_status_contentFrom st0 ideaId .in_progress t1 e2 he2
        · simp only [if_pos rfl] at he2
          rcases mem_storeSet _ _ _ _ e2 he2 with hh | hh
          · refine ⟨(d0, ideaId, idea0), hmem0, ?_, ?_⟩
            · rw [hh]
            · rw [hh]
              simp [contentEq]
          · exact update_status_contentFrom st0 ideaId .in_progress t1 e2 hh
      obtain ⟨e0, he0, hid0, hc0⟩ := hstep
      exact ⟨e0, he0, by rw [hid0, hid2], contentEq_trans hc2 hc0⟩

/-- Witness for the amended C9 at a concrete store and configuration. -/
theorem run_research_content_preserved_witness :
    contentEq
      ⟨"T", "nlp", "H", none, none, none,
       ⟨some "i1", some "2024", some "submitted", none, none, none⟩⟩
      ⟨"T", "nlp", "H", none, none, none,
       ⟨some "i1", some "2024", some "submitted", none, none, none⟩⟩ ∧
    (⟨"T", "nlp", "H", none, none, none,
      ⟨some "i1", some "2024", some "submitted", none, none,
       none⟩⟩ : Idea).metadata.ideaId =
      (⟨"T", "nlp", "H", none, none, none,
        ⟨some "i1", some "2024", some "submitted", none, none,
         none⟩⟩ : Idea).metadata.ideaId ∧
    (⟨"T", "nlp", "H", none, none, none,
      ⟨some "i1", some "2024", some "submitted", none, none,
       none⟩⟩ : Idea).metadata.createdAt =
      (⟨"T", "nlp", "H", none, none, none,
        ⟨some "i1", some "2024", some "submitted", none, none,
         none⟩⟩ : Idea).metadata.createdAt ∧
    (⟨"T", "nlp", "H", none, none, none,
      ⟨some "i1", some "2024", some "submitted", none, none,
       none⟩⟩ : Idea).metadata.status =
      (⟨"T", "nlp", "H", none, none, none,
        ⟨some "i1", some "2024", some "submitted", none, none,
         none⟩⟩ : Idea).metadata.status ∧
    (⟨"T", "nlp", "H", none, none, none,
      ⟨some "i1", some "2024", some "submitted", none, none,
       none⟩⟩ : Idea).metadata.updatedAt =
      (⟨"T", "nlp", "H", none, none, none,
        ⟨some "i1", some "2024", some "submitted", none, none,
         none⟩⟩ : Idea).metadata.updatedAt ∧
    (((⟨false, false, false, false, "r", "u"⟩ : RunResearchCfg).useGithub &&
        (⟨false, false, false, false, "r", "u"⟩ : RunResearchCfg).hasManager &&
        !(⟨false, false, false, false, "r", "u"⟩ : RunResearchCfg).workspaceExists &&
        (⟨false, false, false, false, "r", "u"⟩ : RunResearchCfg).createOk) = false →
      (⟨"T", "nlp", "H", none, none, none,
        ⟨some "i1", some "2024", some "submitted", none, none,
         none⟩⟩ : Idea) =
        ⟨"T", "nlp", "H", none, none, none,
         ⟨some "i1", some "2024", some "submitted", none, none, none⟩⟩) ∧
    ∀ e ∈ [(IdeaDir.completedDir, "i1",
            (⟨"T", "nlp", "H", none, none, none,
             ⟨some "i1", some "2024", some "completed", some "t2", none,
              none⟩⟩ : Idea))],
      ∃ e₀ ∈ [(IdeaDir.submittedDir, "i1",
               (⟨"T", "nlp", "H", none, none, none,
                ⟨some "i1", some "2024", some "submitted", none, none,
                 none⟩⟩ : Idea))],
        e₀.2.1 = e.2.1 ∧ contentEq e.2.2 e₀.2.2 :=
  run_research_content_preserved
    [(.submittedDir, "i1",
      ⟨"T", "nlp", "H", none, none, none,
       ⟨some "i1", some "2024", some "submitted", none, none, none⟩⟩)]
    "i1" ⟨false, false, false, false, "r", "u"⟩ "t1" "t2"
    [(.completedDir, "i1",
      ⟨"T", "nlp", "H", none, none, none,
       ⟨some "i1", some "2024", some "completed", some "t2", none, none⟩⟩)]
    ⟨"T", "nlp", "H", none, none, none,
     ⟨some "i1", some "2024", some "submitted", none, none, none⟩⟩
    ⟨"T", "nlp", "H", none, none, none,
     ⟨some "i1", some "2024", some "submitted", none, none, none⟩⟩
    rfl

/-! # Idempotence of `sanitize_text` (C10)

The proof shows that the string produced by the fourteen substitution
passes is a fixed point of each individual pass, hence of the whole chain.
For the twelve key-shaped patterns the output contains no match at all;
for the two environment-assignment patterns every match in the output is a
self-match (it consumes exactly its own replacement text), which the
substitution rewrites to itself. -/

/-- `t` contains no `m`-match at any scan position. -/
def NoMatch (m : List Char → Option (Nat × List Char)) (t : List Char) :
    Prop :=
  ∀ i, m (t.drop i) = none

/-- Every `m`-match in `t` is a self-match: it consumes exactly its own
replacement text. -/
def SelfFixed (m : List Char → Option (Nat × List Char)) (t : List Char) :
    Prop :=
  ∀ i n r, m (t.drop i) = some (n, r) → r = (t.drop i).take n

theorem noMatch_selfFixed {m : List Char → Option (Nat × List Char)}
    {t : List Char} (h : NoMatch m t) : SelfFixed m t := by
  intro i n r hm
  rw [h i] at hm
  exact absurd hm (by simp)

theorem noMatch_drop {m : List Char → Option (Nat × List Char)}
    {t : List Char} (h : NoMatch m t) (j : Nat) : NoMatch m (t.drop j) := by
  intro i
  rw [List.drop_drop]
  have := h (i + j)
  rwa [Nat.add_comm] at this

theorem selfFixed_drop {m : List Char → Option (Nat × List Char)}
    {t : List Char} (h : SelfFixed m t) (j : Nat) :
    SelfFixed m (t.drop j) := by
  intro i n r hm
  rw [List.drop_drop] at hm ⊢
  rw [Nat.add_comm] at hm ⊢
  exact h (i + j) n r hm

/-- Scan decomposition of one substitution pass: either no position of `t`
matches and the pass is the identity, or `t` splits as an unmatched
stretch `a` followed by a match at `v`, and the pass rewrites the match
and continues after it. -/
theorem subst_decomp (m : List Char → Option (Nat × List Char))
    (hpos : ∀ u p, m u = some p → 1 ≤ p.1) (hnil : m [] = none) :
    ∀ t : List Char,
      (subst m t = t ∧ NoMatch m t) ∨
      ∃ a v n r, t = a ++ v ∧ m v = some (n, r) ∧
        (∀ i, i < a.length → m (t.drop i) = none) ∧
        subst m t = a ++ r ++ subst m (v.drop n) ∧ 1 ≤ n := by
  intro t
  induction t with
  | nil =>
    left
    refine ⟨rfl, ?_⟩
    intro i
    simp only [List.drop_nil]
    exact hnil
  | cons c cs ih =>
    rcases h : m (c :: cs) with _ | ⟨n, r⟩
    · rcases ih with ⟨heq, hnone⟩ | ⟨a, v, n, r, hsplit, hm, hstretch, heq, hn⟩
      · left
        refine ⟨?_, ?_⟩
        · rw [subst_nomatch m c cs h, heq]
        · intro i
          match i with
          | 0 => exact h
          | i + 1 => exact hnone i
      · right
        refine ⟨c :: a, v, n, r, by rw [hsplit]; rfl, hm, ?_, ?_, hn⟩
        · intro i hi
          match i with
          | 0 => exact h
          | i + 1 =>
            simp only [List.length_cons] at hi
            exact hstretch i (by omega)
        · rw [subst_nomatch m c cs h, heq]
          simp
    · have hn := hpos _ _ h
      match n, hn with
      | n' + 1, _ =>
        right
        refine ⟨[], c :: cs, n' + 1, r, by simp, h, by simp, ?_, by omega⟩
        rw [subst_match m c cs n' r h]
        simp

theorem subst_eq_self_of_selfFixed_aux
    (m : List Char → Option (Nat × List Char))
    (hpos : ∀ u p, m u = some p → 1 ≤ p.1) :
    ∀ (k : Nat) (t : List Char), t.length ≤ k → SelfFixed m t →
      subst m t = t := by
  intro k
  induction k with
  | zero =>
    intro t hlen _
    have : t = [] := List.length_eq_zero.mp (Nat.le_zero.mp hlen)
    subst this
    rfl
  | succ k ih =>
    intro t hlen hsf
    match t with
    | [] => rfl
    | c :: cs =>
      rcases h : m (c :: cs) with _ | ⟨n, r⟩
      · rw [subst_nomatch m c cs h]
        congr 1
        exact ih cs (by simp only [List.length_cons] at hlen; omega)
          (selfFixed_drop hsf 1)
      · have hn := hpos _ _ h
        match n, hn with
        | n' + 1, _ =>
          rw [subst_match m c cs n' r h]
          have h0 := hsf 0 (n' + 1) r h
          simp only [List.take_zero, List.drop_zero] at h0
          have htail := ih ((c :: cs).drop (n' + 1))
            (by simp only [List.length_drop, List.length_cons] at *; omega)
            (selfFixed_drop hsf (n' + 1))
          calc r ++ subst m (cs.drop n')
              = r ++ subst m ((c :: cs).drop (n' + 1)) := rfl
            _ = (c :: cs).take (n' + 1) ++ (c :: cs).drop (n' + 1) := by
                rw [htail, h0]
            _ = c :: cs := List.take_append_drop _ _

/-- A string every match of which is a self-match is a fixed point of the
pass. -/
theorem subst_eq_self_of_selfFixed
    (m : List Char → Option (Nat × List Char))
    (hpos : ∀ u p, m u = some p → 1 ≤ p.1) (t : List Char)
    (hsf : SelfFixed m t) : subst m t = t :=
  subst_eq_self_of_selfFixed_aux m hpos t.length t le_rfl hsf

theorem isPrefixOf_true_iff (l₁ l₂ : List Char) :
    l₁.isPrefixOf l₂ = true ↔ l₁ <+: l₂ := List.isPrefixOf_iff_prefix

theorem prefix_of_append_of_le {l u w : List Char} (h : l <+: u ++ w)
    (hlen : l.length ≤ u.length) : l <+: u := by
  rw [List.prefix_iff_eq_take] at h ⊢
  rwa [List.take_append_of_le_length hlen] at h

theorem prefix_split {l u w : List Char} (h : l <+: u ++ w) :
    l <+: u ∨ (u <+: l ∧ l.drop u.length <+: w) := by
  rcases le_or_lt l.length u.length with hle | hlt
  · left
    exact prefix_of_append_of_le h hle
  · right
    obtain ⟨z, hz⟩ := h
    constructor
    · rw [List.prefix_iff_eq_take]
      have : (u ++ w).take u.length = (l ++ z).take u.length := by rw [hz]
      rwa [List.take_left, List.take_append_of_le_length (by omega)] at this
    · have : (u ++ w).drop u.length = (l ++ z).drop u.length := by rw [hz]
      rw [List.drop_left, List.drop_append_of_le_length (by omega)] at this
      exact ⟨z, this.symm⟩

theorem head_of_cons_pre {a : Char} {l u : List Char} (h : a :: l <+: u) :
    ∃ m, u = a :: m := by
  obtain ⟨z, hz⟩ := h
  exact ⟨l ++ z, by rw [← hz]; simp⟩

theorem not_cons_pre_of_head_ne {a b : Char} {l m : List Char}
    (hne : a ≠ b) : ¬ (a :: l <+: b :: m) := by
  intro h
  obtain ⟨z, hz⟩ := head_of_cons_pre h
  injection hz with h1
  exact hne h1.symm

theorem countWhile_cons_pos {p : Char → Bool} {c : Char} (cs : List Char)
    (h : p c = true) : countWhile p (c :: cs) = countWhile p cs + 1 := by
  rw [countWhile, if_pos h]

theorem countWhile_cons_zero {p : Char → Bool} {c : Char} (cs : List Char)
    (h : p c = false) : countWhile p (c :: cs) = 0 := by
  rw [countWhile, if_neg (by simp [h])]

theorem countWhile_le_of_tail_le (p : Char → Bool) :
    ∀ (x A B : List Char), countWhile p A ≤ countWhile p B →
      countWhile p (x ++ A) ≤ countWhile p (x ++ B) := by
  intro x
  induction x with
  | nil => intro A B h; simpa using h
  | cons c cs ih =>
    intro A B h
    rcases hc : p c with _ | _
    · simp [countWhile_cons_zero _ hc]
    · rw [List.cons_append, List.cons_append, countWhile_cons_pos _ hc,
        countWhile_cons_pos _ hc]
      exact Nat.succ_le_succ (ih A B h)

theorem countWhile_append_all {p : Char → Bool} :
    ∀ {u : List Char} (w : List Char), (∀ c ∈ u, p c = true) →
      countWhile p (u ++ w) = u.length + countWhile p w := by
  intro u
  induction u with
  | nil => intro w _; simp
  | cons c cs ih =>
    intro w h
    rw [List.cons_append, countWhile_cons_pos _ (h c (by simp)),
      ih w (fun d hd => h d (by simp [hd]))]
    simp only [List.length_cons]
    omega

theorem countWhile_le_length (p : Char → Bool) :
    ∀ z : List Char, countWhile p z ≤ z.length := by
  intro z
  induction z with
  | nil => simp [countWhile]
  | cons c cs ih =>
    rcases hc : p c with _ | _
    · simp [countWhile_cons_zero _ hc]
    · rw [countWhile_cons_pos _ hc]
      simp only [List.length_cons]
      omega

theorem countWhile_take_all (p : Char → Bool) :
    ∀ z : List Char, ∀ c ∈ z.take (countWhile p z), p c = true := by
  intro z
  induction z with
  | nil => simp
  | cons c cs ih =>
    rcases hc : p c with _ | _
    · simp [countWhile_cons_zero _ hc]
    · rw [countWhile_cons_pos _ hc]
      intro d hd
      rw [List.take_succ_cons] at hd
      rcases List.mem_cons.mp hd with h | h
      · rw [h]; exact hc
      · exact ih d h

theorem countWhile_drop_head (p : Char → Bool) :
    ∀ (z : List Char) (d : Char) (ds : List Char),
      z.drop (countWhile p z) = d :: ds → p d = false := by
  intro z
  induction z with
  | nil => intro d ds h; simp at h
  | cons c cs ih =>
    intro d ds h
    rcases hc : p c with _ | _
    · rw [countWhile_cons_zero _ hc, List.drop_zero] at h
      injection h with h1 _
      rw [← h1]; exact hc
    · rw [countWhile_cons_pos _ hc, List.drop_succ_cons] at h
      exact ih d ds h

/-- Decidable check that `N` can begin at the head of `u` under no
continuation of `u` whatsoever. -/
def cantStart (N u : List Char) : Bool :=
  if N.length ≤ u.length then !(N.isPrefixOf u) else !(u.isPrefixOf N)

theorem cantStart_sound {N u : List Char} (h : cantStart N u = true)
    (w : List Char) : ¬ N <+: (u ++ w) := by
  intro hpre
  rw [cantStart] at h
  rcases prefix_split hpre with h1 | ⟨h1, _⟩
  · have hlen := h1.length_le
    rw [if_pos hlen] at h
    simp only [Bool.not_eq_true'] at h
    rw [← isPrefixOf_true_iff] at h1
    rw [h1] at h
    exact absurd h (by simp)
  · have hlen := h1.length_le
    by_cases hc : N.length ≤ u.length
    · have : u = N := h1.eq_of_length (by omega)
      subst this
      rw [if_pos le_rfl] at h
      simp only [Bool.not_eq_true'] at h
      rw [← isPrefixOf_true_iff] at h1
      rw [h1] at h
      exact absurd h (by simp)
    · rw [if_neg hc] at h
      simp only [Bool.not_eq_true'] at h
      rw [← isPrefixOf_true_iff] at h1
      rw [h1] at h
      exact absurd h (by simp)

/-- Decidable check that `N` cannot begin at any position strictly inside
`u`, whatever follows `u`. -/
def inertChk (N u : List Char) : Bool :=
  (List.range u.length).all (fun o => cantStart N (u.drop o))

theorem inertChk_sound {N u : List Char} (h : inertChk N u = true) :
    ∀ o, o < u.length → ∀ w, ¬ N <+: (u.drop o ++ w) := by
  intro o ho w
  have := List.all_eq_true.mp h o (List.mem_range.mpr ho)
  exact cantStart_sound this w

theorem drop_append_mid {α : Type} {a z : List α} {i : Nat}
    (h : a.length ≤ i) : (a ++ z).drop i = z.drop (i - a.length) := by
  conv_lhs => rw [show i = a.length + (i - a.length) by omega]
  rw [List.drop_append]

theorem mkp_none_of_not_pre {pre : List Char} {cls : Char → Bool} {lo : Nat}
    {ex : Bool} {repl s : List Char} (h : ¬ pre <+: s) :
    matchKeyPattern pre cls lo ex repl s = none := by
  rw [matchKeyPattern, if_neg]
  intro hc
  exact h ((isPrefixOf_true_iff pre s).mp hc)

theorem mkp_none_of_run_lt {pre : List Char} {cls : Char → Bool} {lo : Nat}
    {ex : Bool} {repl s : List Char}
    (h : countWhile cls (s.drop pre.length) < lo) :
    matchKeyPattern pre cls lo ex repl s = none := by
  rw [matchKeyPattern]
  split
  · rw [if_neg (by omega)]
  · rfl

theorem mkp_none_elim_run {pre : List Char} {cls : Char → Bool} {lo : Nat}
    {ex : Bool} {repl s : List Char}
    (h : matchKeyPattern pre cls lo ex repl s = none) (hp : pre <+: s) :
    countWhile cls (s.drop pre.length) < lo := by
  rw [matchKeyPattern, if_pos ((isPrefixOf_true_iff pre s).mpr hp)] at h
  by_contra hc
  rw [if_pos (by omega)] at h
  exact absurd h (by simp)

theorem mkp_some_elim {pre : List Char} {cls : Char → Bool} {lo : Nat}
    {ex : Bool} {repl s : List Char} {n : Nat} {r : List Char}
    (h : matchKeyPattern pre cls lo ex repl s = some (n, r)) :
    pre <+: s ∧ lo ≤ countWhile cls (s.drop pre.length) ∧ r = repl ∧
      n = pre.length + (if ex then lo else countWhile cls (s.drop pre.length)) := by
  rw [matchKeyPattern] at h
  by_cases hc : pre.isPrefixOf s = true
  · rw [if_pos hc] at h
    by_cases hrun : lo ≤ countWhile cls (s.drop pre.length)
    · rw [if_pos hrun] at h
      injection h with h
      injection h with h1 h2
      exact ⟨(isPrefixOf_true_iff pre s).mp hc, hrun, h2.symm, h1.symm⟩
    · rw [if_neg hrun] at h
      exact absurd h (by simp)
  · rw [if_neg hc] at h
    exact absurd h (by simp)

theorem mkp_pos {pre : List Char} {cls : Char → Bool} {lo : Nat} {ex : Bool}
    {repl : List Char} (hpre : pre ≠ []) :
    ∀ u p, matchKeyPattern pre cls lo ex repl u = some p → 1 ≤ p.1 := by
  intro u p h
  obtain ⟨-, -, -, hn⟩ :=
    mkp_some_elim (show matchKeyPattern pre cls lo ex repl u =
      some (p.1, p.2) by simpa using h)
  have : 1 ≤ pre.length := by
    cases pre
    · exact absurd rfl hpre
    · simp
  omega

theorem mkp_nil {pre : List Char} {cls : Char → Bool} {lo : Nat} {ex : Bool}
    {repl : List Char} (hpre : pre ≠ []) :
    matchKeyPattern pre cls lo ex repl [] = none := by
  apply mkp_none_of_not_pre
  intro h
  exact hpre (List.prefix_nil.mp h)

/-- Core transfer lemma: if the key pattern has no match on the input
suffix `x ++ (pfx ++ v')`, it has none on the corresponding output suffix
`x ++ (pfx ++ '[' :: zOut)` either — the two agree up to the divergence
point, where the output's `'['` can neither continue the literal prefix
nor extend the class run. -/
theorem mkp_none_transfer {pre : List Char} {cls : Char → Bool} {lo : Nat}
    {ex : Bool} {repl : List Char} (hlb : '[' ∉ pre)
    (hcls : cls '[' = false) (x pfx v' zOut : List Char)
    (hin : matchKeyPattern pre cls lo ex repl (x ++ (pfx ++ v')) = none) :
    matchKeyPattern pre cls lo ex repl (x ++ (pfx ++ '[' :: zOut)) = none := by
  by_cases hp : pre <+: (x ++ (pfx ++ '[' :: zOut))
  swap
  · exact mkp_none_of_not_pre hp
  rcases le_or_lt pre.length x.length with hle | hgt
  · -- the literal prefix lies inside the common part x
    have hpx : pre <+: x := prefix_of_append_of_le hp hle
    have hinpre : pre <+: x ++ (pfx ++ v') := hpx.trans (List.prefix_append x _)
    have hrun := mkp_none_elim_run hin hinpre
    apply mkp_none_of_run_lt
    have hdropo : (x ++ (pfx ++ '[' :: zOut)).drop pre.length =
        x.drop pre.length ++ (pfx ++ '[' :: zOut) :=
      List.drop_append_of_le_length hle
    have hdropi : (x ++ (pfx ++ v')).drop pre.length =
        x.drop pre.length ++ (pfx ++ v') :=
      List.drop_append_of_le_length hle
    rw [hdropo]
    rw [hdropi] at hrun
    calc countWhile cls (x.drop pre.length ++ (pfx ++ '[' :: zOut))
        = countWhile cls ((x.drop pre.length ++ pfx) ++ '[' :: zOut) := by
          rw [List.append_assoc]
      _ ≤ countWhile cls ((x.drop pre.length ++ pfx) ++ v') := by
          apply countWhile_le_of_tail_le
          rw [countWhile_cons_zero _ hcls]
          omega
      _ = countWhile cls (x.drop pre.length ++ (pfx ++ v')) := by
          rw [List.append_assoc]
      _ < lo := hrun
  · -- the literal prefix extends past x
    have hsplit1 := prefix_split hp
    rcases hsplit1 with hpx | ⟨hxpre, hrest⟩
    · exact absurd hpx.length_le (by omega)
    have hxeq : pre = x ++ pre.drop x.length := by
      have := List.prefix_iff_eq_take.mp hxpre
      conv_lhs => rw [← List.take_append_drop x.length pre, ← this]
    rcases le_or_lt (pre.drop x.length).length pfx.length with hle2 | hgt2
    · -- pre ends inside pfx, which input and output share
      have hp2 : pre.drop x.length <+: pfx := prefix_of_append_of_le hrest hle2
      have hinpre : pre <+: x ++ (pfx ++ v') := by
        rw [hxeq]
        have h1 : x ++ pre.drop x.length <+: x ++ pfx :=
          (List.prefix_append_right_inj x).mpr hp2
        exact h1.trans (by rw [← List.append_assoc]
                           exact List.prefix_append (x ++ pfx) v')
      have hrun := mkp_none_elim_run hin hinpre
      apply mkp_none_of_run_lt
      have hlenpre : pre.length = x.length + (pre.drop x.length).length := by
        simp only [List.length_drop]
        have := hxpre.length_le
        omega
      have hdropo : (x ++ (pfx ++ '[' :: zOut)).drop pre.length =
          pfx.drop (pre.drop x.length).length ++ '[' :: zOut := by
        rw [hlenpre, List.drop_append]
        exact List.drop_append_of_le_length hle2
      have hdropi : (x ++ (pfx ++ v')).drop pre.length =
          pfx.drop (pre.drop x.length).length ++ v' := by
        rw [hlenpre, List.drop_append]
        exact List.drop_append_of_le_length hle2
      rw [hdropo]
      rw [hdropi] at hrun
      calc countWhile cls (pfx.drop (pre.drop x.length).length ++ '[' :: zOut)
          ≤ countWhile cls (pfx.drop (pre.drop x.length).length ++ v') := by
            apply countWhile_le_of_tail_le
            rw [countWhile_cons_zero _ hcls]
            omega
        _ < lo := hrun
    · -- pre would have to continue over the '[' — impossible
      exfalso
      have hsplit2 := prefix_split hrest
      rcases hsplit2 with hp2 | ⟨hpfxpre, hrest2⟩
      · exact absurd hp2.length_le (by omega)
      have hne : (pre.drop x.length).drop pfx.length ≠ [] := by
        intro hnil
        have h0 := List.length_eq_zero.mpr hnil
        simp only [List.length_drop] at h0 hgt2
        omega
      match hq : (pre.drop x.length).drop pfx.length, hne with
      | q :: qs, _ =>
        rw [hq] at hrest2
        have : q = '[' := by
          rcases List.cons_prefix_cons.mp hrest2 with ⟨h1, -⟩
          exact h1
        subst this
        apply hlb
        have h1 : '[' ∈ (pre.drop x.length).drop pfx.length := by
          rw [hq]; simp
        exact List.mem_of_mem_drop (List.mem_of_mem_drop h1)

/-- A key-shaped pattern has no match anywhere in its own substitution
output: matches inside replacement blocks are ruled out by `inertChk`, and
matches at unmatched scan positions would have had to exist in the input
(the class run can only shrink at a block's `'['`). -/
theorem keyPattern_self_aux (pre : List Char) (cls : Char → Bool) (lo : Nat)
    (ex : Bool) (repl : List Char) (hpre : pre ≠ []) (hlb : '[' ∉ pre)
    (hcls : cls '[' = false) (hinert : inertChk pre repl = true)
    (rt : List Char) (hhead : repl = '[' :: rt) :
    ∀ (k : Nat) (t : List Char), t.length ≤ k →
      NoMatch (matchKeyPattern pre cls lo ex repl)
        (subst (matchKeyPattern pre cls lo ex repl) t) := by
  intro k
  induction k with
  | zero =>
    intro t hlen
    have : t = [] := List.length_eq_zero.mp (Nat.le_zero.mp hlen)
    subst this
    intro i
    simp only [subst_nil, List.drop_nil]
    exact mkp_nil hpre
  | succ k ih =>
    intro t hlen
    rcases subst_decomp _ (mkp_pos hpre) (mkp_nil hpre) t with
      ⟨heq, hnm⟩ | ⟨a, v, n, r, hsplit, hm, hstretch, heq, hn1⟩
    · rw [heq]
      exact hnm
    · obtain ⟨hvpre, hrunv, hr, hnval⟩ := mkp_some_elim hm
      rw [hr] at heq
      rw [heq]
      have hlenv : v.length ≤ t.length := by
        rw [hsplit]; simp
      have hW : NoMatch (matchKeyPattern pre cls lo ex repl)
          (subst (matchKeyPattern pre cls lo ex repl) (v.drop n)) := by
        apply ih
        simp only [List.length_drop]
        omega
      intro i
      rw [List.append_assoc]
      rcases lt_or_ge i a.length with hia | hia
      · have hdrop : (a ++ (repl ++ subst (matchKeyPattern pre cls lo ex repl)
            (v.drop n))).drop i =
            a.drop i ++ (repl ++ subst (matchKeyPattern pre cls lo ex repl)
              (v.drop n)) :=
          List.drop_append_of_le_length (le_of_lt hia)
        rw [hdrop]
        have hin : matchKeyPattern pre cls lo ex repl (a.drop i ++ v) = none := by
          have h0 := hstretch i hia
          rwa [hsplit, List.drop_append_of_le_length (le_of_lt hia)] at h0
        have h1 := mkp_none_transfer hlb hcls (a.drop i) [] v
          (rt ++ subst (matchKeyPattern pre cls lo ex repl) (v.drop n))
          (by simpa using hin)
        simpa [hhead] using h1
      · rcases lt_or_ge i (a.length + repl.length) with hib | hib
        · have hdrop : (a ++ (repl ++ subst (matchKeyPattern pre cls lo ex repl)
              (v.drop n))).drop i =
              repl.drop (i - a.length) ++ subst (matchKeyPattern pre cls lo ex repl)
                (v.drop n) := by
            rw [drop_append_mid hia]
            exact List.drop_append_of_le_length (by omega)
          rw [hdrop]
          exact mkp_none_of_not_pre
            (inertChk_sound hinert (i - a.length) (by omega) _)
        · have hdrop : (a ++ (repl ++ subst (matchKeyPattern pre cls lo ex repl)
              (v.drop n))).drop i =
              (subst (matchKeyPattern pre cls lo ex repl) (v.drop n)).drop
                (i - a.length - repl.length) := by
            rw [drop_append_mid hia, drop_append_mid (by omega)]
          rw [hdrop]
          exact hW _

theorem keyPattern_self (pre : List Char) (cls : Char → Bool) (lo : Nat)
    (ex : Bool) (repl : List Char) (hpre : pre ≠ []) (hlb : '[' ∉ pre)
    (hcls : cls '[' = false) (hinert : inertChk pre repl = true)
    (rt : List Char) (hhead : repl = '[' :: rt) (t : List Char) :
    NoMatch (matchKeyPattern pre cls lo ex repl)
      (subst (matchKeyPattern pre cls lo ex repl) t) :=
  keyPattern_self_aux pre cls lo ex repl hpre hlb hcls hinert rt hhead
    t.length t le_rfl

/-- A pass `mj` whose every replacement is a matched prefix of the input
followed by a `'['`-headed block that is inert for `pre` cannot create a
`matchKeyPattern pre …` match: positions in a copied stretch or in the
preserved prefix reduce to input positions via `mkp_none_transfer`, block
positions are inert, and the rewritten tail is handled by induction. -/
theorem keyPattern_noMatch_preserved (pre : List Char) (cls : Char → Bool)
    (lo : Nat) (ex : Bool) (repl : List Char) (hlb : '[' ∉ pre)
    (hcls : cls '[' = false)
    (mj : List Char → Option (Nat × List Char))
    (hjpos : ∀ u p, mj u = some p → 1 ≤ p.1) (hjnil : mj [] = none)
    (HJ : ∀ v n r, mj v = some (n, r) → ∃ pfx tail, r = pfx ++ '[' :: tail ∧
      pfx <+: v ∧
      ∀ o, o < ('[' :: tail).length → ∀ w, ¬ pre <+: (('[' :: tail).drop o ++ w)) :
    ∀ (k : Nat) (t : List Char), t.length ≤ k →
      NoMatch (matchKeyPattern pre cls lo ex repl) t →
      NoMatch (matchKeyPattern pre cls lo ex repl) (subst mj t) := by
  intro k
  induction k with
  | zero =>
    intro t hlen hnm
    have : t = [] := List.length_eq_zero.mp (Nat.le_zero.mp hlen)
    subst this
    rw [subst_nil]
    exact hnm
  | succ k ih =>
    intro t hlen hnm
    rcases subst_decomp mj hjpos hjnil t with
      ⟨heq, _⟩ | ⟨a, v, n, r, hsplit, hm, _, heq, hn1⟩
    · rw [heq]
      exact hnm
    · obtain ⟨pfx, tail, hr, hpfx, hinert⟩ := HJ v n r hm
      obtain ⟨v', hv⟩ := hpfx
      rw [heq, hr]
      have hlenv : v.length ≤ t.length := by rw [hsplit]; simp
      have htail : v.drop n = t.drop (a.length + n) := by
        rw [hsplit, List.drop_append]
      have hW : NoMatch (matchKeyPattern pre cls lo ex repl)
          (subst mj (v.drop n)) := by
        apply ih
        · simp only [List.length_drop]
          omega
        · rw [htail]
          exact noMatch_drop hnm (a.length + n)
      intro i
      rcases lt_or_ge i a.length with hia | hia
      · have hdrop : ((a ++ (pfx ++ '[' :: tail)) ++ subst mj (v.drop n)).drop i =
            a.drop i ++ (pfx ++ ('[' :: (tail ++ subst mj (v.drop n)))) := by
          rw [List.append_assoc, List.drop_append_of_le_length (le_of_lt hia)]
          simp
        rw [hdrop]
        have hin : matchKeyPattern pre cls lo ex repl
            (a.drop i ++ (pfx ++ v')) = none := by
          have h0 := hnm i
          rwa [hsplit, List.drop_append_of_le_length (le_of_lt hia), ← hv] at h0
        exact mkp_none_transfer hlb hcls (a.drop i) pfx v' _ hin
      · rcases lt_or_ge (i - a.length) pfx.length with ho | ho
        · have hdrop : ((a ++ (pfx ++ '[' :: tail)) ++ subst mj (v.drop n)).drop i =
              pfx.drop (i - a.length) ++ ('[' :: (tail ++ subst mj (v.drop n))) := by
            rw [List.append_assoc, drop_append_mid hia, List.append_assoc,
              List.drop_append_of_le_length (le_of_lt ho)]
            simp
          rw [hdrop]
          have hin : matchKeyPattern pre cls lo ex repl
              (pfx.drop (i - a.length) ++ v') = none := by
            have h0 := hnm (a.length + (i - a.length))
            rw [hsplit, List.drop_append, ← hv,
              List.drop_append_of_le_length (le_of_lt ho)] at h0
            exact h0
          have h1 := mkp_none_transfer hlb hcls [] (pfx.drop (i - a.length)) v'
            (tail ++ subst mj (v.drop n)) (by simpa using hin)
          simpa using h1
        · rcases lt_or_ge (i - a.length) (pfx.length + ('[' :: tail).length)
            with ho2 | ho2
          · have hdrop : ((a ++ (pfx ++ '[' :: tail)) ++ subst mj (v.drop n)).drop i =
                ('[' :: tail).drop (i - a.length - pfx.length) ++
                  subst mj (v.drop n) := by
              rw [List.append_assoc, drop_append_mid hia, List.append_assoc,
                drop_append_mid ho]
              exact List.drop_append_of_le_length (by
                simp only [List.length_cons] at ho2 ⊢
                omega)
            rw [hdrop]
            exact mkp_none_of_not_pre
              (hinert (i - a.length - pfx.length) (by
                simp only [List.length_cons] at ho2 ⊢
                omega) _)
          · have hdrop : ((a ++ (pfx ++ '[' :: tail)) ++ subst mj (v.drop n)).drop i =
                (subst mj (v.drop n)).drop
                  (i - a.length - (pfx ++ '[' :: tail).length) := by
              rw [drop_append_mid (by
                simp only [List.length_append, List.length_cons] at ho2 ⊢
                omega)]
              congr 1
              simp only [List.length_append, List.length_cons]
              omega
            rw [hdrop]
            exact hW _

/-! Computable facts about the environment-variable name alternation. -/

theorem names_prefix_free : ∀ n1 ∈ ENV_VAR_NAMES, ∀ n2 ∈ ENV_VAR_NAMES,
    n1 <+: n2 → n1 = n2 := by decide

theorem names_suffix_eq : ∀ n1 ∈ ENV_VAR_NAMES, ∀ n2 ∈ ENV_VAR_NAMES,
    n1 <:+ n2 → n1 = n2 := by decide

theorem names_no_lb : ∀ nm ∈ ENV_VAR_NAMES, '[' ∉ nm := by decide

theorem names_no_space : ∀ nm ∈ ENV_VAR_NAMES, ∀ c ∈ nm,
    isPySpace c = false := by decide

theorem names_no_e : ∀ nm ∈ ENV_VAR_NAMES, ∀ c ∈ nm, c ≠ 'e' := by decide

theorem names_head_not_stop : ∀ nm ∈ ENV_VAR_NAMES,
    nm ≠ [] ∧ isStopChar nm.headI = false := by decide

theorem names_prefix_unique {n1 n2 s : List Char} (h1 : n1 ∈ ENV_VAR_NAMES)
    (h2 : n2 ∈ ENV_VAR_NAMES) (hp1 : n1 <+: s) (hp2 : n2 <+: s) :
    n1 = n2 := by
  rcases List.prefix_or_prefix_of_prefix hp1 hp2 with h | h
  · exact names_prefix_free n1 h1 n2 h2 h
  · exact (names_prefix_free n2 h2 n1 h1 h).symm

theorem find?_eq_of_unique {α : Type} (p : α → Bool) :
    ∀ (l : List α) (a : α), a ∈ l → p a = true →
      (∀ b ∈ l, p b = true → b = a) → l.find? p = some a := by
  intro l
  induction l with
  | nil => intro a h; simp at h
  | cons x xs ih =>
    intro a hmem hpa huniq
    rcases hx : p x with _ | _
    · rw [List.find?_cons_of_neg _ (by simp [hx])]
      apply ih
      · rcases List.mem_cons.mp hmem with h | h
        · rw [h, hx] at hpa
          exact absurd hpa (by simp)
        · exact h
      · exact hpa
      · intro b hb hpb
        exact huniq b (by simp [hb]) hpb
    · rw [List.find?_cons_of_pos _ hx]
      rw [huniq x (by simp) hx]

theorem find?_names_eq {nm s : List Char} (hmem : nm ∈ ENV_VAR_NAMES)
    (hpre : nm <+: s) :
    ENV_VAR_NAMES.find? (fun n => n.isPrefixOf s) = some nm := by
  apply find?_eq_of_unique _ _ nm hmem ((isPrefixOf_true_iff nm s).mpr hpre)
  intro b hb hpb
  exact names_prefix_unique hb hmem ((isPrefixOf_true_iff b s).mp hpb) hpre

/-- Elimination for `matchEnvAssign`: a match exhibits an environment
variable name, the `'='`, a non-empty maximal non-stop value run, and the
canonical replacement. -/
theorem m13_some_elim {s : List Char} {n : Nat} {r : List Char}
    (h : matchEnvAssign s = some (n, r)) :
    ∃ nm rest2, nm ∈ ENV_VAR_NAMES ∧ s = nm ++ '=' :: rest2 ∧
      1 ≤ countWhile (fun c => !isStopChar c) rest2 ∧
      n = nm.length + 1 + countWhile (fun c => !isStopChar c) rest2 ∧
      r = nm ++ '=' :: "[REDACTED]".data := by
  rcases hfind : ENV_VAR_NAMES.find? (fun n => n.isPrefixOf s) with _ | nm
  · rw [matchEnvAssign, hfind] at h
    exact absurd h (by simp)
  · have hbody : matchEnvAssign s = (match s.drop nm.length with
        | '=' :: rest2 =>
          if 1 ≤ countWhile (fun c => !isStopChar c) rest2 then
            some (nm.length + 1 + countWhile (fun c => !isStopChar c) rest2,
              nm ++ '=' :: "[REDACTED]".data)
          else none
        | _ => none) := by
      rw [matchEnvAssign, hfind]
    rw [hbody] at h
    have hmem := List.mem_of_find?_eq_some hfind
    have hps := List.find?_some hfind
    simp only at hps
    have hpre : nm <+: s := (isPrefixOf_true_iff _ _).mp hps
    split at h
    · rename_i rest2 heq
      by_cases hrun : 1 ≤ countWhile (fun c => !isStopChar c) rest2
      · rw [if_pos hrun] at h
        injection h with h
        injection h with h1 h2
        refine ⟨nm, rest2, hmem, ?_, hrun, h1.symm, h2.symm⟩
        conv_lhs => rw [← List.take_append_drop nm.length s, heq,
          ← List.prefix_iff_eq_take.mp hpre]
      · rw [if_neg hrun] at h
        exact absurd h (by simp)
    · exact absurd h (by simp)

theorem m13_pos : ∀ u p, matchEnvAssign u = some p → 1 ≤ p.1 := by
  intro u p h
  obtain ⟨nm, rest2, -, -, -, hn, -⟩ :=
    m13_some_elim (show matchEnvAssign u = some (p.1, p.2) by simpa using h)
  omega

theorem m13_nil : matchEnvAssign [] = none := by decide

/-- Elimination for `matchExportEnvAssign`: a match exhibits the literal
`export`, a non-empty all-whitespace run, and an inner assignment match on
the remainder. -/
theorem m14_some_elim {s : List Char} {n : Nat} {r : List Char}
    (h : matchExportEnvAssign s = some (n, r)) :
    ∃ ws rest' n2 r2, s = "export".data ++ ws ++ rest' ∧ 1 ≤ ws.length ∧
      (∀ c ∈ ws, isPySpace c = true) ∧
      ws.length = countWhile isPySpace (s.drop 6) ∧
      matchEnvAssign rest' = some (n2, r2) ∧
      n = 6 + ws.length + n2 ∧ r = "export".data ++ ws ++ r2 := by
  rw [matchExportEnvAssign] at h
  by_cases hpre : "export".data.isPrefixOf s = true
  swap
  · rw [if_neg hpre] at h
    exact absurd h (by simp)
  rw [if_pos hpre] at h
  by_cases hw : 1 ≤ countWhile isPySpace (s.drop 6)
  swap
  · rw [if_neg hw] at h
    exact absurd h (by simp)
  rw [if_pos hw] at h
  rcases hin : matchEnvAssign
      ((s.drop 6).drop (countWhile isPySpace (s.drop 6))) with _ | ⟨n2, r2⟩
  · rw [hin] at h
    exact absurd h (by simp)
  · rw [hin] at h
    injection h with h
    injection h with h1 h2
    have hwlen : ((s.drop 6).take (countWhile isPySpace (s.drop 6))).length =
        countWhile isPySpace (s.drop 6) := by
      rw [List.length_take]
      have := countWhile_le_length isPySpace (s.drop 6)
      omega
    have hex : s.take 6 = "export".data := by
      have hq := List.prefix_iff_eq_take.mp ((isPrefixOf_true_iff _ _).mp hpre)
      rw [show ("export".data : List Char).length = 6 from rfl] at hq
      exact hq.symm
    refine ⟨(s.drop 6).take (countWhile isPySpace (s.drop 6)),
      (s.drop 6).drop (countWhile isPySpace (s.drop 6)), n2, r2, ?_,
      by omega, countWhile_take_all isPySpace (s.drop 6), hwlen, hin, ?_,
      h2.symm⟩
    · conv_lhs => rw [← List.take_append_drop 6 s, hex,
        ← List.take_append_drop (countWhile isPySpace (s.drop 6)) (s.drop 6)]
      simp
    · rw [← h1, hwlen]

theorem m14_pos : ∀ u p, matchExportEnvAssign u = some p → 1 ≤ p.1 := by
  intro u p h
  obtain ⟨ws, rest', n2, r2, -, -, -, -, -, hn, -⟩ :=
    m14_some_elim (show matchExportEnvAssign u = some (p.1, p.2) by
      simpa using h)
  omega

theorem m14_nil : matchExportEnvAssign [] = none := by decide

theorem m13_none_of_head_stop {d : Char} (ds : List Char)
    (hd : isStopChar d = true) : matchEnvAssign (d :: ds) = none := by
  rw [matchEnvAssign]
  have hfind : ENV_VAR_NAMES.find? (fun n => n.isPrefixOf (d :: ds)) = none := by
    rw [List.find?_eq_none]
    intro nm hmem
    obtain ⟨hne, hhead⟩ := names_head_not_stop nm hmem
    match nm, hne with
    | c :: cs, _ =>
      simp only [List.headI] at hhead
      simp only [List.isPrefixOf, Bool.and_eq_true, beq_iff_eq, not_and]
      intro hcd
      rw [hcd, hd] at hhead
      exact absurd hhead (by simp)
  rw [hfind]

theorem m14_none_of_head_ne_e {d : Char} (ds : List Char) (hd : d ≠ 'e') :
    matchExportEnvAssign (d :: ds) = none := by
  rw [matchExportEnvAssign, if_neg]
  have : "export".data = 'e' :: "xport".data := rfl
  rw [this]
  simp only [List.isPrefixOf, Bool.and_eq_true, beq_iff_eq, not_and]
  intro hcd
  exact absurd hcd.symm hd

/-- Preservation of key-pattern `NoMatch` through a later key-shaped pass. -/
theorem keyPattern_noMatch_preserved_key
    (preK : List Char) (clsK : Char → Bool) (loK : Nat) (exK : Bool)
    (replK : List Char) (hlb : '[' ∉ preK) (hcls : clsK '[' = false)
    (pre2 : List Char) (cls2 : Char → Bool) (lo2 : Nat) (ex2 : Bool)
    (repl2 tail2 : List Char) (hpre2 : pre2 ≠ []) (h2 : repl2 = '[' :: tail2)
    (hinert : inertChk preK repl2 = true)
    (t : List Char) (h : NoMatch (matchKeyPattern preK clsK loK exK replK) t) :
    NoMatch (matchKeyPattern preK clsK loK exK replK)
      (subst (matchKeyPattern pre2 cls2 lo2 ex2 repl2) t) := by
  apply keyPattern_noMatch_preserved preK clsK loK exK replK hlb hcls _
    (mkp_pos hpre2) (mkp_nil hpre2) ?_ t.length t le_rfl h
  intro v n r hm
  obtain ⟨-, -, hr, -⟩ := mkp_some_elim hm
  refine ⟨[], tail2, by rw [hr, h2]; rfl, List.nil_prefix, ?_⟩
  intro o ho w
  rw [h2] at hinert
  exact inertChk_sound hinert o ho w

/-- Preservation of key-pattern `NoMatch` through the assignment pass. -/
theorem keyPattern_noMatch_preserved_m13
    (preK : List Char) (clsK : Char → Bool) (loK : Nat) (exK : Bool)
    (replK : List Char) (hlb : '[' ∉ preK) (hcls : clsK '[' = false)
    (hinert : inertChk preK "[REDACTED]".data = true)
    (t : List Char) (h : NoMatch (matchKeyPattern preK clsK loK exK replK) t) :
    NoMatch (matchKeyPattern preK clsK loK exK replK)
      (subst matchEnvAssign t) := by
  apply keyPattern_noMatch_preserved preK clsK loK exK replK hlb hcls
    matchEnvAssign m13_pos m13_nil ?_ t.length t le_rfl h
  intro v n r hm
  obtain ⟨nm, rest2, hmem, hv, hrun, hn, hr⟩ := m13_some_elim hm
  refine ⟨nm ++ ['='], "REDACTED]".data, ?_, ⟨rest2, by rw [hv]; simp⟩, ?_⟩
  · rw [hr, show ("[REDACTED]".data : List Char) = '[' :: "REDACTED]".data
      from rfl]
    simp
  · intro o ho w
    rw [show ('[' :: "REDACTED]".data : List Char) = "[REDACTED]".data
      from rfl] at ho ⊢
    exact inertChk_sound hinert o ho w

/-- Preservation of key-pattern `NoMatch` through the export-assignment
pass. -/
theorem keyPattern_noMatch_preserved_m14
    (preK : List Char) (clsK : Char → Bool) (loK : Nat) (exK : Bool)
    (replK : List Char) (hlb : '[' ∉ preK) (hcls : clsK '[' = false)
    (hinert : inertChk preK "[REDACTED]".data = true)
    (t : List Char) (h : NoMatch (matchKeyPattern preK clsK loK exK replK) t) :
    NoMatch (matchKeyPattern preK clsK loK exK replK)
      (subst matchExportEnvAssign t) := by
  apply keyPattern_noMatch_preserved preK clsK loK exK replK hlb hcls
    matchExportEnvAssign m14_pos m14_nil ?_ t.length t le_rfl h
  intro v n r hm
  obtain ⟨ws, rest', n2, r2, hv, hw, hws, hwm, hin, hn, hr⟩ := m14_some_elim hm
  obtain ⟨nm, rest2, hmem, hrest', hrun, hn2, hr2⟩ := m13_some_elim hin
  refine ⟨"export".data ++ ws ++ nm ++ ['='], "REDACTED]".data, ?_, ?_, ?_⟩
  · rw [hr, hr2, show ("[REDACTED]".data : List Char) = '[' :: "REDACTED]".data
      from rfl]
    simp
  · refine ⟨rest2, ?_⟩
    rw [hv, hrest']
    simp
  · intro o ho w
    rw [show ('[' :: "REDACTED]".data : List Char) = "[REDACTED]".data
      from rfl] at ho ⊢
    exact inertChk_sound hinert o ho w

/-- Evaluation of `matchEnvAssign` at a recognised assignment head. -/
theorem m13_eval_at (nm s : List Char) (hmem : nm ∈ ENV_VAR_NAMES)
    (rest2 : List Char) (hs : s = nm ++ '=' :: rest2)
    (hrun : 1 ≤ countWhile (fun c => !isStopChar c) rest2) :
    matchEnvAssign s =
      some (nm.length + 1 + countWhile (fun c => !isStopChar c) rest2,
        nm ++ '=' :: "[REDACTED]".data) := by
  subst hs
  have hfind := find?_names_eq hmem ⟨'=' :: rest2, rfl⟩
  have hbody : matchEnvAssign (nm ++ '=' :: rest2) =
      (match (nm ++ '=' :: rest2).drop nm.length with
        | '=' :: r2 =>
          if 1 ≤ countWhile (fun c => !isStopChar c) r2 then
            some (nm.length + 1 + countWhile (fun c => !isStopChar c) r2,
              nm ++ '=' :: "[REDACTED]".data)
          else none
        | _ => none) := by
    rw [matchEnvAssign, hfind]
  have hred : (match (nm ++ '=' :: rest2).drop nm.length with
      | '=' :: r2 =>
        if 1 ≤ countWhile (fun c => !isStopChar c) r2 then
          some (nm.length + 1 + countWhile (fun c => !isStopChar c) r2,
            nm ++ '=' :: "[REDACTED]".data)
        else none
      | _ => none) =
      if 1 ≤ countWhile (fun c => !isStopChar c) rest2 then
        some (nm.length + 1 + countWhile (fun c => !isStopChar c) rest2,
          nm ++ '=' :: "[REDACTED]".data)
      else none := by
    rw [List.drop_left]
    rfl
  rw [hbody, hred, if_pos hrun]


theorem redacted_nonstop : ∀ c ∈ "[REDACTED]".data,
    (!isStopChar c) = true := by decide

theorem redacted_no_eq : '=' ∉ "[REDACTED]".data := by decide

/-- The assignment pass self-matches at the head of one of its own
replacement blocks when nothing non-stop follows. -/
theorem m13_block_self (nm W : List Char) (hmem : nm ∈ ENV_VAR_NAMES)
    (hW : countWhile (fun c => !isStopChar c) W = 0) :
    matchEnvAssign (nm ++ '=' :: ("[REDACTED]".data ++ W)) =
      some (nm.length + 11, nm ++ '=' :: "[REDACTED]".data) := by
  have hcw : countWhile (fun c => !isStopChar c) ("[REDACTED]".data ++ W) = 10 := by
    rw [countWhile_append_all W redacted_nonstop, hW]
    decide
  have h := m13_eval_at nm _ hmem ("[REDACTED]".data ++ W) rfl (by rw [hcw]; omega)
  rw [h, hcw]

theorem names_inert_block : ∀ n1 ∈ ENV_VAR_NAMES, ∀ n2 ∈ ENV_VAR_NAMES,
    inertChk n1 ((n2 ++ '=' :: "[REDACTED]".data).drop 1) = true := by decide

/-- No environment-variable name can begin strictly inside an assignment
replacement block, whatever follows it. -/
theorem m13_none_inside_block (nm : List Char) (hmem : nm ∈ ENV_VAR_NAMES)
    (o : Nat) (h1 : 1 ≤ o) (ho : o < (nm ++ '=' :: "[REDACTED]".data).length)
    (W : List Char) :
    matchEnvAssign ((nm ++ '=' :: "[REDACTED]".data).drop o ++ W) = none := by
  rw [matchEnvAssign]
  have hfind : ENV_VAR_NAMES.find?
      (fun n => n.isPrefixOf ((nm ++ '=' :: "[REDACTED]".data).drop o ++ W)) =
      none := by
    rw [List.find?_eq_none]
    intro nm' hmem'
    simp only [Bool.not_eq_true]
    rw [← Bool.not_eq_true]
    intro hp
    have hpre := (isPrefixOf_true_iff _ _).mp hp
    have hin := inertChk_sound (names_inert_block nm' hmem' nm hmem) (o - 1)
      (by simp only [List.length_drop, List.length_append,
            List.length_cons] at ho ⊢
          omega) W
    rw [List.drop_drop, show 1 + (o - 1) = o by omega] at hin
    exact hin hpre
  rw [hfind]

/-- Transfer of assignment-pass self-matching across a divergence point:
the input suffix `x ++ rest2` and the output suffix `x ++ '[' :: z` agree
on `x`, which ends in `'='` but is not itself `name ++ "="`; any
assignment match on the output suffix matches entirely inside `x` and is
forced to be a self-match because the corresponding input match is one. -/
theorem m13_selfFixed_transfer (x rest2 z : List Char)
    (hlast : ∃ y, x = y ++ ['='])
    (hx : ∀ nm ∈ ENV_VAR_NAMES, x ≠ nm ++ ['='])
    (hself : ∀ n1 r1, matchEnvAssign (x ++ rest2) = some (n1, r1) →
      r1 = (x ++ rest2).take n1) :
    ∀ n' r', matchEnvAssign (x ++ '[' :: z) = some (n', r') →
      r' = (x ++ '[' :: z).take n' := by
  intro n' r' h
  obtain ⟨nm', rest2', hmem', hO, hrun', hn', hr'⟩ := m13_some_elim h
  have hOdrop : (x ++ '[' :: z).drop nm'.length = '=' :: rest2' := by
    rw [hO, List.drop_left]
  rcases lt_or_ge nm'.length x.length with hpx | hpx
  swap
  · exfalso
    rcases eq_or_lt_of_le hpx with heq | hlt
    · have hx_eq : nm' = x := by
        have h1 : nm' <+: x ++ '[' :: z := ⟨'=' :: rest2', hO.symm⟩
        have h2 : nm' <+: x := prefix_of_append_of_le h1 (by omega)
        exact h2.eq_of_length (by omega)
      rw [hx_eq, List.drop_left] at hOdrop
      injection hOdrop with hc hzz
      exact absurd hc (by decide)
    · have h1 : nm' <+: x ++ '[' :: z := ⟨'=' :: rest2', hO.symm⟩
      rcases prefix_split h1 with h2 | ⟨h2, h3⟩
      · exact absurd h2.length_le (by omega)
      · have hne : nm'.drop x.length ≠ [] := by
          intro hnil
          have h4 := List.length_eq_zero.mpr hnil
          simp only [List.length_drop] at h4
          omega
        match hq : nm'.drop x.length, hne with
        | q :: qs, _ =>
          rw [hq] at h3
          have hqlb : q = '[' := (List.cons_prefix_cons.mp h3).1
          apply names_no_lb nm' hmem'
          rw [← hqlb]
          exact List.mem_of_mem_drop
            (show q ∈ nm'.drop x.length by rw [hq]; exact List.mem_cons_self _ _)
  · have hxpre : nm' <+: x := by
      have h1 : nm' <+: x ++ '[' :: z := ⟨'=' :: rest2', hO.symm⟩
      exact prefix_of_append_of_le h1 (le_of_lt hpx)
    have hxd_ne : x.drop nm'.length ≠ [] := by
      intro hnil
      have h4 := List.length_eq_zero.mpr hnil
      simp only [List.length_drop] at h4
      omega
    rcases hxd : x.drop nm'.length with _ | ⟨c, xs1⟩
    · exact absurd hxd hxd_ne
    · have hOd2 : (x ++ '[' :: z).drop nm'.length = c :: (xs1 ++ '[' :: z) := by
        rw [List.drop_append_of_le_length (le_of_lt hpx), hxd]
        rfl
      rw [hOdrop] at hOd2
      injection hOd2 with hc hrest2'
      have hxs1 : xs1 = x.drop (nm'.length + 1) := by
        have h5 := congrArg (List.drop 1) hxd
        rw [List.drop_drop] at h5
        simp only [List.drop_succ_cons, List.drop_zero] at h5
        exact h5.symm
      have hxdec : x = nm' ++ '=' :: x.drop (nm'.length + 1) := by
        conv_lhs => rw [← List.take_append_drop nm'.length x,
          ← List.prefix_iff_eq_take.mp hxpre, hxd]
        rw [← hc, hxs1]
      rcases eq_or_lt_of_le (Nat.succ_le_of_lt hpx) with hp1 | hp1
      · exfalso
        apply hx nm' hmem'
        have hdnil : x.drop (nm'.length + 1) = [] :=
          List.drop_eq_nil_of_le (by omega)
        rw [hxdec, hdnil]
      · have hxd1_ne : x.drop (nm'.length + 1) ≠ [] := by
          intro hnil
          have h4 := List.length_eq_zero.mpr hnil
          simp only [List.length_drop] at h4
          omega
        rcases hx1 : x.drop (nm'.length + 1) with _ | ⟨d, ds⟩
        · exact absurd hx1 hxd1_ne
        · have hrest2d : rest2' = d :: (ds ++ '[' :: z) := by
            rw [hrest2', hxs1, hx1]
            rfl
          have hd_nonstop : (!isStopChar d) = true := by
            by_contra hds
            rw [hrest2d, countWhile_cons_zero _ (by simpa using hds)] at hrun'
            omega
          have hIeq : x ++ rest2 = nm' ++ '=' :: (d :: (ds ++ rest2)) := by
            conv_lhs => rw [hxdec, hx1]
            simp
          have hrunIpos : 1 ≤ countWhile (fun c => !isStopChar c)
              (d :: (ds ++ rest2)) := by
            rw [countWhile_cons_pos _ hd_nonstop]
            omega
          have hI := m13_eval_at nm' _ hmem' _ hIeq hrunIpos
          have hsm := hself _ _ hI
          have hlenI : (x ++ rest2).length =
              nm'.length + 1 + (1 + (ds.length + rest2.length)) := by
            have h7 := congrArg List.length hIeq
            simp only [List.length_append, List.length_cons] at h7 ⊢
            omega
          have hrunIle := countWhile_le_length (fun c => !isStopChar c)
            (d :: (ds ++ rest2))
          have hrl : ("[REDACTED]".data : List Char).length = 10 := rfl
          have hItotal : nm'.length + 1 + countWhile (fun c => !isStopChar c)
              (d :: (ds ++ rest2)) ≤ (x ++ rest2).length := by
            simp only [List.length_cons, List.length_append] at hrunIle hlenI ⊢
            omega
          have hrunI10 : countWhile (fun c => !isStopChar c)
              (d :: (ds ++ rest2)) = 10 := by
            have h8 := congrArg List.length hsm
            rw [List.length_take, Nat.min_eq_left hItotal] at h8
            simp only [List.length_append, List.length_cons,
              List.length_nil] at h8
            omega
          rw [hrunI10] at hsm hI
          have hIstruct : x ++ rest2 = (nm' ++ '=' :: "[REDACTED]".data) ++
              (x ++ rest2).drop (nm'.length + 11) := by
            conv_lhs => rw [← List.take_append_drop (nm'.length + 11) (x ++ rest2)]
            rw [show nm'.length + 1 + 10 = nm'.length + 11 from by omega] at hsm
            rw [← hsm]
          have hpxlen : nm'.length + 1 ≤ x.length := by omega
          have hK1 : (x ++ rest2).drop (nm'.length + 1) = d :: (ds ++ rest2) := by
            rw [List.drop_append_of_le_length hpxlen, hx1]
            rfl
          have hK2 : (x ++ rest2).drop (nm'.length + 1) =
              "[REDACTED]".data ++ (x ++ rest2).drop (nm'.length + 11) := by
            conv_lhs => rw [hIstruct]
            rw [show (nm' ++ '=' :: "[REDACTED]".data) ++
                (x ++ rest2).drop (nm'.length + 11) =
                (nm' ++ ['=']) ++ ("[REDACTED]".data ++
                  (x ++ rest2).drop (nm'.length + 11)) from by simp,
              List.drop_left' (show (nm' ++ ['=']).length = nm'.length + 1
                from by simp)]
          have hKey : d :: (ds ++ rest2) =
              "[REDACTED]".data ++ (x ++ rest2).drop (nm'.length + 11) := by
            rw [← hK1, hK2]
          have hLge : 11 ≤ ds.length + 1 := by
            by_contra hL
            push_neg at hL
            have htake : d :: ds = ("[REDACTED]".data).take (ds.length + 1) := by
              have h10 := congrArg (List.take (ds.length + 1)) hKey
              rw [show d :: (ds ++ rest2) = (d :: ds) ++ rest2 from rfl,
                List.take_left' (show (d :: ds).length = ds.length + 1 from
                  by simp),
                List.take_append_of_le_length (by omega)] at h10
              exact h10
            have heqmem : '=' ∈ d :: ds := by
              obtain ⟨y, hy⟩ := hlast
              have h11 : x.drop (nm'.length + 1) =
                  y.drop (nm'.length + 1) ++ ['='] := by
                rw [hy]
                exact List.drop_append_of_le_length (by
                  have := congrArg List.length hy
                  simp only [List.length_append, List.length_cons,
                    List.length_nil] at this
                  omega)
              rw [← hx1, h11]
              simp
            rw [htake] at heqmem
            exact redacted_no_eq (List.take_subset _ _ heqmem)
          have htake10 : d :: ds = "[REDACTED]".data ++ (d :: ds).drop 10 := by
            have h10 := congrArg (List.take 10) hKey
            rw [show d :: (ds ++ rest2) = (d :: ds) ++ rest2 from rfl,
              List.take_append_of_le_length (by simp; omega),
              List.take_left' (show ("[REDACTED]".data : List Char).length = 10
                from rfl)] at h10
            conv_lhs => rw [← List.take_append_drop 10 (d :: ds)]
            rw [h10]
          have hQ : (x ++ rest2).drop (nm'.length + 11) =
              (d :: ds).drop 10 ++ rest2 := by
            have h12 : (x ++ rest2).drop (nm'.length + 11) =
                x.drop (nm'.length + 11) ++ rest2 :=
              List.drop_append_of_le_length (by
                have := congrArg List.length hx1
                simp only [List.length_drop, List.length_cons] at this
                omega)
            rw [h12, show x.drop (nm'.length + 11) =
              (x.drop (nm'.length + 1)).drop 10 from by
                rw [List.drop_drop], hx1]
          have hQ0 : countWhile (fun c => !isStopChar c)
              ((d :: ds).drop 10 ++ rest2) = 0 := by
            have h13 : countWhile (fun c => !isStopChar c)
                ("[REDACTED]".data ++ ((d :: ds).drop 10 ++ rest2)) = 10 := by
              rw [← hQ, ← hKey]
              exact hrunI10
            rw [countWhile_append_all _ redacted_nonstop] at h13
            rw [show ("[REDACTED]".data : List Char).length = 10 from rfl] at h13
            omega
          have hds10_ne : (d :: ds).drop 10 ≠ [] := by
            intro hnil
            have h4 := List.length_eq_zero.mpr hnil
            simp only [List.length_drop, List.length_cons] at h4
            omega
          rcases hx2 : (d :: ds).drop 10 with _ | ⟨e, es⟩
          · exact absurd hx2 hds10_ne
          · have he_stop : (!isStopChar e) = false := by
              by_contra hes
              rw [hx2] at hQ0
              rw [show (e :: es) ++ rest2 = e :: (es ++ rest2) from rfl,
                countWhile_cons_pos _ (by simpa using hes)] at hQ0
              omega
            have hrun'10 : countWhile (fun c => !isStopChar c) rest2' = 10 := by
              rw [hrest2d, show d :: (ds ++ '[' :: z) = (d :: ds) ++ '[' :: z
                from rfl]
              conv_lhs => rw [htake10]
              rw [List.append_assoc, countWhile_append_all _ redacted_nonstop,
                hx2, show (e :: es) ++ '[' :: z = e :: (es ++ '[' :: z) from rfl,
                countWhile_cons_zero _ he_stop]
              rfl
            rw [hr', hn', hrun'10]
            have hxfin : x = (nm' ++ '=' :: "[REDACTED]".data) ++
                (x.drop (nm'.length + 1)).drop 10 := by
              conv_lhs => rw [hxdec]
              conv_lhs => rw [hx1, htake10]
              rw [hx1]
              simp
            rw [List.take_append_of_le_length (by
              have h14 := congrArg List.length hxfin
              simp only [List.length_append, List.length_cons,
                List.length_drop] at h14
              have h15 := congrArg List.length hx2
              simp only [List.length_drop, List.length_cons] at h15
              omega)]
            conv_rhs => rw [hxfin]
            rw [List.take_left' (show (nm' ++ '=' :: "[REDACTED]".data).length =
              nm'.length + 11 from by
                simp only [List.length_append, List.length_cons, hrl])]

/-- Every assignment-pass match in the output of the assignment pass is a
self-match: a match can only sit exactly on a replacement block the pass
just wrote. -/
theorem envAssign_selfFixed_aux :
    ∀ (k : Nat) (t : List Char), t.length ≤ k →
      SelfFixed matchEnvAssign (subst matchEnvAssign t) := by
  intro k
  induction k with
  | zero =>
    intro t hlen
    have : t = [] := List.length_eq_zero.mp (Nat.le_zero.mp hlen)
    subst this
    intro i n r hm
    rw [subst_nil, List.drop_nil, m13_nil] at hm
    exact absurd hm (by simp)
  | succ k ih =>
    intro t hlen
    rcases subst_decomp matchEnvAssign m13_pos m13_nil t with
      ⟨heq, hnm⟩ | ⟨a, v, n, r, hsplit, hm, hstretch, heq, hn1⟩
    · rw [heq]
      exact noMatch_selfFixed hnm
    · obtain ⟨nm, rest2, hmem, hv, hrun, hnval, hrval⟩ := m13_some_elim hm
      rw [heq, hrval]
      have hlenv : v.length ≤ t.length := by rw [hsplit]; simp
      have hWsf : SelfFixed matchEnvAssign (subst matchEnvAssign (v.drop n)) := by
        apply ih
        simp only [List.length_drop]
        omega
      have hvdrop : v.drop n =
          rest2.drop (countWhile (fun c => !isStopChar c) rest2) := by
        rw [hv, hnval, show nm ++ '=' :: rest2 = (nm ++ ['=']) ++ rest2
          from by simp, drop_append_mid (by simp)]
        congr 1
        simp
      have hW0 : countWhile (fun c => !isStopChar c)
          (subst matchEnvAssign (v.drop n)) = 0 := by
        rcases hvd : v.drop n with _ | ⟨d0, ds0⟩
        · rw [subst_nil]
          rfl
        · have hd0 : (!isStopChar d0) = false :=
            countWhile_drop_head (fun c => !isStopChar c) rest2 d0 ds0
              (by rw [← hvdrop, hvd])
          rw [subst_nomatch _ _ _
            (m13_none_of_head_stop ds0 (by simpa using hd0))]
          exact countWhile_cons_zero _ hd0
      have hRlen : (nm ++ '=' :: "[REDACTED]".data).length = nm.length + 11 := by
        simp only [List.length_append, List.length_cons,
          show ("[REDACTED]".data : List Char).length = 10 from rfl]
      intro i n' r' hmatch
      rcases lt_or_ge i a.length with hia | hia
      · have hOi : ((a ++ (nm ++ '=' :: "[REDACTED]".data)) ++
            subst matchEnvAssign (v.drop n)).drop i =
            (a.drop i ++ (nm ++ ['='])) ++
              '[' :: ("REDACTED]".data ++ subst matchEnvAssign (v.drop n)) := by
          rw [List.append_assoc, List.drop_append_of_le_length (le_of_lt hia),
            show ("[REDACTED]".data : List Char) = '[' :: "REDACTED]".data
              from rfl]
          simp
        have hin : matchEnvAssign ((a.drop i ++ (nm ++ ['='])) ++ rest2) =
            none := by
          have h0 := hstretch i hia
          rw [hsplit, List.drop_append_of_le_length (le_of_lt hia), hv] at h0
          rw [show (a.drop i ++ (nm ++ ['='])) ++ rest2 =
            a.drop i ++ (nm ++ '=' :: rest2) from by simp]
          exact h0
        rw [hOi] at hmatch ⊢
        refine m13_selfFixed_transfer _ rest2 _
          ⟨a.drop i ++ nm, by simp⟩ ?_ ?_ n' r' hmatch
        · intro nm'' hmem'' habs
          have h1 : (a.drop i ++ nm) ++ ['='] = nm'' ++ ['='] := by
            rw [List.append_assoc]
            exact habs
          have h2 : a.drop i ++ nm = nm'' := List.append_cancel_right h1
          have h3 : nm = nm'' := names_suffix_eq nm hmem nm'' hmem''
            ⟨a.drop i, h2⟩
          have h5 := congrArg List.length h2
          rw [← h3] at h5
          simp only [List.length_append, List.length_drop] at h5
          omega
        · intro n1 r1 hq
          rw [hin] at hq
          exact absurd hq (by simp)
      · rcases Nat.eq_zero_or_pos (i - a.length) with ho0 | hopos
        · have hieq : i = a.length := by omega
          subst hieq
          have hOb : ((a ++ (nm ++ '=' :: "[REDACTED]".data)) ++
              subst matchEnvAssign (v.drop n)).drop a.length =
              nm ++ '=' :: ("[REDACTED]".data ++
                subst matchEnvAssign (v.drop n)) := by
            rw [List.append_assoc, List.drop_left]
            simp
          rw [hOb] at hmatch ⊢
          rw [m13_block_self nm _ hmem hW0] at hmatch
          injection hmatch with hmatch
          injection hmatch with h1 h2
          rw [← h1, ← h2]
          rw [show nm ++ '=' :: ("[REDACTED]".data ++
            subst matchEnvAssign (v.drop n)) =
            (nm ++ '=' :: "[REDACTED]".data) ++
              subst matchEnvAssign (v.drop n) from by simp]
          rw [List.take_left' hRlen]
        · rcases lt_or_ge i (a.length + (nm.length + 11)) with hib | hib
          · have hOc : ((a ++ (nm ++ '=' :: "[REDACTED]".data)) ++
                subst matchEnvAssign (v.drop n)).drop i =
                (nm ++ '=' :: "[REDACTED]".data).drop (i - a.length) ++
                  subst matchEnvAssign (v.drop n) := by
              rw [List.append_assoc, drop_append_mid hia,
                List.drop_append_of_le_length (by rw [hRlen]; omega)]
            rw [hOc] at hmatch
            rw [m13_none_inside_block nm hmem (i - a.length) hopos
              (by rw [hRlen]; omega) _] at hmatch
            exact absurd hmatch (by simp)
          · have hOd : ((a ++ (nm ++ '=' :: "[REDACTED]".data)) ++
                subst matchEnvAssign (v.drop n)).drop i =
                (subst matchEnvAssign (v.drop n)).drop
                  (i - (a ++ (nm ++ '=' :: "[REDACTED]".data)).length) :=
              drop_append_mid (by rw [List.length_append, hRlen]; omega)
            rw [hOd] at hmatch ⊢
            exact hWsf _ n' r' hmatch

/-- The assignment pass maps every string to one of its own fixed points. -/
theorem envAssign_selfFixed (t : List Char) :
    SelfFixed matchEnvAssign (subst matchEnvAssign t) :=
  envAssign_selfFixed_aux t.length t le_rfl

theorem m14_none_of_head_stop {d : Char} (ds : List Char)
    (hd : isStopChar d = true) : matchExportEnvAssign (d :: ds) = none := by
  apply m14_none_of_head_ne_e
  intro he
  rw [he] at hd
  exact absurd hd (by decide)

theorem m13_none_of_head_not_name {d : Char} (ds : List Char)
    (hd : ∀ nm ∈ ENV_VAR_NAMES, nm ≠ [] → nm.headI ≠ d) :
    matchEnvAssign (d :: ds) = none := by
  rw [matchEnvAssign]
  have hfind : ENV_VAR_NAMES.find? (fun n => n.isPrefixOf (d :: ds)) = none := by
    rw [List.find?_eq_none]
    intro nm hmem
    obtain ⟨hne, -⟩ := names_head_not_stop nm hmem
    match nm, hne with
    | c :: cs, hne =>
      simp only [List.isPrefixOf, Bool.and_eq_true, beq_iff_eq, not_and]
      intro hcd
      exact absurd hcd (by
        have := hd (c :: cs) hmem (by simp)
        simpa using this)
  rw [hfind]

theorem names_head_props : ∀ nm ∈ ENV_VAR_NAMES,
    isPySpace nm.headI = false ∧ nm.headI ∉ "export".data := by decide

/-- The export pass preserves assignment-pass self-fixedness: its
replacement keeps the whole matched prefix `export<ws>NAME=` and only
rewrites the value into a fresh `[REDACTED]` block. -/
theorem envAssign_selfFixed_preserved_aux :
    ∀ (k : Nat) (t : List Char), t.length ≤ k →
      SelfFixed matchEnvAssign t →
      SelfFixed matchEnvAssign (subst matchExportEnvAssign t) := by
  intro k
  induction k with
  | zero =>
    intro t hlen hself
    have : t = [] := List.length_eq_zero.mp (Nat.le_zero.mp hlen)
    subst this
    rw [subst_nil]
    exact hself
  | succ k ih =>
    intro t hlen hself
    rcases subst_decomp matchExportEnvAssign m14_pos m14_nil t with
      ⟨heq, _⟩ | ⟨a, v, n, r, hsplit, hm, hstretch, heq, hn1⟩
    · rw [heq]
      exact hself
    · obtain ⟨ws, rest', n2, r2, hv, hw1, hws, hwm1, hin13, hnval, hrval⟩ :=
        m14_some_elim hm
      obtain ⟨nm, rest2, hmem, hrest', hrun2, hn2val, hr2val⟩ :=
        m13_some_elim hin13
      rw [heq, hrval, hr2val]
      have hE6 : ("export".data : List Char).length = 6 := rfl
      have hlenv : v.length ≤ t.length := by rw [hsplit]; simp
      have hWsf : SelfFixed matchEnvAssign
          (subst matchExportEnvAssign (v.drop n)) := by
        apply ih
        · simp only [List.length_drop]
          omega
        · have hvd : v.drop n = t.drop (a.length + n) := by
            rw [hsplit, List.drop_append]
          rw [hvd]
          exact selfFixed_drop hself (a.length + n)
      have hvdrop : v.drop n =
          rest2.drop (countWhile (fun c => !isStopChar c) rest2) := by
        rw [hv, hrest', hnval, hn2val,
          show "export".data ++ ws ++ (nm ++ '=' :: rest2) =
            (("export".data ++ ws) ++ (nm ++ ['='])) ++ rest2 from by simp,
          drop_append_mid (by
            simp only [List.length_append, List.length_cons, List.length_nil,
              hE6]
            omega)]
        congr 1
        simp only [List.length_append, List.length_cons, List.length_nil, hE6]
        omega
      have hW0 : countWhile (fun c => !isStopChar c)
          (subst matchExportEnvAssign (v.drop n)) = 0 := by
        rcases hvd : v.drop n with _ | ⟨d0, ds0⟩
        · rw [subst_nil]
          rfl
        · have hd0 : (!isStopChar d0) = false :=
            countWhile_drop_head (fun c => !isStopChar c) rest2 d0 ds0
              (by rw [← hvdrop, hvd])
          rw [subst_nomatch _ _ _
            (m14_none_of_head_stop ds0 (by simpa using hd0))]
          exact countWhile_cons_zero _ hd0
      have hRlen : (nm ++ '=' :: "[REDACTED]".data).length = nm.length + 11 := by
        simp only [List.length_append, List.length_cons,
          show ("[REDACTED]".data : List Char).length = 10 from rfl]
      have hEWlen : ("export".data ++ ws).length = 6 + ws.length := by
        simp only [List.length_append, hE6]
      intro i n' r' hmatch
      rcases lt_or_ge i a.length with hia | hia
      · have hOi : ((a ++ ("export".data ++ ws ++ (nm ++ '=' ::
            "[REDACTED]".data))) ++ subst matchExportEnvAssign (v.drop n)).drop i =
            (a.drop i ++ (("export".data ++ ws) ++ (nm ++ ['=']))) ++
              '[' :: ("REDACTED]".data ++
                subst matchExportEnvAssign (v.drop n)) := by
          rw [List.append_assoc, List.drop_append_of_le_length (le_of_lt hia),
            show ("[REDACTED]".data : List Char) = '[' :: "REDACTED]".data
              from rfl]
          simp
        have hdropt : t.drop i =
            (a.drop i ++ (("export".data ++ ws) ++ (nm ++ ['=']))) ++ rest2 := by
          rw [hsplit, List.drop_append_of_le_length (le_of_lt hia), hv, hrest']
          simp
        rw [hOi] at hmatch ⊢
        refine m13_selfFixed_transfer _ rest2 _
          ⟨a.drop i ++ (("export".data ++ ws) ++ nm), by simp⟩ ?_ ?_ n' r' hmatch
        · intro nm'' hmem'' habs
          have h1 : (a.drop i ++ (("export".data ++ ws) ++ nm)) ++ ['='] =
              nm'' ++ ['='] := by
            rw [← habs]
            simp
          have h2 : a.drop i ++ (("export".data ++ ws) ++ nm) = nm'' :=
            List.append_cancel_right h1
          obtain ⟨w0, ws', hws0⟩ := List.exists_cons_of_ne_nil
            (show ws ≠ [] by
              intro hnil
              rw [hnil] at hw1
              simp at hw1)
          have hw0mem : w0 ∈ ws := by rw [hws0]; simp
          have hw0in : w0 ∈ nm'' := by
            rw [← h2]
            simp [hw0mem]
          have := names_no_space nm'' hmem'' w0 hw0in
          rw [hws w0 hw0mem] at this
          exact absurd this (by simp)
        · intro n1 r1 hq
          have h3 := hself i n1 r1 (by rw [hdropt]; exact hq)
          rwa [hdropt] at h3
      · rcases lt_or_ge (i - a.length) (6 + ws.length) with ho2a | ho2a
        · have hOe : ((a ++ ("export".data ++ ws ++ (nm ++ '=' ::
              "[REDACTED]".data))) ++
                subst matchExportEnvAssign (v.drop n)).drop i =
              ("export".data ++ ws).drop (i - a.length) ++
                ((nm ++ '=' :: "[REDACTED]".data) ++
                  subst matchExportEnvAssign (v.drop n)) := by
            rw [List.append_assoc, drop_append_mid hia,
              show ("export".data ++ ws ++ (nm ++ '=' :: "[REDACTED]".data)) ++
                subst matchExportEnvAssign (v.drop n) =
                ("export".data ++ ws) ++ ((nm ++ '=' :: "[REDACTED]".data) ++
                  subst matchExportEnvAssign (v.drop n)) from by simp,
              List.drop_append_of_le_length (by rw [hEWlen]; omega)]
          have hne : ("export".data ++ ws).drop (i - a.length) ≠ [] := by
            intro hnil
            have h4 := List.length_eq_zero.mpr hnil
            simp only [List.length_drop, hEWlen] at h4
            omega
          rcases hq : ("export".data ++ ws).drop (i - a.length) with _ | ⟨d1, dd⟩
          · exact absurd hq hne
          · have hd1mem : d1 ∈ "export".data ++ ws :=
              List.mem_of_mem_drop
                (show d1 ∈ ("export".data ++ ws).drop (i - a.length) by
                  rw [hq]; exact List.mem_cons_self _ _)
            rw [hOe, hq] at hmatch
            rw [show (d1 :: dd) ++ ((nm ++ '=' :: "[REDACTED]".data) ++
              subst matchExportEnvAssign (v.drop n)) =
              d1 :: (dd ++ ((nm ++ '=' :: "[REDACTED]".data) ++
                subst matchExportEnvAssign (v.drop n))) from rfl] at hmatch
            rw [m13_none_of_head_not_name _ ?_] at hmatch
            · exact absurd hmatch (by simp)
            · intro nm'' hmem'' hne'' heq''
              obtain ⟨hsp, hexp⟩ := names_head_props nm'' hmem''
              rcases List.mem_append.mp hd1mem with hde | hdw
              · rw [heq''] at hexp
                exact hexp hde
              · rw [heq''] at hsp
                rw [hws d1 hdw] at hsp
                exact absurd hsp (by simp)
        · rcases eq_or_lt_of_le ho2a with ho2b | ho2c
          · have hOb : ((a ++ ("export".data ++ ws ++ (nm ++ '=' ::
                "[REDACTED]".data))) ++
                  subst matchExportEnvAssign (v.drop n)).drop i =
                nm ++ '=' :: ("[REDACTED]".data ++
                  subst matchExportEnvAssign (v.drop n)) := by
              rw [List.append_assoc, drop_append_mid hia,
                show ("export".data ++ ws ++ (nm ++ '=' :: "[REDACTED]".data)) ++
                  subst matchExportEnvAssign (v.drop n) =
                  ("export".data ++ ws) ++ ((nm ++ '=' :: "[REDACTED]".data) ++
                    subst matchExportEnvAssign (v.drop n)) from by simp,
                List.drop_left' (by rw [hEWlen]; omega)]
              simp
            rw [hOb] at hmatch ⊢
            rw [m13_block_self nm _ hmem hW0] at hmatch
            injection hmatch with hmatch
            injection hmatch with h1 h2
            rw [← h1, ← h2]
            rw [show nm ++ '=' :: ("[REDACTED]".data ++
              subst matchExportEnvAssign (v.drop n)) =
              (nm ++ '=' :: "[REDACTED]".data) ++
                subst matchExportEnvAssign (v.drop n) from by simp]
            rw [List.take_left' hRlen]
          · rcases lt_or_ge i (a.length + (6 + ws.length + (nm.length + 11)))
              with hib | hib
            · have hOc : ((a ++ ("export".data ++ ws ++ (nm ++ '=' ::
                  "[REDACTED]".data))) ++
                    subst matchExportEnvAssign (v.drop n)).drop i =
                  (nm ++ '=' :: "[REDACTED]".data).drop
                    (i - a.length - (6 + ws.length)) ++
                    subst matchExportEnvAssign (v.drop n) := by
                rw [List.append_assoc, drop_append_mid hia,
                  show ("export".data ++ ws ++ (nm ++ '=' ::
                    "[REDACTED]".data)) ++
                    subst matchExportEnvAssign (v.drop n) =
                    ("export".data ++ ws) ++ ((nm ++ '=' :: "[REDACTED]".data) ++
                      subst matchExportEnvAssign (v.drop n)) from by simp,
                  drop_append_mid (by rw [hEWlen]; omega),
                  List.drop_append_of_le_length (by
                    rw [hEWlen, hRlen]
                    omega), hEWlen]
              rw [hOc] at hmatch
              rw [m13_none_inside_block nm hmem (i - a.length - (6 + ws.length))
                (by omega) (by rw [hRlen]; omega) _] at hmatch
              exact absurd hmatch (by simp)
            · have hOd : ((a ++ ("export".data ++ ws ++ (nm ++ '=' ::
                  "[REDACTED]".data))) ++
                    subst matchExportEnvAssign (v.drop n)).drop i =
                  (subst matchExportEnvAssign (v.drop n)).drop
                    (i - (a ++ ("export".data ++ ws ++ (nm ++ '=' ::
                      "[REDACTED]".data))).length) :=
                drop_append_mid (by
                  simp only [List.length_append, List.length_cons, hE6,
                    show ("[REDACTED]".data : List Char).length = 10 from rfl]
                  omega)
              rw [hOd] at hmatch ⊢
              exact hWsf _ n' r' hmatch

/-- The export pass, run after the assignment pass, keeps its input a
fixed point of the assignment pass. -/
theorem envAssign_selfFixed_preserved (t : List Char)
    (h : SelfFixed matchEnvAssign t) :
    SelfFixed matchEnvAssign (subst matchExportEnvAssign t) :=
  envAssign_selfFixed_preserved_aux t.length t le_rfl h

theorem countWhile_append_stop (p : Char → Bool) :
    ∀ (u : List Char), (∃ c ∈ u, p c = false) →
      ∀ A, countWhile p (u ++ A) = countWhile p u ∧
        countWhile p u < u.length := by
  intro u
  induction u with
  | nil =>
    intro h
    rcases h with ⟨c, hc, -⟩
    simp at hc
  | cons x xs ih =>
    intro h A
    rcases hx : p x with _ | _
    · refine ⟨?_, ?_⟩
      · rw [List.cons_append, countWhile_cons_zero _ hx,
          countWhile_cons_zero _ hx]
      · rw [countWhile_cons_zero _ hx]
        simp
    · have h' : ∃ c ∈ xs, p c = false := by
        rcases h with ⟨c, hc, hpc⟩
        rcases List.mem_cons.mp hc with rfl | hmem
        · rw [hx] at hpc
          exact absurd hpc (by simp)
        · exact ⟨c, hmem, hpc⟩
      obtain ⟨h1, h2⟩ := ih h' A
      refine ⟨?_, ?_⟩
      · rw [List.cons_append, countWhile_cons_pos _ hx,
          countWhile_cons_pos _ hx, h1]
      · rw [countWhile_cons_pos _ hx]
        simp only [List.length_cons]
        omega

/-- Evaluation of `matchExportEnvAssign` at a recognised `export` head
whose whitespace run is exactly `ws`. -/
theorem m14_eval_at (s ws rest' : List Char)
    (hs : s = "export".data ++ ws ++ rest') (hw : 1 ≤ ws.length)
    (hwsall : ∀ c ∈ ws, isPySpace c = true)
    (hstop : countWhile isPySpace rest' = 0)
    (n2 : Nat) (r2 : List Char) (hin : matchEnvAssign rest' = some (n2, r2)) :
    matchExportEnvAssign s =
      some (6 + ws.length + n2, "export".data ++ ws ++ r2) := by
  subst hs
  have hdrop6 : ("export".data ++ ws ++ rest').drop 6 = ws ++ rest' := by
    rw [show "export".data ++ ws ++ rest' =
      "export".data ++ (ws ++ rest') from by simp,
      List.drop_left' (show ("export".data : List Char).length = 6 from rfl)]
  have hcw : countWhile isPySpace (ws ++ rest') = ws.length := by
    rw [countWhile_append_all rest' hwsall, hstop]
    omega
  have hpre : ("export".data).isPrefixOf ("export".data ++ ws ++ rest') = true := by
    rw [isPrefixOf_true_iff]
    exact ⟨ws ++ rest', by simp⟩
  rw [matchExportEnvAssign, if_pos hpre, hdrop6, hcw, if_pos hw,
    List.drop_left, List.take_left, hin]

theorem m14_none_elim {s : List Char} (h : matchExportEnvAssign s = none)
    (hpre : ("export".data).isPrefixOf s = true)
    (hw : 1 ≤ countWhile isPySpace (s.drop 6)) :
    matchEnvAssign ((s.drop 6).drop (countWhile isPySpace (s.drop 6))) =
      none := by
  rw [matchExportEnvAssign, if_pos hpre, if_pos hw] at h
  rcases hq : matchEnvAssign ((s.drop 6).drop (countWhile isPySpace (s.drop 6)))
    with _ | ⟨n2, r2⟩
  · rfl
  · rw [hq] at h
    exact absurd h (by simp)

theorem xport_no_e : ∀ c ∈ "xport".data, c ≠ 'e' := by decide

theorem redacted_no_e : ∀ c ∈ "[REDACTED]".data, c ≠ 'e' := by decide

theorem pyspace_ne_e {c : Char} (h : isPySpace c = true) : c ≠ 'e' := by
  intro he
  rw [he] at h
  exact absurd h (by decide)

theorem eq_ne_e : ('=' : Char) ≠ 'e' := by decide

/-- Every export-pass match in the output of the export pass is a
self-match: matches sit exactly on the `export<ws>NAME=[REDACTED]` blocks
the pass just wrote. -/
theorem exportAssign_selfFixed_aux :
    ∀ (k : Nat) (t : List Char), t.length ≤ k →
      SelfFixed matchExportEnvAssign (subst matchExportEnvAssign t) := by
  intro k
  induction k with
  | zero =>
    intro t hlen
    have : t = [] := List.length_eq_zero.mp (Nat.le_zero.mp hlen)
    subst this
    intro i n r hm
    rw [subst_nil, List.drop_nil, m14_nil] at hm
    exact absurd hm (by simp)
  | succ k ih =>
    intro t hlen
    rcases subst_decomp matchExportEnvAssign m14_pos m14_nil t with
      ⟨heq, hnm⟩ | ⟨a, v, n, r, hsplit, hm, hstretch, heq, hn1⟩
    · rw [heq]
      exact noMatch_selfFixed hnm
    · obtain ⟨ws, rest', n2, r2, hv, hw1, hws, hwm1, hin13, hnval, hrval⟩ :=
        m14_some_elim hm
      obtain ⟨nm, rest2, hmem, hrest', hrun2, hn2val, hr2val⟩ :=
        m13_some_elim hin13
      rw [heq, hrval, hr2val]
      have hE6 : ("export".data : List Char).length = 6 := rfl
      have hR10 : ("[REDACTED]".data : List Char).length = 10 := rfl
      have hlenv : v.length ≤ t.length := by rw [hsplit]; simp
      have hWsf : SelfFixed matchExportEnvAssign
          (subst matchExportEnvAssign (v.drop n)) := by
        apply ih
        simp only [List.length_drop]
        omega
      have hvdrop : v.drop n =
          rest2.drop (countWhile (fun c => !isStopChar c) rest2) := by
        rw [hv, hrest', hnval, hn2val,
          show "export".data ++ ws ++ (nm ++ '=' :: rest2) =
            (("export".data ++ ws) ++ (nm ++ ['='])) ++ rest2 from by simp,
          drop_append_mid (by
            simp only [List.length_append, List.length_cons, List.length_nil,
              hE6]
            omega)]
        congr 1
        simp only [List.length_append, List.length_cons, List.length_nil, hE6]
        omega
      have hW0 : countWhile (fun c => !isStopChar c)
          (subst matchExportEnvAssign (v.drop n)) = 0 := by
        rcases hvd : v.drop n with _ | ⟨d0, ds0⟩
        · rw [subst_nil]
          rfl
        · have hd0 : (!isStopChar d0) = false :=
            countWhile_drop_head (fun c => !isStopChar c) rest2 d0 ds0
              (by rw [← hvdrop, hvd])
          rw [subst_nomatch _ _ _
            (m14_none_of_head_stop ds0 (by simpa using hd0))]
          exact countWhile_cons_zero _ hd0
      obtain ⟨hnm_ne, -⟩ := names_head_not_stop nm hmem
      have hnm_pos : 0 < nm.length := List.length_pos.mpr hnm_ne
      obtain ⟨c0, cs0, hnm0⟩ := List.exists_cons_of_ne_nil hnm_ne
      have hc0sp : isPySpace c0 = false :=
        names_no_space nm hmem c0 (by rw [hnm0]; exact List.mem_cons_self _ _)
      have he_mem : ∀ c ∈ ("export".data ++ ws ++ (nm ++ '=' ::
          "[REDACTED]".data)).drop 1, c ≠ 'e' := by
        intro c hc
        rw [show ("export".data ++ ws ++ (nm ++ '=' :: "[REDACTED]".data)).drop 1
          = ("xport".data ++ ws) ++ (nm ++ '=' :: "[REDACTED]".data) from by
            rw [show ("export".data : List Char) = 'e' :: "xport".data from rfl]
            simp] at hc
        rcases List.mem_append.mp hc with h1 | h1
        · rcases List.mem_append.mp h1 with h2 | h2
          · exact xport_no_e c h2
          · exact pyspace_ne_e (hws c h2)
        · rcases List.mem_append.mp h1 with h2 | h2
          · exact names_no_e nm hmem c h2
          · rcases List.mem_cons.mp h2 with h3 | h3
            · rw [h3]
              exact eq_ne_e
            · exact redacted_no_e c h3
      intro i n' r' hmatch
      rcases lt_or_ge i a.length with hia | hia
      · -- zone 1: copied stretch
        obtain ⟨X, hXdef⟩ : ∃ X : List Char,
            X = a.drop i ++ (("export".data ++ ws) ++ (nm ++ ['='])) := ⟨_, rfl⟩
        obtain ⟨Y, hYdef⟩ : ∃ Y : List Char,
            Y = a.drop i ++ (("export".data ++ ws) ++ nm) := ⟨_, rfl⟩
        have hXY : X = Y ++ ['='] := by
          rw [hXdef, hYdef]
          simp
        have hXlen : X.length =
            (a.drop i).length + (6 + ws.length + (nm.length + 1)) := by
          rw [hXdef]
          simp only [List.length_append, List.length_cons, List.length_nil, hE6]
        have hOX : ((a ++ ("export".data ++ ws ++ (nm ++ '=' ::
            "[REDACTED]".data))) ++ subst matchExportEnvAssign (v.drop n)).drop i =
            X ++ '[' :: ("REDACTED]".data ++
              subst matchExportEnvAssign (v.drop n)) := by
          rw [hXdef, List.append_assoc,
            List.drop_append_of_le_length (le_of_lt hia),
            show ("[REDACTED]".data : List Char) = '[' :: "REDACTED]".data
              from rfl]
          simp
        have htX : t.drop i = X ++ rest2 := by
          rw [hXdef, hsplit, List.drop_append_of_le_length (le_of_lt hia), hv,
            hrest']
          simp
        obtain ⟨ws'', rest'', n2'', r2'', hOeq, hw''1, hws'', hwmax'', hin'',
          hn''val, hr''val⟩ := m14_some_elim hmatch
        have hYdropS : X.drop 6 = Y.drop 6 ++ ['='] := by
          rw [hXY]
          exact List.drop_append_of_le_length (by
            have h1 := congrArg List.length hXY
            simp only [List.length_append, List.length_cons,
              List.length_nil] at h1
            omega)
        have hwit : ∃ c ∈ X.drop 6, isPySpace c = false :=
          ⟨'=', by rw [hYdropS]; simp, by decide⟩
        have hstopO := countWhile_append_stop isPySpace (X.drop 6) hwit
          ('[' :: ("REDACTED]".data ++ subst matchExportEnvAssign (v.drop n)))
        have hstopI := countWhile_append_stop isPySpace (X.drop 6) hwit rest2
        have hdrop6O : (((a ++ ("export".data ++ ws ++ (nm ++ '=' ::
            "[REDACTED]".data))) ++
              subst matchExportEnvAssign (v.drop n)).drop i).drop 6 =
            X.drop 6 ++ '[' :: ("REDACTED]".data ++
              subst matchExportEnvAssign (v.drop n)) := by
          rw [hOX]
          exact List.drop_append_of_le_length (by rw [hXlen]; omega)
        have hdrop6I : (t.drop i).drop 6 = X.drop 6 ++ rest2 := by
          rw [htX]
          exact List.drop_append_of_le_length (by rw [hXlen]; omega)
        have hwseq : ws''.length = countWhile isPySpace (X.drop 6) := by
          rw [hwmax'', hdrop6O, hstopO.1]
        have hc0pos : 1 ≤ countWhile isPySpace (X.drop 6) := by omega
        have hpreI : ("export".data).isPrefixOf (t.drop i) = true := by
          rw [isPrefixOf_true_iff]
          have hEO : "export".data <+: X ++ '[' :: ("REDACTED]".data ++
              subst matchExportEnvAssign (v.drop n)) := by
            rw [← hOX, hOeq]
            exact ⟨ws'' ++ rest'', by simp⟩
          have hEX : "export".data <+: X :=
            prefix_of_append_of_le hEO (by rw [hXlen, hE6]; omega)
          rw [htX]
          exact hEX.trans (List.prefix_append X rest2)
        have hcwI : countWhile isPySpace ((t.drop i).drop 6) =
            countWhile isPySpace (X.drop 6) := by
          rw [hdrop6I, hstopI.1]
        have hm14in := m14_none_elim (hstretch i hia) hpreI (by omega)
        have hm13in : matchEnvAssign
            ((X.drop 6).drop (countWhile isPySpace (X.drop 6)) ++ rest2) =
            none := by
          rw [hcwI, hdrop6I,
            List.drop_append_of_le_length (le_of_lt hstopI.2)] at hm14in
          exact hm14in
        have hx'last : (X.drop 6).drop (countWhile isPySpace (X.drop 6)) =
            ((Y.drop 6).drop (countWhile isPySpace (X.drop 6))) ++ ['='] := by
          have hle : countWhile isPySpace (X.drop 6) ≤ (Y.drop 6).length := by
            have h1 := congrArg List.length hYdropS
            have h2 := hstopI.2
            simp only [List.length_append, List.length_cons, List.length_nil,
              List.length_drop] at h1 h2 ⊢
            omega
          obtain ⟨c1, hc1⟩ : ∃ c1, c1 = countWhile isPySpace (X.drop 6) :=
            ⟨_, rfl⟩
          rw [← hc1] at hle ⊢
          rw [hYdropS]
          exact List.drop_append_of_le_length hle
        have hx'ne : ∀ nm'' ∈ ENV_VAR_NAMES,
            (X.drop 6).drop (countWhile isPySpace (X.drop 6)) ≠
              nm'' ++ ['='] := by
          intro nm'' hmem'' habs
          have h1 := m13_eval_at nm''
            ((X.drop 6).drop (countWhile isPySpace (X.drop 6)) ++ rest2)
            hmem'' rest2 (by rw [habs]; simp) hrun2
          rw [hm13in] at h1
          exact absurd h1 (by simp)
        have hrest''eq : rest'' =
            (X.drop 6).drop (countWhile isPySpace (X.drop 6)) ++
              '[' :: ("REDACTED]".data ++
                subst matchExportEnvAssign (v.drop n)) := by
          have h1 : (((a ++ ("export".data ++ ws ++ (nm ++ '=' ::
              "[REDACTED]".data))) ++
                subst matchExportEnvAssign (v.drop n)).drop i).drop
                (6 + ws''.length) = rest'' := by
            rw [hOeq, show "export".data ++ ws'' ++ rest'' =
              ("export".data ++ ws'') ++ rest'' from by simp,
              List.drop_left' (by simp only [List.length_append, hE6])]
          rw [← h1, hOX, List.drop_append_of_le_length (by
              rw [hXlen, hwseq]
              have h2 := hstopI.2
              simp only [List.length_drop] at h2
              omega)]
          congr 1
          rw [hwseq, List.drop_drop]
        have hsm'' : r2'' = rest''.take n2'' := by
          rw [hrest''eq] at hin''
          have h1 := m13_selfFixed_transfer
            ((X.drop 6).drop (countWhile isPySpace (X.drop 6))) rest2
            ("REDACTED]".data ++ subst matchExportEnvAssign (v.drop n))
            ⟨(Y.drop 6).drop (countWhile isPySpace (X.drop 6)), hx'last⟩
            hx'ne (by
              intro n1 r1 hq
              rw [hm13in] at hq
              exact absurd hq (by simp)) n2'' r2'' hin''
          rw [hrest''eq]
          exact h1
        rw [hr''val, hn''val, hOeq,
          show "export".data ++ ws'' ++ rest'' =
            ("export".data ++ ws'') ++ rest'' from by simp,
          show 6 + ws''.length + n2'' =
            ("export".data ++ ws'').length + n2'' from by
              simp only [List.length_append, hE6],
          List.take_append, ← hsm'']
      · rcases Nat.eq_zero_or_pos (i - a.length) with ho0 | hopos
        · -- zone 2: head of the replacement block — the self-match
          have hieq : i = a.length := by omega
          subst hieq
          have hOb : ((a ++ ("export".data ++ ws ++ (nm ++ '=' ::
              "[REDACTED]".data))) ++
                subst matchExportEnvAssign (v.drop n)).drop a.length =
              "export".data ++ ws ++ ((nm ++ '=' :: "[REDACTED]".data) ++
                subst matchExportEnvAssign (v.drop n)) := by
            rw [List.append_assoc, List.drop_left]
            simp
          have hstopB : countWhile isPySpace ((nm ++ '=' :: "[REDACTED]".data) ++
              subst matchExportEnvAssign (v.drop n)) = 0 := by
            rw [hnm0, show ((c0 :: cs0) ++ '=' :: "[REDACTED]".data) ++
              subst matchExportEnvAssign (v.drop n) =
              c0 :: ((cs0 ++ '=' :: "[REDACTED]".data) ++
                subst matchExportEnvAssign (v.drop n)) from by simp]
            exact countWhile_cons_zero _ hc0sp
          have hinB : matchEnvAssign ((nm ++ '=' :: "[REDACTED]".data) ++
              subst matchExportEnvAssign (v.drop n)) =
              some (nm.length + 11, nm ++ '=' :: "[REDACTED]".data) := by
            rw [show (nm ++ '=' :: "[REDACTED]".data) ++
              subst matchExportEnvAssign (v.drop n) =
              nm ++ '=' :: ("[REDACTED]".data ++
                subst matchExportEnvAssign (v.drop n)) from by simp]
            exact m13_block_self nm _ hmem hW0
          have heval := m14_eval_at _ ws ((nm ++ '=' :: "[REDACTED]".data) ++
            subst matchExportEnvAssign (v.drop n)) hOb hw1 hws hstopB
            (nm.length + 11) (nm ++ '=' :: "[REDACTED]".data) hinB
          rw [heval] at hmatch
          injection hmatch with hmatch
          injection hmatch with h1 h2
          rw [← h1, ← h2, hOb,
            show "export".data ++ ws ++ ((nm ++ '=' :: "[REDACTED]".data) ++
              subst matchExportEnvAssign (v.drop n)) =
              ("export".data ++ ws ++ (nm ++ '=' :: "[REDACTED]".data)) ++
                subst matchExportEnvAssign (v.drop n) from by simp,
            List.take_left' (by
              simp only [List.length_append, List.length_cons, hE6, hR10])]
        · rcases lt_or_ge (i - a.length)
            ("export".data ++ ws ++ (nm ++ '=' ::
              "[REDACTED]".data)).length with hib | hib
          · -- zone 2 interior: no later `e`, hence no export match
            have hOc : ((a ++ ("export".data ++ ws ++ (nm ++ '=' ::
                "[REDACTED]".data))) ++
                  subst matchExportEnvAssign (v.drop n)).drop i =
                ("export".data ++ ws ++ (nm ++ '=' ::
                  "[REDACTED]".data)).drop (i - a.length) ++
                  subst matchExportEnvAssign (v.drop n) := by
              rw [List.append_assoc, drop_append_mid hia]
              exact List.drop_append_of_le_length (le_of_lt hib)
            have hne : ("export".data ++ ws ++ (nm ++ '=' ::
                "[REDACTED]".data)).drop (i - a.length) ≠ [] := by
              intro hnil
              have h4 := List.length_eq_zero.mpr hnil
              rw [List.length_drop] at h4
              omega
            rcases hq : ("export".data ++ ws ++ (nm ++ '=' ::
              "[REDACTED]".data)).drop (i - a.length) with _ | ⟨d1, dd⟩
            · exact absurd hq hne
            · have hd1mem : d1 ∈ ("export".data ++ ws ++ (nm ++ '=' ::
                  "[REDACTED]".data)).drop 1 := by
                apply List.mem_of_mem_drop
                  (show d1 ∈ (("export".data ++ ws ++ (nm ++ '=' ::
                    "[REDACTED]".data)).drop 1).drop (i - a.length - 1) by
                    rw [List.drop_drop, show 1 + (i - a.length - 1) =
                      i - a.length from by omega, hq]
                    exact List.mem_cons_self _ _)
              rw [hOc, hq, show (d1 :: dd) ++
                subst matchExportEnvAssign (v.drop n) =
                d1 :: (dd ++ subst matchExportEnvAssign (v.drop n))
                from rfl] at hmatch
              rw [m14_none_of_head_ne_e _ (he_mem d1 hd1mem)] at hmatch
              exact absurd hmatch (by simp)
          · -- zone 3: the rewritten tail
            have hOd : ((a ++ ("export".data ++ ws ++ (nm ++ '=' ::
                "[REDACTED]".data))) ++
                  subst matchExportEnvAssign (v.drop n)).drop i =
                (subst matchExportEnvAssign (v.drop n)).drop
                  (i - (a ++ ("export".data ++ ws ++ (nm ++ '=' ::
                    "[REDACTED]".data))).length) :=
              drop_append_mid (by
                simp only [List.length_append] at hib ⊢
                omega)
            rw [hOd] at hmatch ⊢
            exact hWsf _ n' r' hmatch

/-- The export pass maps every string to one of its own fixed points. -/
theorem exportAssign_selfFixed (t : List Char) :
    SelfFixed matchExportEnvAssign (subst matchExportEnvAssign t) :=
  exportAssign_selfFixed_aux t.length t le_rfl

set_option maxHeartbeats 2000000 in
/-- The fourteen passes of `sanitizeChars`, spelled out. -/
theorem sanitizeChars_idem (s : List Char) :
    sanitizeChars (sanitizeChars s) = sanitizeChars s := by
  obtain ⟨t1, ht1⟩ : ∃ u, u = subst (matchKeyPattern "sk-proj-".data clsWordDash 20 false "[REDACTED_OPENAI_PROJECT_KEY]".data) s := ⟨_, rfl⟩
  obtain ⟨t2, ht2⟩ : ∃ u, u = subst (matchKeyPattern "sk-or-v1-".data clsWordDash 20 false "[REDACTED_OPENROUTER_KEY]".data) t1 := ⟨_, rfl⟩
  obtain ⟨t3, ht3⟩ : ∃ u, u = subst (matchKeyPattern "sk-or-".data clsWordDash 20 false "[REDACTED_OPENAI_ORG_KEY]".data) t2 := ⟨_, rfl⟩
  obtain ⟨t4, ht4⟩ : ∃ u, u = subst (matchKeyPattern "sk-".data clsAlnum 48 false "[REDACTED_OPENAI_KEY]".data) t3 := ⟨_, rfl⟩
  obtain ⟨t5, ht5⟩ : ∃ u, u = subst (matchKeyPattern "sk-ant-".data clsWordDash 20 false "[REDACTED_ANTHROPIC_KEY]".data) t4 := ⟨_, rfl⟩
  obtain ⟨t6, ht6⟩ : ∃ u, u = subst (matchKeyPattern "ghp_".data clsAlnum 36 false "[REDACTED_GITHUB_PAT]".data) t5 := ⟨_, rfl⟩
  obtain ⟨t7, ht7⟩ : ∃ u, u = subst (matchKeyPattern "gho_".data clsAlnum 36 false "[REDACTED_GITHUB_OAUTH]".data) t6 := ⟨_, rfl⟩
  obtain ⟨t8, ht8⟩ : ∃ u, u = subst (matchKeyPattern "ghs_".data clsAlnum 36 false "[REDACTED_GITHUB_APP]".data) t7 := ⟨_, rfl⟩
  obtain ⟨t9, ht9⟩ : ∃ u, u = subst (matchKeyPattern "ghr_".data clsAlnum 36 false "[REDACTED_GITHUB_REFRESH]".data) t8 := ⟨_, rfl⟩
  obtain ⟨t10, ht10⟩ : ∃ u, u = subst (matchKeyPattern "github_pat_".data clsWordU 20 false "[REDACTED_GITHUB_FINE_GRAINED]".data) t9 := ⟨_, rfl⟩
  obtain ⟨t11, ht11⟩ : ∃ u, u = subst (matchKeyPattern "AIza".data clsWordDash 35 false "[REDACTED_GOOGLE_KEY]".data) t10 := ⟨_, rfl⟩
  obtain ⟨t12, ht12⟩ : ∃ u, u = subst (matchKeyPattern "AKIA".data clsUpperNum 16 true "[REDACTED_AWS_ACCESS_KEY]".data) t11 := ⟨_, rfl⟩
  obtain ⟨t13, ht13⟩ : ∃ u, u = subst matchEnvAssign t12 := ⟨_, rfl⟩
  obtain ⟨t14, ht14⟩ : ∃ u, u = subst matchExportEnvAssign t13 := ⟨_, rfl⟩
  have hsan : sanitizeChars s = t14 := by
    simp only [sanitizeChars, API_KEY_PATTERNS, List.foldl_cons, List.foldl_nil]
    rw [← ht1, ← ht2, ← ht3, ← ht4, ← ht5, ← ht6, ← ht7, ← ht8, ← ht9,
      ← ht10, ← ht11, ← ht12, ← ht13, ← ht14]
  have nm1_1 : NoMatch (matchKeyPattern "sk-proj-".data clsWordDash 20 false "[REDACTED_OPENAI_PROJECT_KEY]".data) t1 := by
    rw [ht1]
    exact keyPattern_self "sk-proj-".data clsWordDash 20 false "[REDACTED_OPENAI_PROJECT_KEY]".data (by decide) (by decide) (by decide)
      (by decide) "REDACTED_OPENAI_PROJECT_KEY]".data rfl s
  have nm1_2 : NoMatch (matchKeyPattern "sk-proj-".data clsWordDash 20 false "[REDACTED_OPENAI_PROJECT_KEY]".data) t2 := by
    rw [ht2]
    exact keyPattern_noMatch_preserved_key "sk-proj-".data clsWordDash 20 false "[REDACTED_OPENAI_PROJECT_KEY]".data (by decide) (by decide)
      "sk-or-v1-".data clsWordDash 20 false "[REDACTED_OPENROUTER_KEY]".data "REDACTED_OPENROUTER_KEY]".data
      (by decide) rfl (by decide) t1 nm1_1
  have nm1_3 : NoMatch (matchKeyPattern "sk-proj-".data clsWordDash 20 false "[REDACTED_OPENAI_PROJECT_KEY]".data) t3 := by
    rw [ht3]
    exact keyPattern_noMatch_preserved_key "sk-proj-".data clsWordDash 20 false "[REDACTED_OPENAI_PROJECT_KEY]".data (by decide) (by decide)
      "sk-or-".data clsWordDash 20 false "[REDACTED_OPENAI_ORG_KEY]".data "REDACTED_OPENAI_ORG_KEY]".data
      (by decide) rfl (by decide) t2 nm1_2
  have nm1_4 : NoMatch (matchKeyPattern "sk-proj-".data clsWordDash 20 false "[REDACTED_OPENAI_PROJECT_KEY]".data) t4 := by
    rw [ht4]
    exact keyPattern_noMatch_preserved_key "sk-proj-".data clsWordDash 20 false "[REDACTED_OPENAI_PROJECT_KEY]".data (by decide) (by decide)
      "sk-".data clsAlnum 48 false "[REDACTED_OPENAI_KEY]".data "REDACTED_OPENAI_KEY]".data
      (by decide) rfl (by decide) t3 nm1_3
  have nm1_5 : NoMatch (matchKeyPattern "sk-proj-".data clsWordDash 20 false "[REDACTED_OPENAI_PROJECT_KEY]".data) t5 := by
    rw [ht5]
    exact keyPattern_noMatch_preserved_key "sk-proj-".data clsWordDash 20 false "[REDACTED_OPENAI_PROJECT_KEY]".data (by decide) (by decide)
      "sk-ant-".data clsWordDash 20 false "[REDACTED_ANTHROPIC_KEY]".data "REDACTED_ANTHROPIC_KEY]".data
      (by decide) rfl (by decide) t4 nm1_4
  have nm1_6 : NoMatch (matchKeyPattern "sk-proj-".data clsWordDash 20 false "[REDACTED_OPENAI_PROJECT_KEY]".data) t6 := by
    rw [ht6]
    exact keyPattern_noMatch_preserved_key "sk-proj-".data clsWordDash 20 false "[REDACTED_OPENAI_PROJECT_KEY]".data (by decide) (by decide)
      "ghp_".data clsAlnum 36 false "[REDACTED_GITHUB_PAT]".data "REDACTED_GITHUB_PAT]".data
      (by decide) rfl (by decide) t5 nm1_5
  have nm1_7 : NoMatch (matchKeyPattern "sk-proj-".data clsWordDash 20 false "[REDACTED_OPENAI_PROJECT_KEY]".data) t7 := by
    rw [ht7]
    exact keyPattern_noMatch_preserved_key "sk-proj-".data clsWordDash 20 false "[REDACTED_OPENAI_PROJECT_KEY]".data (by decide) (by decide)
      "gho_".data clsAlnum 36 false "[REDACTED_GITHUB_OAUTH]".data "REDACTED_GITHUB_OAUTH]".data
      (by decide) rfl (by decide) t6 nm1_6
  have nm1_8 : NoMatch (matchKeyPattern "sk-proj-".data clsWordDash 20 false "[REDACTED_OPENAI_PROJECT_KEY]".data) t8 := by
    rw [ht8]
    exact keyPattern_noMatch_preserved_key "sk-proj-".data clsWordDash 20 false "[REDACTED_OPENAI_PROJECT_KEY]".data (by decide) (by decide)
      "ghs_".data clsAlnum 36 false "[REDACTED_GITHUB_APP]".data "REDACTED_GITHUB_APP]".data
      (by decide) rfl (by decide) t7 nm1_7
  have nm1_9 : NoMatch (matchKeyPattern "sk-proj-".data clsWordDash 20 false "[REDACTED_OPENAI_PROJECT_KEY]".data) t9 := by
    rw [ht9]
    exact keyPattern_noMatch_preserved_key "sk-proj-".data clsWordDash 20 false "[REDACTED_OPENAI_PROJECT_KEY]".data (by decide) (by decide)
      "ghr_".data clsAlnum 36 false "[REDACTED_GITHUB_REFRESH]".data "REDACTED_GITHUB_REFRESH]".data
      (by decide) rfl (by decide) t8 nm1_8
  have nm1_10 : NoMatch (matchKeyPattern "sk-proj-".data clsWordDash 20 false "[REDACTED_OPENAI_PROJECT_KEY]".data) t10 := by
    rw [ht10]
    exact keyPattern_noMatch_preserved_key "sk-proj-".data clsWordDash 20 false "[REDACTED_OPENAI_PROJECT_KEY]".data (by decide) (by decide)
      "github_pat_".data clsWordU 20 false "[REDACTED_GITHUB_FINE_GRAINED]".data "REDACTED_GITHUB_FINE_GRAINED]".data
      (by decide) rfl (by decide) t9 nm1_9
  have nm1_11 : NoMatch (matchKeyPattern "sk-proj-".data clsWordDash 20 false "[REDACTED_OPENAI_PROJECT_KEY]".data) t11 := by
    rw [ht11]
    exact keyPattern_noMatch_preserved_key "sk-proj-".data clsWordDash 20 false "[REDACTED_OPENAI_PROJECT_KEY]".data (by decide) (by decide)
      "AIza".data clsWordDash 35 false "[REDACTED_GOOGLE_KEY]".data "REDACTED_GOOGLE_KEY]".data
      (by decide) rfl (by decide) t10 nm1_10
  have nm1_12 : NoMatch (matchKeyPattern "sk-proj-".data clsWordDash 20 false "[REDACTED_OPENAI_PROJECT_KEY]".data) t12 := by
    rw [ht12]
    exact keyPattern_noMatch_preserved_key "sk-proj-".data clsWordDash 20 false "[REDACTED_OPENAI_PROJECT_KEY]".data (by decide) (by decide)
      "AKIA".data clsUpperNum 16 true "[REDACTED_AWS_ACCESS_KEY]".data "REDACTED_AWS_ACCESS_KEY]".data
      (by decide) rfl (by decide) t11 nm1_11
  have nm1_13 : NoMatch (matchKeyPattern "sk-proj-".data clsWordDash 20 false "[REDACTED_OPENAI_PROJECT_KEY]".data) t13 := by
    rw [ht13]
    exact keyPattern_noMatch_preserved_m13 "sk-proj-".data clsWordDash 20 false "[REDACTED_OPENAI_PROJECT_KEY]".data (by decide) (by decide)
      (by decide) t12 nm1_12
  have nm1_14 : NoMatch (matchKeyPattern "sk-proj-".data clsWordDash 20 false "[REDACTED_OPENAI_PROJECT_KEY]".data) t14 := by
    rw [ht14]
    exact keyPattern_noMatch_preserved_m14 "sk-proj-".data clsWordDash 20 false "[REDACTED_OPENAI_PROJECT_KEY]".data (by decide) (by decide)
      (by decide) t13 nm1_13
  have nm2_2 : NoMatch (matchKeyPattern "sk-or-v1-".data clsWordDash 20 false "[REDACTED_OPENROUTER_KEY]".data) t2 := by
    rw [ht2]
    exact keyPattern_self "sk-or-v1-".data clsWordDash 20 false "[REDACTED_OPENROUTER_KEY]".data (by decide) (by decide) (by decide)
      (by decide) "REDACTED_OPENROUTER_KEY]".data rfl t1
  have nm2_3 : NoMatch (matchKeyPattern "sk-or-v1-".data clsWordDash 20 false "[REDACTED_OPENROUTER_KEY]".data) t3 := by
    rw [ht3]
    exact keyPattern_noMatch_preserved_key "sk-or-v1-".data clsWordDash 20 false "[REDACTED_OPENROUTER_KEY]".data (by decide) (by decide)
      "sk-or-".data clsWordDash 20 false "[REDACTED_OPENAI_ORG_KEY]".data "REDACTED_OPENAI_ORG_KEY]".data
      (by decide) rfl (by decide) t2 nm2_2
  have nm2_4 : NoMatch (matchKeyPattern "sk-or-v1-".data clsWordDash 20 false "[REDACTED_OPENROUTER_KEY]".data) t4 := by
    rw [ht4]
    exact keyPattern_noMatch_preserved_key "sk-or-v1-".data clsWordDash 20 false "[REDACTED_OPENROUTER_KEY]".data (by decide) (by decide)
      "sk-".data clsAlnum 48 false "[REDACTED_OPENAI_KEY]".data "REDACTED_OPENAI_KEY]".data
      (by decide) rfl (by decide) t3 nm2_3
  have nm2_5 : NoMatch (matchKeyPattern "sk-or-v1-".data clsWordDash 20 false "[REDACTED_OPENROUTER_KEY]".data) t5 := by
    rw [ht5]
    exact keyPattern_noMatch_preserved_key "sk-or-v1-".data clsWordDash 20 false "[REDACTED_OPENROUTER_KEY]".data (by decide) (by decide)
      "sk-ant-".data clsWordDash 20 false "[REDACTED_ANTHROPIC_KEY]".data "REDACTED_ANTHROPIC_KEY]".data
      (by decide) rfl (by decide) t4 nm2_4
  have nm2_6 : NoMatch (matchKeyPattern "sk-or-v1-".data clsWordDash 20 false "[REDACTED_OPENROUTER_KEY]".data) t6 := by
    rw [ht6]
    exact keyPattern_noMatch_preserved_key "sk-or-v1-".data clsWordDash 20 false "[REDACTED_OPENROUTER_KEY]".data (by decide) (by decide)
      "ghp_".data clsAlnum 36 false "[REDACTED_GITHUB_PAT]".data "REDACTED_GITHUB_PAT]".data
      (by decide) rfl (by decide) t5 nm2_5
  have nm2_7 : NoMatch (matchKeyPattern "sk-or-v1-".data clsWordDash 20 false "[REDACTED_OPENROUTER_KEY]".data) t7 := by
    rw [ht7]
    exact keyPattern_noMatch_preserved_key "sk-or-v1-".data clsWordDash 20 false "[REDACTED_OPENROUTER_KEY]".data (by decide) (by decide)
      "gho_".data clsAlnum 36 false "[REDACTED_GITHUB_OAUTH]".data "REDACTED_GITHUB_OAUTH]".data
      (by decide) rfl (by decide) t6 nm2_6
  have nm2_8 : NoMatch (matchKeyPattern "sk-or-v1-".data clsWordDash 20 false "[REDACTED_OPENROUTER_KEY]".data) t8 := by
    rw [ht8]
    exact keyPattern_noMatch_preserved_key "sk-or-v1-".data clsWordDash 20 false "[REDACTED_OPENROUTER_KEY]".data (by decide) (by decide)
      "ghs_".data clsAlnum 36 false "[REDACTED_GITHUB_APP]".data "REDACTED_GITHUB_APP]".data
      (by decide) rfl (by decide) t7 nm2_7
  have nm2_9 : NoMatch (matchKeyPattern "sk-or-v1-".data clsWordDash 20 false "[REDACTED_OPENROUTER_KEY]".data) t9 := by
    rw [ht9]
    exact keyPattern_noMatch_preserved_key "sk-or-v1-".data clsWordDash 20 false "[REDACTED_OPENROUTER_KEY]".data (by decide) (by decide)
      "ghr_".data clsAlnum 36 false "[REDACTED_GITHUB_REFRESH]".data "REDACTED_GITHUB_REFRESH]".data
      (by decide) rfl (by decide) t8 nm2_8
  have nm2_10 : NoMatch (matchKeyPattern "sk-or-v1-".data clsWordDash 20 false "[REDACTED_OPENROUTER_KEY]".data) t10 := by
    rw [ht10]
    exact keyPattern_noMatch_preserved_key "sk-or-v1-".data clsWordDash 20 false "[REDACTED_OPENROUTER_KEY]".data (by decide) (by decide)
      "github_pat_".data clsWordU 20 false "[REDACTED_GITHUB_FINE_GRAINED]".data "REDACTED_GITHUB_FINE_GRAINED]".data
      (by decide) rfl (by decide) t9 nm2_9
  have nm2_11 : NoMatch (matchKeyPattern "sk-or-v1-".data clsWordDash 20 false "[REDACTED_OPENROUTER_KEY]".data) t11 := by
    rw [ht11]
    exact keyPattern_noMatch_preserved_key "sk-or-v1-".data clsWordDash 20 false "[REDACTED_OPENROUTER_KEY]".data (by decide) (by decide)
      "AIza".data clsWordDash 35 false "[REDACTED_GOOGLE_KEY]".data "REDACTED_GOOGLE_KEY]".data
      (by decide) rfl (by decide) t10 nm2_10
  have nm2_12 : NoMatch (matchKeyPattern "sk-or-v1-".data clsWordDash 20 false "[REDACTED_OPENROUTER_KEY]".data) t12 := by
    rw [ht12]
    exact keyPattern_noMatch_preserved_key "sk-or-v1-".data clsWordDash 20 false "[REDACTED_OPENROUTER_KEY]".data (by decide) (by decide)
      "AKIA".data clsUpperNum 16 true "[REDACTED_AWS_ACCESS_KEY]".data "REDACTED_AWS_ACCESS_KEY]".data
      (by decide) rfl (by decide) t11 nm2_11
  have nm2_13 : NoMatch (matchKeyPattern "sk-or-v1-".data clsWordDash 20 false "[REDACTED_OPENROUTER_KEY]".data) t13 := by
    rw [ht13]
    exact keyPattern_noMatch_preserved_m13 "sk-or-v1-".data clsWordDash 20 false "[REDACTED_OPENROUTER_KEY]".data (by decide) (by decide)
      (by decide) t12 nm2_12
  have nm2_14 : NoMatch (matchKeyPattern "sk-or-v1-".data clsWordDash 20 false "[REDACTED_OPENROUTER_KEY]".data) t14 := by
    rw [ht14]
    exact keyPattern_noMatch_preserved_m14 "sk-or-v1-".data clsWordDash 20 false "[REDACTED_OPENROUTER_KEY]".data (by decide) (by decide)
      (by decide) t13 nm2_13
  have nm3_3 : NoMatch (matchKeyPattern "sk-or-".data clsWordDash 20 false "[REDACTED_OPENAI_ORG_KEY]".data) t3 := by
    rw [ht3]
    exact keyPattern_self "sk-or-".data clsWordDash 20 false "[REDACTED_OPENAI_ORG_KEY]".data (by decide) (by decide) (by decide)
      (by decide) "REDACTED_OPENAI_ORG_KEY]".data rfl t2
  have nm3_4 : NoMatch (matchKeyPattern "sk-or-".data clsWordDash 20 false "[REDACTED_OPENAI_ORG_KEY]".data) t4 := by
    rw [ht4]
    exact keyPattern_noMatch_preserved_key "sk-or-".data clsWordDash 20 false "[REDACTED_OPENAI_ORG_KEY]".data (by decide) (by decide)
      "sk-".data clsAlnum 48 false "[REDACTED_OPENAI_KEY]".data "REDACTED_OPENAI_KEY]".data
      (by decide) rfl (by decide) t3 nm3_3
  have nm3_5 : NoMatch (matchKeyPattern "sk-or-".data clsWordDash 20 false "[REDACTED_OPENAI_ORG_KEY]".data) t5 := by
    rw [ht5]
    exact keyPattern_noMatch_preserved_key "sk-or-".data clsWordDash 20 false "[REDACTED_OPENAI_ORG_KEY]".data (by decide) (by decide)
      "sk-ant-".data clsWordDash 20 false "[REDACTED_ANTHROPIC_KEY]".data "REDACTED_ANTHROPIC_KEY]".data
      (by decide) rfl (by decide) t4 nm3_4
  have nm3_6 : NoMatch (matchKeyPattern "sk-or-".data clsWordDash 20 false "[REDACTED_OPENAI_ORG_KEY]".data) t6 := by
    rw [ht6]
    exact keyPattern_noMatch_preserved_key "sk-or-".data clsWordDash 20 false "[REDACTED_OPENAI_ORG_KEY]".data (by decide) (by decide)
      "ghp_".data clsAlnum 36 false "[REDACTED_GITHUB_PAT]".data "REDACTED_GITHUB_PAT]".data
      (by decide) rfl (by decide) t5 nm3_5
  have nm3_7 : NoMatch (matchKeyPattern "sk-or-".data clsWordDash 20 false "[REDACTED_OPENAI_ORG_KEY]".data) t7 := by
    rw [ht7]
    exact keyPattern_noMatch_preserved_key "sk-or-".data clsWordDash 20 false "[REDACTED_OPENAI_ORG_KEY]".data (by decide) (by decide)
      "gho_".data clsAlnum 36 false "[REDACTED_GITHUB_OAUTH]".data "REDACTED_GITHUB_OAUTH]".data
      (by decide) rfl (by decide) t6 nm3_6
  have nm3_8 : NoMatch (matchKeyPattern "sk-or-".data clsWordDash 20 false "[REDACTED_OPENAI_ORG_KEY]".data) t8 := by
    rw [ht8]
    exact keyPattern_noMatch_preserved_key "sk-or-".data clsWordDash 20 false "[REDACTED_OPENAI_ORG_KEY]".data (by decide) (by decide)
      "ghs_".data clsAlnum 36 false "[REDACTED_GITHUB_APP]".data "REDACTED_GITHUB_APP]".data
      (by decide) rfl (by decide) t7 nm3_7
  have nm3_9 : NoMatch (matchKeyPattern "sk-or-".data clsWordDash 20 false "[REDACTED_OPENAI_ORG_KEY]".data) t9 := by
    rw [ht9]
    exact keyPattern_noMatch_preserved_key "sk-or-".data clsWordDash 20 false "[REDACTED_OPENAI_ORG_KEY]".data (by decide) (by decide)
      "ghr_".data clsAlnum 36 false "[REDACTED_GITHUB_REFRESH]".data "REDACTED_GITHUB_REFRESH]".data
      (by decide) rfl (by decide) t8 nm3_8
  have nm3_10 : NoMatch (matchKeyPattern "sk-or-".data clsWordDash 20 false "[REDACTED_OPENAI_ORG_KEY]".data) t10 := by
    rw [ht10]
    exact keyPattern_noMatch_preserved_key "sk-or-".data clsWordDash 20 false "[REDACTED_OPENAI_ORG_KEY]".data (by decide) (by decide)
      "github_pat_".data clsWordU 20 false "[REDACTED_GITHUB_FINE_GRAINED]".data "REDACTED_GITHUB_FINE_GRAINED]".data
      (by decide) rfl (by decide) t9 nm3_9
  have nm3_11 : NoMatch (matchKeyPattern "sk-or-".data clsWordDash 20 false "[REDACTED_OPENAI_ORG_KEY]".data) t11 := by
    rw [ht11]
    exact keyPattern_noMatch_preserved_key "sk-or-".data clsWordDash 20 false "[REDACTED_OPENAI_ORG_KEY]".data (by decide) (by decide)
      "AIza".data clsWordDash 35 false "[REDACTED_GOOGLE_KEY]".data "REDACTED_GOOGLE_KEY]".data
      (by decide) rfl (by decide) t10 nm3_10
  have nm3_12 : NoMatch (matchKeyPattern "sk-or-".data clsWordDash 20 false "[REDACTED_OPENAI_ORG_KEY]".data) t12 := by
    rw [ht12]
    exact keyPattern_noMatch_preserved_key "sk-or-".data clsWordDash 20 false "[REDACTED_OPENAI_ORG_KEY]".data (by decide) (by decide)
      "AKIA".data clsUpperNum 16 true "[REDACTED_AWS_ACCESS_KEY]".data "REDACTED_AWS_ACCESS_KEY]".data
      (by decide) rfl (by decide) t11 nm3_11
  have nm3_13 : NoMatch (matchKeyPattern "sk-or-".data clsWordDash 20 false "[REDACTED_OPENAI_ORG_KEY]".data) t13 := by
    rw [ht13]
    exact keyPattern_noMatch_preserved_m13 "sk-or-".data clsWordDash 20 false "[REDACTED_OPENAI_ORG_KEY]".data (by decide) (by decide)
      (by decide) t12 nm3_12
  have nm3_14 : NoMatch (matchKeyPattern "sk-or-".data clsWordDash 20 false "[REDACTED_OPENAI_ORG_KEY]".data) t14 := by
    rw [ht14]
    exact keyPattern_noMatch_preserved_m14 "sk-or-".data clsWordDash 20 false "[REDACTED_OPENAI_ORG_KEY]".data (by decide) (by decide)
      (by decide) t13 nm3_13
  have nm4_4 : NoMatch (matchKeyPattern "sk-".data clsAlnum 48 false "[REDACTED_OPENAI_KEY]".data) t4 := by
    rw [ht4]
    exact keyPattern_self "sk-".data clsAlnum 48 false "[REDACTED_OPENAI_KEY]".data (by decide) (by decide) (by decide)
      (by decide) "REDACTED_OPENAI_KEY]".data rfl t3
  have nm4_5 : NoMatch (matchKeyPattern "sk-".data clsAlnum 48 false "[REDACTED_OPENAI_KEY]".data) t5 := by
    rw [ht5]
    exact keyPattern_noMatch_preserved_key "sk-".data clsAlnum 48 false "[REDACTED_OPENAI_KEY]".data (by decide) (by decide)
      "sk-ant-".data clsWordDash 20 false "[REDACTED_ANTHROPIC_KEY]".data "REDACTED_ANTHROPIC_KEY]".data
      (by decide) rfl (by decide) t4 nm4_4
  have nm4_6 : NoMatch (matchKeyPattern "sk-".data clsAlnum 48 false "[REDACTED_OPENAI_KEY]".data) t6 := by
    rw [ht6]
    exact keyPattern_noMatch_preserved_key "sk-".data clsAlnum 48 false "[REDACTED_OPENAI_KEY]".data (by decide) (by decide)
      "ghp_".data clsAlnum 36 false "[REDACTED_GITHUB_PAT]".data "REDACTED_GITHUB_PAT]".data
      (by decide) rfl (by decide) t5 nm4_5
  have nm4_7 : NoMatch (matchKeyPattern "sk-".data clsAlnum 48 false "[REDACTED_OPENAI_KEY]".data) t7 := by
    rw [ht7]
    exact keyPattern_noMatch_preserved_key "sk-".data clsAlnum 48 false "[REDACTED_OPENAI_KEY]".data (by decide) (by decide)
      "gho_".data clsAlnum 36 false "[REDACTED_GITHUB_OAUTH]".data "REDACTED_GITHUB_OAUTH]".data
      (by decide) rfl (by decide) t6 nm4_6
  have nm4_8 : NoMatch (matchKeyPattern "sk-".data clsAlnum 48 false "[REDACTED_OPENAI_KEY]".data) t8 := by
    rw [ht8]
    exact keyPattern_noMatch_preserved_key "sk-".data clsAlnum 48 false "[REDACTED_OPENAI_KEY]".data (by decide) (by decide)
      "ghs_".data clsAlnum 36 false "[REDACTED_GITHUB_APP]".data "REDACTED_GITHUB_APP]".data
      (by decide) rfl (by decide) t7 nm4_7
  have nm4_9 : NoMatch (matchKeyPattern "sk-".data clsAlnum 48 false "[REDACTED_OPENAI_KEY]".data) t9 := by
    rw [ht9]
    exact keyPattern_noMatch_preserved_key "sk-".data clsAlnum 48 false "[REDACTED_OPENAI_KEY]".data (by decide) (by decide)
      "ghr_".data clsAlnum 36 false "[REDACTED_GITHUB_REFRESH]".data "REDACTED_GITHUB_REFRESH]".data
      (by decide) rfl (by decide) t8 nm4_8
  have nm4_10 : NoMatch (matchKeyPattern "sk-".data clsAlnum 48 false "[REDACTED_OPENAI_KEY]".data) t10 := by
    rw [ht10]
    exact keyPattern_noMatch_preserved_key "sk-".data clsAlnum 48 false "[REDACTED_OPENAI_KEY]".data (by decide) (by decide)
      "github_pat_".data clsWordU 20 false "[REDACTED_GITHUB_FINE_GRAINED]".data "REDACTED_GITHUB_FINE_GRAINED]".data
      (by decide) rfl (by decide) t9 nm4_9
  have nm4_11 : NoMatch (matchKeyPattern "sk-".data clsAlnum 48 false "[REDACTED_OPENAI_KEY]".data) t11 := by
    rw [ht11]
    exact keyPattern_noMatch_preserved_key "sk-".data clsAlnum 48 false "[REDACTED_OPENAI_KEY]".data (by decide) (by decide)
      "AIza".data clsWordDash 35 false "[REDACTED_GOOGLE_KEY]".data "REDACTED_GOOGLE_KEY]".data
      (by decide) rfl (by decide) t10 nm4_10
  have nm4_12 : NoMatch (matchKeyPattern "sk-".data clsAlnum 48 false "[REDACTED_OPENAI_KEY]".data) t12 := by
    rw [ht12]
    exact keyPattern_noMatch_preserved_key "sk-".data clsAlnum 48 false "[REDACTED_OPENAI_KEY]".data (by decide) (by decide)
      "AKIA".data clsUpperNum 16 true "[REDACTED_AWS_ACCESS_KEY]".data "REDACTED_AWS_ACCESS_KEY]".data
      (by decide) rfl (by decide) t11 nm4_11
  have nm4_13 : NoMatch (matchKeyPattern "sk-".data clsAlnum 48 false "[REDACTED_OPENAI_KEY]".data) t13 := by
    rw [ht13]
    exact keyPattern_noMatch_preserved_m13 "sk-".data clsAlnum 48 false "[REDACTED_OPENAI_KEY]".data (by decide) (by decide)
      (by decide) t12 nm4_12
  have nm4_14 : NoMatch (matchKeyPattern "sk-".data clsAlnum 48 false "[REDACTED_OPENAI_KEY]".data) t14 := by
    rw [ht14]
    exact keyPattern_noMatch_preserved_m14 "sk-".data clsAlnum 48 false "[REDACTED_OPENAI_KEY]".data (by decide) (by decide)
      (by decide) t13 nm4_13
  have nm5_5 : NoMatch (matchKeyPattern "sk-ant-".data clsWordDash 20 false "[REDACTED_ANTHROPIC_KEY]".data) t5 := by
    rw [ht5]
    exact keyPattern_self "sk-ant-".data clsWordDash 20 false "[REDACTED_ANTHROPIC_KEY]".data (by decide) (by decide) (by decide)
      (by decide) "REDACTED_ANTHROPIC_KEY]".data rfl t4
  have nm5_6 : NoMatch (matchKeyPattern "sk-ant-".data clsWordDash 20 false "[REDACTED_ANTHROPIC_KEY]".data) t6 := by
    rw [ht6]
    exact keyPattern_noMatch_preserved_key "sk-ant-".data clsWordDash 20 false "[REDACTED_ANTHROPIC_KEY]".data (by decide) (by decide)
      "ghp_".data clsAlnum 36 false "[REDACTED_GITHUB_PAT]".data "REDACTED_GITHUB_PAT]".data
      (by decide) rfl (by decide) t5 nm5_5
  have nm5_7 : NoMatch (matchKeyPattern "sk-ant-".data clsWordDash 20 false "[REDACTED_ANTHROPIC_KEY]".data) t7 := by
    rw [ht7]
    exact keyPattern_noMatch_preserved_key "sk-ant-".data clsWordDash 20 false "[REDACTED_ANTHROPIC_KEY]".data (by decide) (by decide)
      "gho_".data clsAlnum 36 false "[REDACTED_GITHUB_OAUTH]".data "REDACTED_GITHUB_OAUTH]".data
      (by decide) rfl (by decide) t6 nm5_6
  have nm5_8 : NoMatch (matchKeyPattern "sk-ant-".data clsWordDash 20 false "[REDACTED_ANTHROPIC_KEY]".data) t8 := by
    rw [ht8]
    exact keyPattern_noMatch_preserved_key "sk-ant-".data clsWordDash 20 false "[REDACTED_ANTHROPIC_KEY]".data (by decide) (by decide)
      "ghs_".data clsAlnum 36 false "[REDACTED_GITHUB_APP]".data "REDACTED_GITHUB_APP]".data
      (by decide) rfl (by decide) t7 nm5_7
  have nm5_9 : NoMatch (matchKeyPattern "sk-ant-".data clsWordDash 20 false "[REDACTED_ANTHROPIC_KEY]".data) t9 := by
    rw [ht9]
    exact keyPattern_noMatch_preserved_key "sk-ant-".data clsWordDash 20 false "[REDACTED_ANTHROPIC_KEY]".data (by decide) (by decide)
      "ghr_".data clsAlnum 36 false "[REDACTED_GITHUB_REFRESH]".data "REDACTED_GITHUB_REFRESH]".data
      (by decide) rfl (by decide) t8 nm5_8
  have nm5_10 : NoMatch (matchKeyPattern "sk-ant-".data clsWordDash 20 false "[REDACTED_ANTHROPIC_KEY]".data) t10 := by
    rw [ht10]
    exact keyPattern_noMatch_preserved_key "sk-ant-".data clsWordDash 20 false "[REDACTED_ANTHROPIC_KEY]".data (by decide) (by decide)
      "github_pat_".data clsWordU 20 false "[REDACTED_GITHUB_FINE_GRAINED]".data "REDACTED_GITHUB_FINE_GRAINED]".data
      (by decide) rfl (by decide) t9 nm5_9
  have nm5_11 : NoMatch (matchKeyPattern "sk-ant-".data clsWordDash 20 false "[REDACTED_ANTHROPIC_KEY]".data) t11 := by
    rw [ht11]
    exact keyPattern_noMatch_preserved_key "sk-ant-".data clsWordDash 20 false "[REDACTED_ANTHROPIC_KEY]".data (by decide) (by decide)
      "AIza".data clsWordDash 35 false "[REDACTED_GOOGLE_KEY]".data "REDACTED_GOOGLE_KEY]".data
      (by decide) rfl (by decide) t10 nm5_10
  have nm5_12 : NoMatch (matchKeyPattern "sk-ant-".data clsWordDash 20 false "[REDACTED_ANTHROPIC_KEY]".data) t12 := by
    rw [ht12]
    exact keyPattern_noMatch_preserved_key "sk-ant-".data clsWordDash 20 false "[REDACTED_ANTHROPIC_KEY]".data (by decide) (by decide)
      "AKIA".data clsUpperNum 16 true "[REDACTED_AWS_ACCESS_KEY]".data "REDACTED_AWS_ACCESS_KEY]".data
      (by decide) rfl (by decide) t11 nm5_11
  have nm5_13 : NoMatch (matchKeyPattern "sk-ant-".data clsWordDash 20 false "[REDACTED_ANTHROPIC_KEY]".data) t13 := by
    rw [ht13]
    exact keyPattern_noMatch_preserved_m13 "sk-ant-".data clsWordDash 20 false "[REDACTED_ANTHROPIC_KEY]".data (by decide) (by decide)
      (by decide) t12 nm5_12
  have nm5_14 : NoMatch (matchKeyPattern "sk-ant-".data clsWordDash 20 false "[REDACTED_ANTHROPIC_KEY]".data) t14 := by
    rw [ht14]
    exact keyPattern_noMatch_preserved_m14 "sk-ant-".data clsWordDash 20 false "[REDACTED_ANTHROPIC_KEY]".data (by decide) (by decide)
      (by decide) t13 nm5_13
  have nm6_6 : NoMatch (matchKeyPattern "ghp_".data clsAlnum 36 false "[REDACTED_GITHUB_PAT]".data) t6 := by
    rw [ht6]
    exact keyPattern_self "ghp_".data clsAlnum 36 false "[REDACTED_GITHUB_PAT]".data (by decide) (by decide) (by decide)
      (by decide) "REDACTED_GITHUB_PAT]".data rfl t5
  have nm6_7 : NoMatch (matchKeyPattern "ghp_".data clsAlnum 36 false "[REDACTED_GITHUB_PAT]".data) t7 := by
    rw [ht7]
    exact keyPattern_noMatch_preserved_key "ghp_".data clsAlnum 36 false "[REDACTED_GITHUB_PAT]".data (by decide) (by decide)
      "gho_".data clsAlnum 36 false "[REDACTED_GITHUB_OAUTH]".data "REDACTED_GITHUB_OAUTH]".data
      (by decide) rfl (by decide) t6 nm6_6
  have nm6_8 : NoMatch (matchKeyPattern "ghp_".data clsAlnum 36 false "[REDACTED_GITHUB_PAT]".data) t8 := by
    rw [ht8]
    exact keyPattern_noMatch_preserved_key "ghp_".data clsAlnum 36 false "[REDACTED_GITHUB_PAT]".data (by decide) (by decide)
      "ghs_".data clsAlnum 36 false "[REDACTED_GITHUB_APP]".data "REDACTED_GITHUB_APP]".data
      (by decide) rfl (by decide) t7 nm6_7
  have nm6_9 : NoMatch (matchKeyPattern "ghp_".data clsAlnum 36 false "[REDACTED_GITHUB_PAT]".data) t9 := by
    rw [ht9]
    exact keyPattern_noMatch_preserved_key "ghp_".data clsAlnum 36 false "[REDACTED_GITHUB_PAT]".data (by decide) (by decide)
      "ghr_".data clsAlnum 36 false "[REDACTED_GITHUB_REFRESH]".data "REDACTED_GITHUB_REFRESH]".data
      (by decide) rfl (by decide) t8 nm6_8
  have nm6_10 : NoMatch (matchKeyPattern "ghp_".data clsAlnum 36 false "[REDACTED_GITHUB_PAT]".data) t10 := by
    rw [ht10]
    exact keyPattern_noMatch_preserved_key "ghp_".data clsAlnum 36 false "[REDACTED_GITHUB_PAT]".data (by decide) (by decide)
      "github_pat_".data clsWordU 20 false "[REDACTED_GITHUB_FINE_GRAINED]".data "REDACTED_GITHUB_FINE_GRAINED]".data
      (by decide) rfl (by decide) t9 nm6_9
  have nm6_11 : NoMatch (matchKeyPattern "ghp_".data clsAlnum 36 false "[REDACTED_GITHUB_PAT]".data) t11 := by
    rw [ht11]
    exact keyPattern_noMatch_preserved_key "ghp_".data clsAlnum 36 false "[REDACTED_GITHUB_PAT]".data (by decide) (by decide)
      "AIza".data clsWordDash 35 false "[REDACTED_GOOGLE_KEY]".data "REDACTED_GOOGLE_KEY]".data
      (by decide) rfl (by decide) t10 nm6_10
  have nm6_12 : NoMatch (matchKeyPattern "ghp_".data clsAlnum 36 false "[REDACTED_GITHUB_PAT]".data) t12 := by
    rw [ht12]
    exact keyPattern_noMatch_preserved_key "ghp_".data clsAlnum 36 false "[REDACTED_GITHUB_PAT]".data (by decide) (by decide)
      "AKIA".data clsUpperNum 16 true "[REDACTED_AWS_ACCESS_KEY]".data "REDACTED_AWS_ACCESS_KEY]".data
      (by decide) rfl (by decide) t11 nm6_11
  have nm6_13 : NoMatch (matchKeyPattern "ghp_".data clsAlnum 36 false "[REDACTED_GITHUB_PAT]".data) t13 := by
    rw [ht13]
    exact keyPattern_noMatch_preserved_m13 "ghp_".data clsAlnum 36 false "[REDACTED_GITHUB_PAT]".data (by decide) (by decide)
      (by decide) t12 nm6_12
  have nm6_14 : NoMatch (matchKeyPattern "ghp_".data clsAlnum 36 false "[REDACTED_GITHUB_PAT]".data) t14 := by
    rw [ht14]
    exact keyPattern_noMatch_preserved_m14 "ghp_".data clsAlnum 36 false "[REDACTED_GITHUB_PAT]".data (by decide) (by decide)
      (by decide) t13 nm6_13
  have nm7_7 : NoMatch (matchKeyPattern "gho_".data clsAlnum 36 false "[REDACTED_GITHUB_OAUTH]".data) t7 := by
    rw [ht7]
    exact keyPattern_self "gho_".data clsAlnum 36 false "[REDACTED_GITHUB_OAUTH]".data (by decide) (by decide) (by decide)
      (by decide) "REDACTED_GITHUB_OAUTH]".data rfl t6
  have nm7_8 : NoMatch (matchKeyPattern "gho_".data clsAlnum 36 false "[REDACTED_GITHUB_OAUTH]".data) t8 := by
    rw [ht8]
    exact keyPattern_noMatch_preserved_key "gho_".data clsAlnum 36 false "[REDACTED_GITHUB_OAUTH]".data (by decide) (by decide)
      "ghs_".data clsAlnum 36 false "[REDACTED_GITHUB_APP]".data "REDACTED_GITHUB_APP]".data
      (by decide) rfl (by decide) t7 nm7_7
  have nm7_9 : NoMatch (matchKeyPattern "gho_".data clsAlnum 36 false "[REDACTED_GITHUB_OAUTH]".data) t9 := by
    rw [ht9]
    exact keyPattern_noMatch_preserved_key "gho_".data clsAlnum 36 false "[REDACTED_GITHUB_OAUTH]".data (by decide) (by decide)
      "ghr_".data clsAlnum 36 false "[REDACTED_GITHUB_REFRESH]".data "REDACTED_GITHUB_REFRESH]".data
      (by decide) rfl (by decide) t8 nm7_8
  have nm7_10 : NoMatch (matchKeyPattern "gho_".data clsAlnum 36 false "[REDACTED_GITHUB_OAUTH]".data) t10 := by
    rw [ht10]
    exact keyPattern_noMatch_preserved_key "gho_".data clsAlnum 36 false "[REDACTED_GITHUB_OAUTH]".data (by decide) (by decide)
      "github_pat_".data clsWordU 20 false "[REDACTED_GITHUB_FINE_GRAINED]".data "REDACTED_GITHUB_FINE_GRAINED]".data
      (by decide) rfl (by decide) t9 nm7_9
  have nm7_11 : NoMatch (matchKeyPattern "gho_".data clsAlnum 36 false "[REDACTED_GITHUB_OAUTH]".data) t11 := by
    rw [ht11]
    exact keyPattern_noMatch_preserved_key "gho_".data clsAlnum 36 false "[REDACTED_GITHUB_OAUTH]".data (by decide) (by decide)
      "AIza".data clsWordDash 35 false "[REDACTED_GOOGLE_KEY]".data "REDACTED_GOOGLE_KEY]".data
      (by decide) rfl (by decide) t10 nm7_10
  have nm7_12 : NoMatch (matchKeyPattern "gho_".data clsAlnum 36 false "[REDACTED_GITHUB_OAUTH]".data) t12 := by
    rw [ht12]
    exact keyPattern_noMatch_preserved_key "gho_".data clsAlnum 36 false "[REDACTED_GITHUB_OAUTH]".data (by decide) (by decide)
      "AKIA".data clsUpperNum 16 true "[REDACTED_AWS_ACCESS_KEY]".data "REDACTED_AWS_ACCESS_KEY]".data
      (by decide) rfl (by decide) t11 nm7_11
  have nm7_13 : NoMatch (matchKeyPattern "gho_".data clsAlnum 36 false "[REDACTED_GITHUB_OAUTH]".data) t13 := by
    rw [ht13]
    exact keyPattern_noMatch_preserved_m13 "gho_".data clsAlnum 36 false "[REDACTED_GITHUB_OAUTH]".data (by decide) (by decide)
      (by decide) t12 nm7_12
  have nm7_14 : NoMatch (matchKeyPattern "gho_".data clsAlnum 36 false "[REDACTED_GITHUB_OAUTH]".data) t14 := by
    rw [ht14]
    exact keyPattern_noMatch_preserved_m14 "gho_".data clsAlnum 36 false "[REDACTED_GITHUB_OAUTH]".data (by decide) (by decide)
      (by decide) t13 nm7_13
  have nm8_8 : NoMatch (matchKeyPattern "ghs_".data clsAlnum 36 false "[REDACTED_GITHUB_APP]".data) t8 := by
    rw [ht8]
    exact keyPattern_self "ghs_".data clsAlnum 36 false "[REDACTED_GITHUB_APP]".data (by decide) (by decide) (by decide)
      (by decide) "REDACTED_GITHUB_APP]".data rfl t7
  have nm8_9 : NoMatch (matchKeyPattern "ghs_".data clsAlnum 36 false "[REDACTED_GITHUB_APP]".data) t9 := by
    rw [ht9]
    exact keyPattern_noMatch_preserved_key "ghs_".data clsAlnum 36 false "[REDACTED_GITHUB_APP]".data (by decide) (by decide)
      "ghr_".data clsAlnum 36 false "[REDACTED_GITHUB_REFRESH]".data "REDACTED_GITHUB_REFRESH]".data
      (by decide) rfl (by decide) t8 nm8_8
  have nm8_10 : NoMatch (matchKeyPattern "ghs_".data clsAlnum 36 false "[REDACTED_GITHUB_APP]".data) t10 := by
    rw [ht10]
    exact keyPattern_noMatch_preserved_key "ghs_".data clsAlnum 36 false "[REDACTED_GITHUB_APP]".data (by decide) (by decide)
      "github_pat_".data clsWordU 20 false "[REDACTED_GITHUB_FINE_GRAINED]".data "REDACTED_GITHUB_FINE_GRAINED]".data
      (by decide) rfl (by decide) t9 nm8_9
  have nm8_11 : NoMatch (matchKeyPattern "ghs_".data clsAlnum 36 false "[REDACTED_GITHUB_APP]".data) t11 := by
    rw [ht11]
    exact keyPattern_noMatch_preserved_key "ghs_".data clsAlnum 36 false "[REDACTED_GITHUB_APP]".data (by decide) (by decide)
      "AIza".data clsWordDash 35 false "[REDACTED_GOOGLE_KEY]".data "REDACTED_GOOGLE_KEY]".data
      (by decide) rfl (by decide) t10 nm8_10
  have nm8_12 : NoMatch (matchKeyPattern "ghs_".data clsAlnum 36 false "[REDACTED_GITHUB_APP]".data) t12 := by
    rw [ht12]
    exact keyPattern_noMatch_preserved_key "ghs_".data clsAlnum 36 false "[REDACTED_GITHUB_APP]".data (by decide) (by decide)
      "AKIA".data clsUpperNum 16 true "[REDACTED_AWS_ACCESS_KEY]".data "REDACTED_AWS_ACCESS_KEY]".data
      (by decide) rfl (by decide) t11 nm8_11
  have nm8_13 : NoMatch (matchKeyPattern "ghs_".data clsAlnum 36 false "[REDACTED_GITHUB_APP]".data) t13 := by
    rw [ht13]
    exact keyPattern_noMatch_preserved_m13 "ghs_".data clsAlnum 36 false "[REDACTED_GITHUB_APP]".data (by decide) (by decide)
      (by decide) t12 nm8_12
  have nm8_14 : NoMatch (matchKeyPattern "ghs_".data clsAlnum 36 false "[REDACTED_GITHUB_APP]".data) t14 := by
    rw [ht14]
    exact keyPattern_noMatch_preserved_m14 "ghs_".data clsAlnum 36 false "[REDACTED_GITHUB_APP]".data (by decide) (by decide)
      (by decide) t13 nm8_13
  have nm9_9 : NoMatch (matchKeyPattern "ghr_".data clsAlnum 36 false "[REDACTED_GITHUB_REFRESH]".data) t9 := by
    rw [ht9]
    exact keyPattern_self "ghr_".data clsAlnum 36 false "[REDACTED_GITHUB_REFRESH]".data (by decide) (by decide) (by decide)
      (by decide) "REDACTED_GITHUB_REFRESH]".data rfl t8
  have nm9_10 : NoMatch (matchKeyPattern "ghr_".data clsAlnum 36 false "[REDACTED_GITHUB_REFRESH]".data) t10 := by
    rw [ht10]
    exact keyPattern_noMatch_preserved_key "ghr_".data clsAlnum 36 false "[REDACTED_GITHUB_REFRESH]".data (by decide) (by decide)
      "github_pat_".data clsWordU 20 false "[REDACTED_GITHUB_FINE_GRAINED]".data "REDACTED_GITHUB_FINE_GRAINED]".data
      (by decide) rfl (by decide) t9 nm9_9
  have nm9_11 : NoMatch (matchKeyPattern "ghr_".data clsAlnum 36 false "[REDACTED_GITHUB_REFRESH]".data) t11 := by
    rw [ht11]
    exact keyPattern_noMatch_preserved_key "ghr_".data clsAlnum 36 false "[REDACTED_GITHUB_REFRESH]".data (by decide) (by decide)
      "AIza".data clsWordDash 35 false "[REDACTED_GOOGLE_KEY]".data "REDACTED_GOOGLE_KEY]".data
      (by decide) rfl (by decide) t10 nm9_10
  have nm9_12 : NoMatch (matchKeyPattern "ghr_".data clsAlnum 36 false "[REDACTED_GITHUB_REFRESH]".data) t12 := by
    rw [ht12]
    exact keyPattern_noMatch_preserved_key "ghr_".data clsAlnum 36 false "[REDACTED_GITHUB_REFRESH]".data (by decide) (by decide)
      "AKIA".data clsUpperNum 16 true "[REDACTED_AWS_ACCESS_KEY]".data "REDACTED_AWS_ACCESS_KEY]".data
      (by decide) rfl (by decide) t11 nm9_11
  have nm9_13 : NoMatch (matchKeyPattern "ghr_".data clsAlnum 36 false "[REDACTED_GITHUB_REFRESH]".data) t13 := by
    rw [ht13]
    exact keyPattern_noMatch_preserved_m13 "ghr_".data clsAlnum 36 false "[REDACTED_GITHUB_REFRESH]".data (by decide) (by decide)
      (by decide) t12 nm9_12
  have nm9_14 : NoMatch (matchKeyPattern "ghr_".data clsAlnum 36 false "[REDACTED_GITHUB_REFRESH]".data) t14 := by
    rw [ht14]
    exact keyPattern_noMatch_preserved_m14 "ghr_".data clsAlnum 36 false "[REDACTED_GITHUB_REFRESH]".data (by decide) (by decide)
      (by decide) t13 nm9_13
  have nm10_10 : NoMatch (matchKeyPattern "github_pat_".data clsWordU 20 false "[REDACTED_GITHUB_FINE_GRAINED]".data) t10 := by
    rw [ht10]
    exact keyPattern_self "github_pat_".data clsWordU 20 false "[REDACTED_GITHUB_FINE_GRAINED]".data (by decide) (by decide) (by decide)
      (by decide) "REDACTED_GITHUB_FINE_GRAINED]".data rfl t9
  have nm10_11 : NoMatch (matchKeyPattern "github_pat_".data clsWordU 20 false "[REDACTED_GITHUB_FINE_GRAINED]".data) t11 := by
    rw [ht11]
    exact keyPattern_noMatch_preserved_key "github_pat_".data clsWordU 20 false "[REDACTED_GITHUB_FINE_GRAINED]".data (by decide) (by decide)
      "AIza".data clsWordDash 35 false "[REDACTED_GOOGLE_KEY]".data "REDACTED_GOOGLE_KEY]".data
      (by decide) rfl (by decide) t10 nm10_10
  have nm10_12 : NoMatch (matchKeyPattern "github_pat_".data clsWordU 20 false "[REDACTED_GITHUB_FINE_GRAINED]".data) t12 := by
    rw [ht12]
    exact keyPattern_noMatch_preserved_key "github_pat_".data clsWordU 20 false "[REDACTED_GITHUB_FINE_GRAINED]".data (by decide) (by decide)
      "AKIA".data clsUpperNum 16 true "[REDACTED_AWS_ACCESS_KEY]".data "REDACTED_AWS_ACCESS_KEY]".data
      (by decide) rfl (by decide) t11 nm10_11
  have nm10_13 : NoMatch (matchKeyPattern "github_pat_".data clsWordU 20 false "[REDACTED_GITHUB_FINE_GRAINED]".data) t13 := by
    rw [ht13]
    exact keyPattern_noMatch_preserved_m13 "github_pat_".data clsWordU 20 false "[REDACTED_GITHUB_FINE_GRAINED]".data (by decide) (by decide)
      (by decide) t12 nm10_12
  have nm10_14 : NoMatch (matchKeyPattern "github_pat_".data clsWordU 20 false "[REDACTED_GITHUB_FINE_GRAINED]".data) t14 := by
    rw [ht14]
    exact keyPattern_noMatch_preserved_m14 "github_pat_".data clsWordU 20 false "[REDACTED_GITHUB_FINE_GRAINED]".data (by decide) (by decide)
      (by decide) t13 nm10_13
  have nm11_11 : NoMatch (matchKeyPattern "AIza".data clsWordDash 35 false "[REDACTED_GOOGLE_KEY]".data) t11 := by
    rw [ht11]
    exact keyPattern_self "AIza".data clsWordDash 35 false "[REDACTED_GOOGLE_KEY]".data (by decide) (by decide) (by decide)
      (by decide) "REDACTED_GOOGLE_KEY]".data rfl t10
  have nm11_12 : NoMatch (matchKeyPattern "AIza".data clsWordDash 35 false "[REDACTED_GOOGLE_KEY]".data) t12 := by
    rw [ht12]
    exact keyPattern_noMatch_preserved_key "AIza".data clsWordDash 35 false "[REDACTED_GOOGLE_KEY]".data (by decide) (by decide)
      "AKIA".data clsUpperNum 16 true "[REDACTED_AWS_ACCESS_KEY]".data "REDACTED_AWS_ACCESS_KEY]".data
      (by decide) rfl (by decide) t11 nm11_11
  have nm11_13 : NoMatch (matchKeyPattern "AIza".data clsWordDash 35 false "[REDACTED_GOOGLE_KEY]".data) t13 := by
    rw [ht13]
    exact keyPattern_noMatch_preserved_m13 "AIza".data clsWordDash 35 false "[REDACTED_GOOGLE_KEY]".data (by decide) (by decide)
      (by decide) t12 nm11_12
  have nm11_14 : NoMatch (matchKeyPattern "AIza".data clsWordDash 35 false "[REDACTED_GOOGLE_KEY]".data) t14 := by
    rw [ht14]
    exact keyPattern_noMatch_preserved_m14 "AIza".data clsWordDash 35 false "[REDACTED_GOOGLE_KEY]".data (by decide) (by decide)
      (by decide) t13 nm11_13
  have nm12_12 : NoMatch (matchKeyPattern "AKIA".data clsUpperNum 16 true "[REDACTED_AWS_ACCESS_KEY]".data) t12 := by
    rw [ht12]
    exact keyPattern_self "AKIA".data clsUpperNum 16 true "[REDACTED_AWS_ACCESS_KEY]".data (by decide) (by decide) (by decide)
      (by decide) "REDACTED_AWS_ACCESS_KEY]".data rfl t11
  have nm12_13 : NoMatch (matchKeyPattern "AKIA".data clsUpperNum 16 true "[REDACTED_AWS_ACCESS_KEY]".data) t13 := by
    rw [ht13]
    exact keyPattern_noMatch_preserved_m13 "AKIA".data clsUpperNum 16 true "[REDACTED_AWS_ACCESS_KEY]".data (by decide) (by decide)
      (by decide) t12 nm12_12
  have nm12_14 : NoMatch (matchKeyPattern "AKIA".data clsUpperNum 16 true "[REDACTED_AWS_ACCESS_KEY]".data) t14 := by
    rw [ht14]
    exact keyPattern_noMatch_preserved_m14 "AKIA".data clsUpperNum 16 true "[REDACTED_AWS_ACCESS_KEY]".data (by decide) (by decide)
      (by decide) t13 nm12_13
  have sf13_13 : SelfFixed matchEnvAssign t13 := by
    rw [ht13]
    exact envAssign_selfFixed t12
  have sf13_14 : SelfFixed matchEnvAssign t14 := by
    rw [ht14]
    exact envAssign_selfFixed_preserved t13 sf13_13
  have sf14_14 : SelfFixed matchExportEnvAssign t14 := by
    rw [ht14]
    exact exportAssign_selfFixed t13
  have e1 : subst (matchKeyPattern "sk-proj-".data clsWordDash 20 false "[REDACTED_OPENAI_PROJECT_KEY]".data) t14 = t14 :=
    subst_eq_self_of_selfFixed _ (mkp_pos (by decide)) t14
      (noMatch_selfFixed nm1_14)
  have e2 : subst (matchKeyPattern "sk-or-v1-".data clsWordDash 20 false "[REDACTED_OPENROUTER_KEY]".data) t14 = t14 :=
    subst_eq_self_of_selfFixed _ (mkp_pos (by decide)) t14
      (noMatch_selfFixed nm2_14)
  have e3 : subst (matchKeyPattern "sk-or-".data clsWordDash 20 false "[REDACTED_OPENAI_ORG_KEY]".data) t14 = t14 :=
    subst_eq_self_of_selfFixed _ (mkp_pos (by decide)) t14
      (noMatch_selfFixed nm3_14)
  have e4 : subst (matchKeyPattern "sk-".data clsAlnum 48 false "[REDACTED_OPENAI_KEY]".data) t14 = t14 :=
    subst_eq_self_of_selfFixed _ (mkp_pos (by decide)) t14
      (noMatch_selfFixed nm4_14)
  have e5 : subst (matchKeyPattern "sk-ant-".data clsWordDash 20 false "[REDACTED_ANTHROPIC_KEY]".data) t14 = t14 :=
    subst_eq_self_of_selfFixed _ (mkp_pos (by decide)) t14
      (noMatch_selfFixed nm5_14)
  have e6 : subst (matchKeyPattern "ghp_".data clsAlnum 36 false "[REDACTED_GITHUB_PAT]".data) t14 = t14 :=
    subst_eq_self_of_selfFixed _ (mkp_pos (by decide)) t14
      (noMatch_selfFixed nm6_14)
  have e7 : subst (matchKeyPattern "gho_".data clsAlnum 36 false "[REDACTED_GITHUB_OAUTH]".data) t14 = t14 :=
    subst_eq_self_of_selfFixed _ (mkp_pos (by decide)) t14
      (noMatch_selfFixed nm7_14)
  have e8 : subst (matchKeyPattern "ghs_".data clsAlnum 36 false "[REDACTED_GITHUB_APP]".data) t14 = t14 :=
    subst_eq_self_of_selfFixed _ (mkp_pos (by decide)) t14
      (noMatch_selfFixed nm8_14)
  have e9 : subst (matchKeyPattern "ghr_".data clsAlnum 36 false "[REDACTED_GITHUB_REFRESH]".data) t14 = t14 :=
    subst_eq_self_of_selfFixed _ (mkp_pos (by decide)) t14
      (noMatch_selfFixed nm9_14)
  have e10 : subst (matchKeyPattern "github_pat_".data clsWordU 20 false "[REDACTED_GITHUB_FINE_GRAINED]".data) t14 = t14 :=
    subst_eq_self_of_selfFixed _ (mkp_pos (by decide)) t14
      (noMatch_selfFixed nm10_14)
  have e11 : subst (matchKeyPattern "AIza".data clsWordDash 35 false "[REDACTED_GOOGLE_KEY]".data) t14 = t14 :=
    subst_eq_self_of_selfFixed _ (mkp_pos (by decide)) t14
      (noMatch_selfFixed nm11_14)
  have e12 : subst (matchKeyPattern "AKIA".data clsUpperNum 16 true "[REDACTED_AWS_ACCESS_KEY]".data) t14 = t14 :=
    subst_eq_self_of_selfFixed _ (mkp_pos (by decide)) t14
      (noMatch_selfFixed nm12_14)
  have e13 : subst matchEnvAssign t14 = t14 :=
    subst_eq_self_of_selfFixed _ m13_pos t14 sf13_14
  have e14 : subst matchExportEnvAssign t14 = t14 :=
    subst_eq_self_of_selfFixed _ m14_pos t14 sf14_14
  rw [hsan]
  simp only [sanitizeChars, API_KEY_PATTERNS, List.foldl_cons, List.foldl_nil]
  rw [e1, e2, e3, e4, e5, e6, e7, e8, e9, e10, e11, e12, e13, e14]

/-- C10: the redaction function `sanitize_text` is idempotent — for every
string `s`, `sanitize_text (sanitize_text s) = sanitize_text s`, so
re-sanitizing an already-sanitized streamed line during the whole-log
sanitization pass never changes the text again. -/
theorem sanitize_text_idem (s : String) :
    sanitize_text (sanitize_text s) = sanitize_text s := by
  simp only [sanitize_text]
  rw [sanitizeChars_idem]
